import Mathlib

/-!
# Verification of the xparse parsing toolkit

Shallow embedding of the xparse repository (regular-automata engine,
character lexer, grammar algebra, recursive-descent parser, parse-tree
reduction) together with proofs and refutations of the specification
claims.

Conventions of the embedding:

* Python `set` values holding NFA states become `Finset Nat`.
* Python dictionaries become association lists with first-match lookup;
  `d[k] = v` replaces the binding in place when the key is present and
  appends it otherwise, matching `dict.__setitem__`.
* Python exceptions become the `Except PErr` monad.
* Unbounded recursion (the recursive-descent matcher, the fixed-point
  search of the epsilon closure, the subset-construction worklist) takes
  an explicit fuel argument; running out of fuel is an error value,
  corresponding to Python's RecursionError / non-termination.
-/

/-- Python exceptions raised by the embedded code. -/
inductive PErr where
  | indexError
  | typeError
  | attributeError
  | nameError
  | valueError
  | keyError
  | recursionError
deriving DecidableEq, Repr

-- ---------------------------------------------------------------------
-- automata.py : table rows of the NFA transition table
-- ---------------------------------------------------------------------

/-- `EPSILON = "'e"` from `automata.py` (the apostrophe is written as an
escape). -/
def EPSILON : String := "\x27e"

/-- One row of an NFA transition table: the `data` dictionary of a
`TableRow` whose values are sets of states and whose default is
`set` (so a missing column reads as the empty set). -/
abbrev NRow := List (String × Finset Nat)

/-- `TableRow.__getitem__` for NFA rows: `data.get(item, set())`. -/
def rowGet (r : NRow) (k : String) : Finset Nat :=
  match r.find? (fun p => p.1 == k) with
  | some p => p.2
  | none => ∅

/-- `TableRow.__setitem__`: replace the binding if the key is present,
append it otherwise (Python dict update semantics). -/
def rowSet (r : NRow) (k : String) (v : Finset Nat) : NRow :=
  if r.any (fun p => p.1 == k) then
    r.map (fun p => if p.1 == k then (k, v) else p)
  else
    r ++ [(k, v)]

/-- `TableRow.columns` as a set of keys (the Python property also sorts;
sorting happens at the use sites that need it). -/
def rowColumns (r : NRow) : Finset String := (r.map Prod.fst).toFinset

/-- An NFA transition table (`Table` with `default=set`): a list of rows,
state `s` is row index `s`. -/
abbrev NTable := List NRow

/-- `table[state]`.  All states reached by the code on well-formed
automata are in range; an out-of-range index is given the empty row. -/
def getRow (t : NTable) (s : Nat) : NRow := t.getD s []

/-- `self[state][EPSILON]`: the epsilon successors of a state. -/
def epsSucc (t : NTable) (s : Nat) : Finset Nat := rowGet (getRow t s) EPSILON

/-- The inner `iter_search(states, update)` of
`Nfa._find_epsilon_closure`, with fuel for its recursion:

    if not update: return states
    update = update - states
    states = states | update
    update = set_union(*[self[u][EPSILON] for u in update])
    return iter_search(states, update - states)
-/
def iterSearch (t : NTable) : Nat → Finset Nat → Finset Nat → Finset Nat
  | 0, states, _ => states
  | fuel + 1, states, update =>
    if update = ∅ then states
    else
      let u1 := update \ states
      let states1 := states ∪ u1
      let next := u1.biUnion (epsSucc t)
      iterSearch t fuel states1 (next \ states1)

/-- `Nfa._find_epsilon_closure(state)`: `iter_search({state},
self[state][EPSILON])`.  The fuel `t.length + 1` is enough for the search
to reach its fixed point (the visited set grows strictly inside
`range t.length` at every consuming step). -/
def findEpsilonClosure (t : NTable) (s : Nat) : Finset Nat :=
  iterSearch t (t.length + 1) {s} (epsSucc t s)

/-- `Nfa`: the transition table.  The `_epsilon_closure` cache of the
Python constructor is modelled by `Nfa.closureOfState` (the table is
immutable, so recomputing equals reading the cache). -/
structure Nfa where
  table : NTable
deriving DecidableEq

/-- `len(nfa)`. -/
def Nfa.len (n : Nfa) : Nat := n.table.length

/-- `Nfa.final`: `len(self) - 1`. -/
def Nfa.final (n : Nfa) : Nat := n.table.length - 1

/-- `self._epsilon_closure[state]` (the cache entry for one state). -/
def Nfa.closureOfState (n : Nfa) (s : Nat) : Finset Nat :=
  findEpsilonClosure n.table s

/-- `Nfa.epsilon_closure(states)` on a set argument: the union of the
cached closures. -/
def Nfa.epsilonClosure (n : Nfa) (S : Finset Nat) : Finset Nat :=
  S.biUnion n.closureOfState

/-- `Nfa.get_input_characters(states)`. -/
def Nfa.getInputCharacters (n : Nfa) (S : Finset Nat) : Finset String :=
  (S.biUnion (fun s => rowColumns (getRow n.table s))) \ {EPSILON}

/-- `Nfa.is_final(states)`: `self.final in states`. -/
def Nfa.isFinal (n : Nfa) (S : Finset Nat) : Bool := n.final ∈ S

/-- `Nfa.transition(states, char)`. -/
def Nfa.transition (n : Nfa) (S : Finset Nat) (c : String) : Finset Nat :=
  let start := n.epsilonClosure S
  let stop := start.biUnion (fun s => rowGet (getRow n.table s) c)
  n.epsilonClosure stop

/-- The loop of `Nfa.match`.  A string is a list of its one-character
strings, matching Python's iteration over `str`. -/
def Nfa.matchFrom (n : Nfa) : Finset Nat → List String → Bool
  | states, [] => n.isFinal states
  | states, c :: cs =>
    let states1 := n.transition states c
    if states1 = ∅ then false else n.matchFrom states1 cs

/-- `Nfa.match(string)`: start from `{0}` (note: without epsilon
closure), step over the characters, accept iff `is_final`. -/
def Nfa.runMatch (n : Nfa) (w : List String) : Bool := n.matchFrom {0} w

-- ---------------------------------------------------------------------
-- automata.py : the Thompson combinators
-- ---------------------------------------------------------------------

/-- `Table.with_empty_row`. -/
def emptyRowTable : NTable := [[]]

/-- Shift all target states of a row by `off`
(`table.map(lambda x: set(elem + i for elem in x))`, one row). -/
def shiftRow (off : Nat) (r : NRow) : NRow :=
  r.map (fun p => (p.1, p.2.image (fun x => x + off)))

def shiftTable (off : Nat) (t : NTable) : NTable := t.map (shiftRow off)

/-- Row-wise concatenation of shifted tables (`Nfa._concat_tables`),
carrying the running offset. -/
def concatTablesAux : List NTable → Nat → NTable
  | [], _ => []
  | t :: ts, off => shiftTable off t ++ concatTablesAux ts (off + t.length)

/-- The offsets returned by `Nfa._concat_tables`:
`[0] + [sum(lengths[:i+1]) ...]`, i.e. the start row of each table. -/
def offsetsAux : List NTable → Nat → List Nat
  | [], _ => []
  | t :: ts, off => off :: offsetsAux ts (off + t.length)

/-- `Nfa._concat_tables(*tables)`. -/
def concatTables (ts : List NTable) : NTable × List Nat :=
  (concatTablesAux ts 0, offsetsAux ts 0)

/-- `table[i][EPSILON] = v` on a whole table. -/
def setEps (t : NTable) (i : Nat) (v : Finset Nat) : NTable :=
  t.set i (rowSet (getRow t i) EPSILON v)

/-- `Nfa.epsilon()`. -/
def Nfa.epsilon : Nfa := ⟨[[(EPSILON, {1})], []]⟩

/-- `Nfa.char(char)` (the character is the one-character lexeme string). -/
def Nfa.char (c : String) : Nfa := ⟨[[(c, {1})], []]⟩

/-- `Nfa.concat(*nfas)`:

    table, offsets = _concat_tables(...)
    for offset in offsets[1:]:
        table[offset - 1][EPSILON] = {offset}
-/
def Nfa.concat (ns : List Nfa) : Nfa :=
  let p := concatTables (ns.map Nfa.table)
  ⟨(p.2.drop 1).foldl (fun t off => setEps t (off - 1) {off}) p.1⟩

/-- `Nfa.union(*nfas)`:

    tables = [empty] + [...] + [empty]
    table, offsets = _concat_tables(*tables)
    table[0][EPSILON] = set(offsets[1:-1])
    for offset in offsets[2:]:
        table[offset - 1][EPSILON] = {table.final}
-/
def Nfa.union (ns : List Nfa) : Nfa :=
  let tables := emptyRowTable :: (ns.map Nfa.table) ++ [emptyRowTable]
  let p := concatTables tables
  let t1 := setEps p.1 0 ((p.2.drop 1).dropLast.toFinset)
  ⟨(p.2.drop 2).foldl (fun t off => setEps t (off - 1) {p.1.length - 1}) t1⟩

/-- `Nfa.star(nfa)`:

    tables = [empty, nfa.table, empty]
    table, _ = _concat_tables(*tables)
    table[0][EPSILON] = {1, table.final}
    table[table.final - 1][EPSILON] = {0, table.final}
-/
def Nfa.star (n : Nfa) : Nfa :=
  let p := concatTables [emptyRowTable, n.table, emptyRowTable]
  let t1 := setEps p.1 0 {1, p.1.length - 1}
  ⟨setEps t1 (p.1.length - 1 - 1) {0, p.1.length - 1}⟩

/-- The NFAs produced by the repository's combinators (`concat` and
`union` are variadic in the source; the argument list is non-empty, an
empty call would fall over in `_concat_tables(tables[0].default)`). -/
inductive Built : Nfa → Prop
  | epsilon : Built Nfa.epsilon
  | char (c : String) : Built (Nfa.char c)
  | concat (ns : List Nfa) (hne : ns ≠ []) (hb : ∀ n ∈ ns, Built n) :
      Built (Nfa.concat ns)
  | union (ns : List Nfa) (hne : ns ≠ []) (hb : ∀ n ∈ ns, Built n) :
      Built (Nfa.union ns)
  | star (n : Nfa) (hb : Built n) : Built (Nfa.star n)

-- ---------------------------------------------------------------------
-- automata.py : DFA (subset construction)
-- ---------------------------------------------------------------------

/-- A row of the DFA table: dictionary from input character to next
state. -/
abbrev DRow := List (String × Nat)

/-- `Dfa`: `self.table` is the dictionary from DFA state to row, and
`self.finals` the set of accepting states. -/
structure Dfa where
  table : List (Nat × DRow)
  finals : Finset Nat
deriving DecidableEq

/-- Generic Python dict assignment on an association list. -/
def assocSet {α β : Type} [BEq α] (l : List (α × β)) (k : α) (v : β) :
    List (α × β) :=
  if l.any (fun p => p.1 == k) then
    l.map (fun p => if p.1 == k then (k, v) else p)
  else
    l ++ [(k, v)]

/-- Generic Python dict lookup on an association list. -/
def assocGet? {α β : Type} [BEq α] (l : List (α × β)) (k : α) : Option β :=
  (l.find? (fun p => p.1 == k)).map (fun p => p.2)

/-- Lookup in `registered_states` (keys are frozensets of NFA states). -/
def regGet? (l : List (Finset Nat × Nat)) (k : Finset Nat) : Option Nat :=
  (l.find? (fun p => decide (p.1 = k))).map (fun p => p.2)

/-- The inner `for char in sorted(input_chars)` loop of
`Dfa._translate_nfa`: compute the transition target for each character,
register unseen NFA state sets (`new_dfa_state = len(registered_states)`)
and push them on the worklist, and record `row[char]`.  The worklist is a
Python list used as a LIFO stack (append/pop at the end); pushing is
modelled by `cons` and popping by taking the head, which is the same
LIFO discipline. -/
def charLoop (n : Nfa) (S : Finset Nat) :
    List String → DRow → List (Finset Nat × Nat) → List (Finset Nat) →
    DRow × List (Finset Nat × Nat) × List (Finset Nat)
  | [], row, reg, stk => (row, reg, stk)
  | c :: cs, row, reg, stk =>
    let S1 := n.transition S c
    match regGet? reg S1 with
    | some d1 => charLoop n S cs (assocSet row c d1) reg stk
    | none =>
      let d1 := reg.length
      charLoop n S cs (assocSet row c d1) (reg ++ [(S1, d1)]) (S1 :: stk)

/-- Lexicographic comparison of character lists by code point
(Python's string ordering). -/
def strLtB : List Char → List Char → Bool
  | [], [] => false
  | [], _ :: _ => true
  | _ :: _, [] => false
  | a :: as, b :: bs =>
    if a.val < b.val then true
    else if b.val < a.val then false
    else strLtB as bs

/-- `a <= b` on strings, by code points. -/
def strLeB (a b : String) : Bool := !(strLtB b.data a.data)

/-- Insert a string into a sorted list (ascending). -/
def insertStr (c : String) : List String → List String
  | [] => [c]
  | x :: xs => if strLeB c x then c :: x :: xs else x :: insertStr c xs

/-- Insertion sort: `sorted(...)` on a list of strings. -/
def sortStrings (l : List String) : List String := l.foldr insertStr []

/-- The members of a state set, enumerated in increasing order.  Every
state set handled by the subset construction lies inside
`range(len(nfa))`; a state outside the table owns an empty default row
and contributes no input character. -/
def statesOf (n : Nfa) (S : Finset Nat) : List Nat :=
  (List.range n.table.length).filter (fun s => s ∈ S)

/-- `sorted(nfa.get_input_characters(nfa_state))`: the union of the
transition keys of the member states, epsilon excluded, without
duplicates and in ascending order. -/
def inputCharsSorted (n : Nfa) (S : Finset Nat) : List String :=
  sortStrings (List.dedup
    (((statesOf n S).flatMap (fun s => (getRow n.table s).map Prod.fst)).filter
      (fun c => c ≠ EPSILON)))

/-- The `while stack:` loop of `Dfa._translate_nfa`.  One fuel unit per
popped worklist entry. -/
def translateLoop (n : Nfa) :
    Nat → List (Finset Nat) → List (Finset Nat × Nat) →
    List (Nat × DRow) → Finset Nat →
    Except PErr (List (Nat × DRow) × Finset Nat)
  | _, [], _, data, finals => .ok (data, finals)
  | 0, _ :: _, _, _, _ => .error .recursionError
  | fuel + 1, S :: rest, reg, data, finals =>
    match regGet? reg S with
    | none => .error .keyError
    | some d =>
      let data0 := if (assocGet? data d).isSome then data else data ++ [(d, [])]
      let row0 := (assocGet? data0 d).getD []
      let chars := inputCharsSorted n S
      let step := charLoop n S chars row0 reg rest
      let data1 := assocSet data0 d step.1
      let finals1 := if n.isFinal S then insert d finals else finals
      translateLoop n fuel step.2.2 step.2.1 data1 finals1

/-- `Dfa._translate_nfa` / `Dfa.__init__`:

    data = {0: {}}; finals = set()
    initial_state = frozenset(nfa.epsilon_closure(0))
    registered_states = {initial_state: 0}; stack = [initial_state]
    while stack: ...
-/
def Dfa.translate (fuel : Nat) (n : Nfa) : Except PErr Dfa := do
  let S0 := n.closureOfState 0
  let r ← translateLoop n fuel [S0] [(S0, 0)] [(0, [])] ∅
  .ok ⟨r.1, r.2⟩

/-- `Dfa.match(string)`: walk the table; a missing transition (KeyError)
rejects; accept iff the final state is in `finals`. -/
def Dfa.matchFrom (d : Dfa) : Nat → List String → Bool
  | state, [] => state ∈ d.finals
  | state, c :: cs =>
    match (assocGet? d.table state).bind (fun row => assocGet? row c) with
    | none => false
    | some s1 => d.matchFrom s1 cs

def Dfa.runMatch (d : Dfa) (w : List String) : Bool := d.matchFrom 0 w

-- ---------------------------------------------------------------------
-- char_stream.py : Token and CharacterStream
-- ---------------------------------------------------------------------

/-- `Token(category, lexeme)`; `lexeme` defaults to `category`. -/
structure Token where
  category : String
  lexeme : String
deriving DecidableEq

/-- `Token(category=c)` for a special character (lexeme defaults to the
category). -/
def Token.ofCategory (c : String) : Token := ⟨c, c⟩

/-- The configuration of a `CharacterStream`.  The empty `admissible`
list models the falsy empty set, which disables the admissibility
check. -/
structure LexCfg where
  admissible : List Char
  special : List Char
  escape : Char
  generalClass : String

/-- `CharacterStream.tokenize`, over the character list of the string:

    for char in string:
        if char == self._escape_character: continue
        if self._admissible_characters and char not in ...: raise
        if char not in self._special_characters: Token(general, char)
        else: Token(category=char)
-/
def tokenize (cfg : LexCfg) : List Char → Except PErr (List Token)
  | [] => .ok []
  | c :: cs =>
    if c = cfg.escape then tokenize cfg cs
    else if cfg.admissible ≠ [] ∧ c ∉ cfg.admissible then .error .valueError
    else do
      let tok :=
        if c ∈ cfg.special then Token.ofCategory c.toString
        else ⟨cfg.generalClass, c.toString⟩
      let rest ← tokenize cfg cs
      .ok (tok :: rest)

-- ---------------------------------------------------------------------
-- grammar.py : symbols, productions, reduction descriptors
-- ---------------------------------------------------------------------

/-- The semantic values flowing through parse-tree reduction for this
repository: leaf lexemes (strings) and the NFAs produced by the regex
grammar's reducers. -/
inductive RVal where
  | str (s : String)
  | nfa (n : Nfa)
deriving DecidableEq

/-- `Return(func, args)`: the reduction descriptor of a production.  The
Python callable becomes a Lean function on the list of child values; a
call with arguments the callable cannot accept is a `typeError`, as in
Python. -/
structure RetDesc where
  fn : List RVal → Except PErr RVal
  args : Option (List Nat)

/-- A production element: `Terminal(name)`, `NonTerminal(name)` (the
non-terminal is referenced by its unique name), `Epsilon`, or an
`Action` (declared but unsupported by the matcher). -/
inductive GElem where
  | term (name : String)
  | nonterm (name : String)
  | eps
  | act

/-- `Production`: head (the owning non-terminal's name), elements, and
the optional reduction descriptor (`return_value`). -/
structure GProd where
  head : String
  elements : List GElem
  ret : Option RetDesc

/-- `Grammar`: the ordered non-terminals, each with its ordered
production alternatives.  `grammar[0]` is the start symbol; the name
map `_dict` is modelled by name lookup. -/
abbrev Grammar := List (String × List GProd)

def Grammar.lookup? (g : Grammar) (name : String) : Option (List GProd) :=
  (g.find? (fun p => p.1 == name)).map (fun p => p.2)

-- ---------------------------------------------------------------------
-- recursive_descent.py : the backtracking matcher
-- ---------------------------------------------------------------------

/-- The mutable scan state of `RecursiveDescentParser`: `_lookahead`
(`None` is past-end) and the production stack `_stack`.  The Python
stack appends at the end; the list keeps that order. -/
structure PState where
  lookahead : Option Nat
  stack : List GProd

/-- `RecursiveDescentParser._advance_lookahead`. -/
def advanceLookahead (tokens : List Token) (st : PState) : PState :=
  match st.lookahead with
  | none => st
  | some la =>
    { st with lookahead := if la + 1 ≥ tokens.length then none else some (la + 1) }

/-- `RecursiveDescentParser._match_terminal`.  With a non-`None`
lookahead, `self._tokens[self._lookahead]` raises IndexError when the
lookahead is out of range (this happens exactly when the token list is
empty, because `_reset` starts the lookahead at `0` unconditionally). -/
def matchTerminal (tokens : List Token) (name : String) (st : PState) :
    Except PErr (Bool × PState) :=
  match st.lookahead with
  | none => .ok (false, st)
  | some la =>
    match tokens.get? la with
    | none => .error .indexError
    | some tok =>
      if tok.category = name then .ok (true, advanceLookahead tokens st)
      else .ok (false, st)

mutual

/-- `RecursiveDescentParser._match_production_element`: dispatch on the
element kind.  Every recursive step of the matcher consumes one unit of
fuel (modelling Python's bounded recursion/iteration budget; running
out is the RecursionError).  All claims about the matcher either
quantify over the fuel or supply a sufficient budget. -/
def matchElement (g : Grammar) (tokens : List Token) :
    Nat → GElem → PState → Except PErr (Bool × PState)
  | 0, _, _ => .error .recursionError
  | fuel + 1, e, st =>
    match e with
    | .term name => matchTerminal tokens name st
    | .nonterm name => matchNonTerminal g tokens fuel name st
    | .eps => .ok (true, st)
    | .act => .error .typeError
termination_by structural fuel _ _ => fuel

/-- `RecursiveDescentParser._match_non_terminal`: try the alternatives
in declaration order; `save = len(self._stack)`. -/
def matchNonTerminal (g : Grammar) (tokens : List Token) :
    Nat → String → PState → Except PErr (Bool × PState)
  | 0, _, _ => .error .recursionError
  | fuel + 1, name, st =>
    match g.lookup? name with
    | none => .error .nameError
    | some prods => matchAlternatives g tokens fuel st.stack.length prods st
termination_by structural fuel _ _ => fuel

/-- The `for production in non_terminal:` loop: push the production,
match it, return on success, truncate the stack back to `save` on
failure and try the next alternative. -/
def matchAlternatives (g : Grammar) (tokens : List Token) :
    Nat → Nat → List GProd → PState → Except PErr (Bool × PState)
  | 0, _, _, _ => .error .recursionError
  | _ + 1, _, [], st => .ok (false, st)
  | fuel + 1, save, p :: ps, st => do
    let r ← matchProduction g tokens fuel p { st with stack := st.stack ++ [p] }
    if r.1 then .ok (true, r.2)
    else
      matchAlternatives g tokens fuel save ps
        { r.2 with stack := r.2.stack.take save }
termination_by structural fuel _ _ _ => fuel

/-- `RecursiveDescentParser._match_production`:
`save = self._lookahead`, then match the elements in order; on any
failure restore the lookahead and fail. -/
def matchProduction (g : Grammar) (tokens : List Token) :
    Nat → GProd → PState → Except PErr (Bool × PState)
  | 0, _, _ => .error .recursionError
  | fuel + 1, p, st => matchElements g tokens fuel st.lookahead p.elements st
termination_by structural fuel _ _ => fuel

/-- The `for element in production:` loop of `_match_production`. -/
def matchElements (g : Grammar) (tokens : List Token) :
    Nat → Option Nat → List GElem → PState → Except PErr (Bool × PState)
  | 0, _, _, _ => .error .recursionError
  | _ + 1, _, [], st => .ok (true, st)
  | fuel + 1, save, e :: es, st => do
    let r ← matchElement g tokens fuel e st
    if r.1 then matchElements g tokens fuel save es r.2
    else .ok (false, { r.2 with lookahead := save })
termination_by structural fuel _ _ _ => fuel

end

-- ---------------------------------------------------------------------
-- parse_tree.py : tree construction, token attachment, reduction
-- ---------------------------------------------------------------------

/-- A parse-tree element: `Leaf(terminal, token)` (token attached after
construction), `Node(production, children)`, or an `Action` child
(appended verbatim by `set_from_production`; never produced by a
successful match). -/
inductive PTree where
  | leaf (terminalName : String) (token : Option Token)
  | node (production : GProd) (children : List PTree)
  | actChild

/-- Fuel that always suffices for `_build_tree` on a production stack:
one unit per node plus one per production element plus slack. -/
def prodWeight (p : GProd) : Nat := p.elements.length + 2

def stackCost (d : List GProd) : Nat := (d.map prodWeight).sum

def buildNodeFuel (d : List GProd) : Nat := stackCost d + 1

mutual

/-- `ParseTree._build_tree` with an explicit cursor: take the next
production from the stack, create one child per element
(terminal: a Leaf, non-terminal: a recursively built Node, action:
the action itself, epsilon: nothing) and return the unconsumed suffix
of the stack.  An exhausted stack is the `productions[self._i]`
IndexError.  Fuel is consumed at every step; the caller passes
`buildNodeFuel` of the stack, which always suffices because every node
consumes a production and every child one element. -/
def buildNode : Nat → List GProd → Except PErr (PTree × List GProd)
  | 0, _ => .error .recursionError
  | _ + 1, [] => .error .indexError
  | fuel + 1, p :: rest => do
    let r ← buildChildren fuel p.elements rest
    .ok (.node p r.1, r.2)
termination_by structural fuel _ => fuel

/-- The per-element child construction of `set_from_production`,
interleaved with the recursive `_build_tree` calls on `Node` children
(the Python code first appends all child shells and then recurses into
the `Node` children in order; consuming the production cursor left to
right is the same traversal). -/
def buildChildren : Nat → List GElem → List GProd → Except PErr (List PTree × List GProd)
  | 0, _, _ => .error .recursionError
  | _ + 1, [], rest => .ok ([], rest)
  | fuel + 1, .term t :: es, rest => do
    let r ← buildChildren fuel es rest
    .ok (.leaf t none :: r.1, r.2)
  | fuel + 1, .nonterm _ :: es, rest => do
    let c ← buildNode fuel rest
    let r ← buildChildren fuel es c.2
    .ok (c.1 :: r.1, r.2)
  | fuel + 1, .eps :: es, rest => buildChildren fuel es rest
  | fuel + 1, .act :: es, rest => do
    let r ← buildChildren fuel es rest
    .ok (.actChild :: r.1, r.2)
termination_by structural fuel _ _ => fuel

end

mutual

/-- `ParseTree._add_tokens`: zip the pre-order leaves with the token
list (leaves beyond the tokens keep `None`; extra tokens are dropped).
Returns the rewritten tree and the unconsumed tokens. -/
def attachTokens : PTree → List Token → PTree × List Token
  | .leaf t _, [] => (.leaf t none, [])
  | .leaf t _, tok :: rest => (.leaf t (some tok), rest)
  | .actChild, tks => (.actChild, tks)
  | .node p cs, tks =>
    let r := attachTokensList cs tks
    (.node p r.1, r.2)

def attachTokensList : List PTree → List Token → List PTree × List Token
  | [], tks => ([], tks)
  | c :: cs, tks =>
    let r := attachTokens c tks
    let r2 := attachTokensList cs r.2
    (r.1 :: r2.1, r2.2)

end

mutual

/-- Number of `Leaf` elements of the tree (pre-order). -/
def leafCount : PTree → Nat
  | .leaf _ _ => 1
  | .actChild => 0
  | .node _ cs => leafCountList cs

def leafCountList : List PTree → Nat
  | [] => 0
  | c :: cs => leafCount c + leafCountList cs

end

mutual

/-- The tokens attached to the leaves, in pre-order. -/
def leafTokens : PTree → List (Option Token)
  | .leaf _ tok => [tok]
  | .actChild => []
  | .node _ cs => leafTokensList cs

def leafTokensList : List PTree → List (Option Token)
  | [] => []
  | c :: cs => leafTokens c ++ leafTokensList cs

end

/-- `ParseTree._this`, the default reducer: the identity on exactly one
argument; any other arity is a Python TypeError. -/
def defaultReducer : List RVal → Except PErr RVal
  | [x] => .ok x
  | _ => .error .typeError

/-- `args = [args[i] for i in indices]` (IndexError when out of
range). -/
def selectArgs (vals : List RVal) : List Nat → Except PErr (List RVal)
  | [] => .ok []
  | i :: is => do
    match vals.get? i with
    | none => .error .indexError
    | some v => do
      let r ← selectArgs vals is
      .ok (v :: r)

mutual

/-- `ParseTree._return_value`: bottom-up reduction.  A leaf reduces to
its token's lexeme (a leaf without a token is the Python
AttributeError on `None.lexeme`); a node reduces its children, applies
the optional index selection, and calls the descriptor's function, or
the default reducer when there is no descriptor; an action child is the
`TypeError("Not implemented!")`. -/
def returnValue : PTree → Except PErr RVal
  | .leaf _ tok =>
    match tok with
    | some tk => .ok (.str tk.lexeme)
    | none => .error .attributeError
  | .actChild => .error .typeError
  | .node p cs => do
    let vals ← returnValueList cs
    match p.ret with
    | some rd => do
      let vals1 ← match rd.args with
        | some idxs => selectArgs vals idxs
        | none => .ok vals
      rd.fn vals1
    | none => defaultReducer vals

def returnValueList : List PTree → Except PErr (List RVal)
  | [] => .ok []
  | c :: cs => do
    let v ← returnValue c
    let r ← returnValueList cs
    .ok (v :: r)

end

-- ---------------------------------------------------------------------
-- recursive_descent.py : parse() / _scan()
-- ---------------------------------------------------------------------

/-- The outcome of `RecursiveDescentParser.parse`: the boolean result
together with the `parse_tree` and `return_value` attributes. -/
structure ParseResult where
  ok : Bool
  parseTree : Option PTree
  returnValue : Option RVal

/-- `ParseTree.__init__` for a successful parse: build the tree from
the production stack, attach the tokens, and compute `return_value` -
but only when the ROOT production carries a reduction descriptor;
otherwise `return_value` is `None`.  An empty production stack leaves
`self.root = None` and `_build_tree` then raises IndexError. -/
def parseTreeInit (tokens : List Token) (prods : List GProd) :
    Except PErr (PTree × Option RVal) := do
  let b ← buildNode (buildNodeFuel prods) prods
  let tree := (attachTokens b.1 tokens).1
  match tree with
  | .node p _ =>
    match p.ret with
    | some _ => do
      let v ← returnValue tree
      .ok (tree, some v)
    | none => .ok (tree, none)
  | _ => .error .indexError

/-- `parse` on an already tokenized input: `_reset` (lookahead `0`,
even when the token list is empty), `_scan`
(`match(grammar[0])`, then succeed only when the match succeeded AND
the lookahead is past the end), and on success build the parse tree
and the return value. -/
def parseTokens (g : Grammar) (fuel : Nat) (tokens : List Token) :
    Except PErr ParseResult := do
  let st0 : PState := ⟨some 0, []⟩
  match g with
  | [] => .error .indexError
  | (name, _) :: _ => do
    let r ← matchElement g tokens fuel (.nonterm name) st0
    if r.1 ∧ r.2.lookahead = none then do
      let t ← parseTreeInit tokens r.2.stack
      .ok ⟨true, some t.1, t.2⟩
    else
      .ok ⟨false, none, none⟩

-- ---------------------------------------------------------------------
-- regex.py : the regex grammar, lexer and compile pipeline
-- ---------------------------------------------------------------------

/-- `Return(Nfa.union, args=[0, 2])`: both selected children must be
NFAs (they always are on this grammar). -/
def fnUnion : List RVal → Except PErr RVal
  | [.nfa a, .nfa b] => .ok (.nfa (Nfa.union [a, b]))
  | _ => .error .typeError

/-- `Return(Nfa.concat)` (no arg selection: all children). -/
def fnConcat (vals : List RVal) : Except PErr RVal := do
  let ns ← vals.mapM (fun v => match v with
    | .nfa n => .ok n
    | .str _ => .error .typeError)
  .ok (.nfa (Nfa.concat ns))

/-- `Return(Nfa.star, args=[0])`. -/
def fnStar : List RVal → Except PErr RVal
  | [.nfa a] => .ok (.nfa (Nfa.star a))
  | _ => .error .typeError

/-- `Return(lambda x: Nfa.union(x, Nfa.epsilon()), args=[0])`. -/
def fnOptional : List RVal → Except PErr RVal
  | [.nfa a] => .ok (.nfa (Nfa.union [a, Nfa.epsilon]))
  | _ => .error .typeError

/-- `Return(lambda x: Nfa.concat(x, Nfa.star(x)), args=[0])`. -/
def fnPlus : List RVal → Except PErr RVal
  | [.nfa a] => .ok (.nfa (Nfa.concat [a, Nfa.star a]))
  | _ => .error .typeError

/-- `Return(lambda x: x, args=[1])`. -/
def fnIdentity : List RVal → Except PErr RVal
  | [v] => .ok v
  | _ => .error .typeError

/-- `Return(Nfa.char)`: `Nfa.char` applied to the leaf's lexeme. -/
def fnChar : List RVal → Except PErr RVal
  | [.str s] => .ok (.nfa (Nfa.char s))
  | _ => .error .typeError

/-- The regex grammar of `regex.py`:

    UNION  -> CONCAT '|' UNION >> Return(Nfa.union, [0, 2]) | CONCAT
    CONCAT -> STAR CONCAT >> Return(Nfa.concat) | STAR
    STAR   -> ITEM '*' >> Return(Nfa.star, [0])
            | ITEM '?' >> Return(optional, [0])
            | ITEM '+' >> Return(plus, [0]) | ITEM
    ITEM   -> '(' UNION ')' >> Return(identity, [1]) | 'char' >> Return(Nfa.char)

The second alternative of each of UNION, CONCAT and STAR is a bare
production without a reduction descriptor. -/
def pUnionBar : GProd :=
  ⟨"UNION", [.nonterm "CONCAT", .term "|", .nonterm "UNION"],
    some ⟨fnUnion, some [0, 2]⟩⟩

def pUnionOne : GProd := ⟨"UNION", [.nonterm "CONCAT"], none⟩

def pConcatTwo : GProd :=
  ⟨"CONCAT", [.nonterm "STAR", .nonterm "CONCAT"], some ⟨fnConcat, none⟩⟩

def pConcatOne : GProd := ⟨"CONCAT", [.nonterm "STAR"], none⟩

def pStarStar : GProd :=
  ⟨"STAR", [.nonterm "ITEM", .term "*"], some ⟨fnStar, some [0]⟩⟩

def pStarOpt : GProd :=
  ⟨"STAR", [.nonterm "ITEM", .term "?"], some ⟨fnOptional, some [0]⟩⟩

def pStarPlus : GProd :=
  ⟨"STAR", [.nonterm "ITEM", .term "+"], some ⟨fnPlus, some [0]⟩⟩

def pStarOne : GProd := ⟨"STAR", [.nonterm "ITEM"], none⟩

def pItemParen : GProd :=
  ⟨"ITEM", [.term "(", .nonterm "UNION", .term ")"],
    some ⟨fnIdentity, some [1]⟩⟩

def pItemChar : GProd := ⟨"ITEM", [.term "char"], some ⟨fnChar, none⟩⟩

def regexGrammar : Grammar :=
  [ ("UNION", [pUnionBar, pUnionOne]),
    ("CONCAT", [pConcatTwo, pConcatOne]),
    ("STAR", [pStarStar, pStarOpt, pStarPlus, pStarOne]),
    ("ITEM", [pItemParen, pItemChar]) ]

/-- `CharacterStream(special_characters="()*|?+", general_class="char",
escape_character="\\")` from `regex.py`. -/
def regexLexCfg : LexCfg :=
  ⟨[], ['(', ')', '*', '|', '?', '+'], '\\', "char"⟩

/-- Tokenize a regex pattern with the module's lexer. -/
def regexTokenize (pattern : String) : Except PErr (List Token) :=
  tokenize regexLexCfg pattern.toList

/-- `parser.parse(pattern); parser.return_value` for the regex parser:
the NFA handed to `Dfa` by `compile` (`NFA_of(R)` in the spec).  Note
that `compile` reads `return_value` whether or not `parse` succeeded;
a `None` value then crashes `Dfa.__init__` with an AttributeError, and
a non-`Nfa` value would crash it the same way. -/
def regexNfaOf (fuel : Nat) (pattern : String) : Except PErr Nfa := do
  let tokens ← regexTokenize pattern
  let res ← parseTokens regexGrammar fuel tokens
  match res.returnValue with
  | some (.nfa n) => .ok n
  | _ => .error .attributeError

/-- `regex.compile(pattern)`: parse, take `return_value`, run the
subset construction.  `dfaFuel` bounds the worklist loop. -/
def regexCompile (fuel dfaFuel : Nat) (pattern : String) : Except PErr Dfa := do
  let n ← regexNfaOf fuel pattern
  Dfa.translate dfaFuel n

/-- A string as the list of its one-character strings (Python's
`for char in string`), used to feed `match`. -/
def strChars (w : String) : List String := w.toList.map Char.toString

/-- Decidable equality of `Except` values, for evaluating the embedded
functions on concrete inputs. -/
instance {e a : Type} [DecidableEq e] [DecidableEq a] :
    DecidableEq (Except e a) := fun x y =>
  match x, y with
  | .ok u, .ok v =>
    if h : u = v then .isTrue (by rw [h])
    else .isFalse (fun hc => h (by injection hc))
  | .error u, .error v =>
    if h : u = v then .isTrue (by rw [h])
    else .isFalse (fun hc => h (by injection hc))
  | .ok _, .error _ => .isFalse (fun hc => Except.noConfusion hc)
  | .error _, .ok _ => .isFalse (fun hc => Except.noConfusion hc)

-- ---------------------------------------------------------------------
-- A minimal epsilon grammar (for the empty-input claims)
-- ---------------------------------------------------------------------

/-- The one-production grammar `S -> Epsilon`: its start symbol derives
the empty string. -/
def epsilonGrammar : Grammar := [("S", [⟨"S", [GElem.eps], none⟩])]

-- ---------------------------------------------------------------------
-- automata.py : TableRow equality (claim C9)
-- ---------------------------------------------------------------------

/-- The default of a `TableRow` as exercised by the repository's tests:
`None`, the callable `int`, the callable `set`, or a constant value. -/
inductive RowDefault where
  | noneD
  | intFactory
  | setFactory
  | constStr (s : String)
deriving DecidableEq

/-- A generic `TableRow` as used in the tests: integer-keyed data with
string values, plus the default. -/
structure TableRowM where
  data : List (Nat × String)
  default : RowDefault
deriving DecidableEq

/-- A Python object reference: an identity (the `id()` of the object)
together with the object's state.  Two references with different `oid`
are distinct objects that may carry equal state. -/
structure PyObj (α : Type) where
  oid : Nat
  val : α
deriving DecidableEq

/-- Python `==` on `TableRow` instances: the class defines no `__eq__`
(and neither does any base class except `object`), so CPython falls
back to `object.__eq__`, which is identity comparison. -/
def tableRowPyEq (x y : PyObj TableRowM) : Bool := x.oid == y.oid

/-- The equality the specification claims (`data` map and `default`
compared together). -/
def tableRowSpecEq (x y : PyObj TableRowM) : Bool :=
  x.val.data == y.val.data && x.val.default == y.val.default

-- ---------------------------------------------------------------------
-- Epsilon-closure theory
-- ---------------------------------------------------------------------

/-- Reachability along epsilon transitions of a table. -/
inductive EpsReach (t : NTable) (s : Nat) : Nat → Prop
  | refl : EpsReach t s s
  | tail (u v : Nat) : EpsReach t s u → v ∈ epsSucc t u → EpsReach t s v

/-- All transition targets of all rows are states of the table. -/
def WfTable (t : NTable) : Prop :=
  ∀ s k, rowGet (getRow t s) k ⊆ Finset.range t.length

theorem WfTable.epsSucc_subset {t : NTable} (h : WfTable t) (s : Nat) :
    epsSucc t s ⊆ Finset.range t.length := h s EPSILON

theorem iterSearch_empty (t : NTable) (fuel : Nat) (states : Finset Nat) :
    iterSearch t fuel states ∅ = states := by
  cases fuel with
  | zero => rfl
  | succ f => simp [iterSearch]

theorem subset_iterSearch (t : NTable) :
    ∀ (fuel : Nat) (states update : Finset Nat),
      states ⊆ iterSearch t fuel states update := by
  intro fuel
  induction fuel with
  | zero => intro states update; exact Finset.Subset.refl _
  | succ f ih =>
    intro states update
    by_cases h : update = ∅
    · simp [iterSearch, h]
    · simp only [iterSearch, h, if_false]
      exact (Finset.subset_union_left).trans (ih _ _)

theorem iterSearch_sound (t : NTable) (s : Nat) :
    ∀ (fuel : Nat) (states update : Finset Nat),
      (∀ u ∈ states, EpsReach t s u) → (∀ u ∈ update, EpsReach t s u) →
      ∀ v ∈ iterSearch t fuel states update, EpsReach t s v := by
  intro fuel
  induction fuel with
  | zero => intro states update hs _ v hv; exact hs v hv
  | succ f ih =>
    intro states update hs hu v hv
    by_cases h : update = ∅
    · rw [h, iterSearch_empty] at hv; exact hs v hv
    · simp only [iterSearch, h, if_false] at hv
      refine ih _ _ ?_ ?_ v hv
      · intro u hmem
        rcases Finset.mem_union.mp hmem with h1 | h1
        · exact hs u h1
        · exact hu u (Finset.mem_sdiff.mp h1).1
      · intro u hmem
        have h1 := Finset.mem_sdiff.mp hmem
        rcases Finset.mem_biUnion.mp h1.1 with ⟨w, hw, hws⟩
        exact EpsReach.tail w u (hu w (Finset.mem_sdiff.mp hw).1) hws

theorem iterSearch_closed (t : NTable) (hwf : WfTable t) :
    ∀ (fuel : Nat) (states update : Finset Nat),
      states ⊆ Finset.range t.length → update ⊆ Finset.range t.length →
      t.length + 1 ≤ fuel + states.card →
      (∀ u ∈ states, epsSucc t u ⊆ states ∪ update) →
      ∀ u ∈ iterSearch t fuel states update,
        epsSucc t u ⊆ iterSearch t fuel states update := by
  intro fuel
  induction fuel with
  | zero =>
    intro states update hsb _ hcard _
    have h1 : states.card ≤ t.length := by
      simpa using Finset.card_le_card hsb
    omega
  | succ f ih =>
    intro states update hsb hub hcard hinv
    by_cases h : update = ∅
    · rw [h, iterSearch_empty]
      intro u hu
      have h2 := hinv u hu
      rwa [h, Finset.union_empty] at h2
    · simp only [iterSearch, h, if_false]
      by_cases h1 : update \ states = ∅
      · have hupd : update ⊆ states := by
          intro x hx
          by_contra hxs
          exact absurd (Finset.mem_sdiff.mpr ⟨hx, hxs⟩) (by simp [h1])
        rw [h1]
        simp only [Finset.union_empty, Finset.biUnion_empty, Finset.empty_sdiff]
        rw [iterSearch_empty]
        intro u hu
        exact (hinv u hu).trans (Finset.union_subset (Finset.Subset.refl _) hupd)
      · have hdisj : Disjoint states (update \ states) := disjoint_sdiff_self_right
        have hcard1 : states.card + 1 ≤ (states ∪ update \ states).card := by
          rw [Finset.card_union_of_disjoint hdisj]
          have : 0 < (update \ states).card := Finset.card_pos.mpr
            (Finset.nonempty_iff_ne_empty.mpr h1)
          omega
        refine ih _ _ ?_ ?_ ?_ ?_
        · exact Finset.union_subset hsb ((Finset.sdiff_subset).trans hub)
        · refine (Finset.sdiff_subset).trans ?_
          intro x hx
          rcases Finset.mem_biUnion.mp hx with ⟨w, _, hws⟩
          exact hwf.epsSucc_subset w hws
        · omega
        · intro u hu
          rcases Finset.mem_union.mp hu with h2 | h2
          · refine (hinv u h2).trans ?_
            intro x hx
            rcases Finset.mem_union.mp hx with h3 | h3
            · exact Finset.mem_union_left _ (Finset.mem_union_left _ h3)
            · by_cases h4 : x ∈ states
              · exact Finset.mem_union_left _ (Finset.mem_union_left _ h4)
              · exact Finset.mem_union_left _
                  (Finset.mem_union_right _ (Finset.mem_sdiff.mpr ⟨h3, h4⟩))
          · intro x hx
            by_cases h4 : x ∈ states ∪ update \ states
            · exact Finset.mem_union_left _ h4
            · refine Finset.mem_union_right _ (Finset.mem_sdiff.mpr ⟨?_, h4⟩)
              exact Finset.mem_biUnion.mpr ⟨u, h2, hx⟩

theorem epsReach_of_mem_closure {t : NTable} (s v : Nat)
    (hv : v ∈ findEpsilonClosure t s) : EpsReach t s v := by
  refine iterSearch_sound t s _ _ _ ?_ ?_ v hv
  · intro u hu
    rcases Finset.mem_singleton.mp hu with rfl
    exact EpsReach.refl
  · intro u hu
    exact EpsReach.tail s u EpsReach.refl hu

theorem mem_closure_self (t : NTable) (s : Nat) :
    s ∈ findEpsilonClosure t s :=
  subset_iterSearch t _ _ _ (Finset.mem_singleton_self s)

theorem closure_closed {t : NTable} (hwf : WfTable t) {s : Nat}
    (hs : s < t.length) :
    ∀ u ∈ findEpsilonClosure t s,
      epsSucc t u ⊆ findEpsilonClosure t s := by
  refine iterSearch_closed t hwf _ _ _ ?_ ?_ ?_ ?_
  · simpa using hs
  · exact hwf.epsSucc_subset s
  · have : ({s} : Finset Nat).card = 1 := Finset.card_singleton s
    omega
  · intro u hu
    rcases Finset.mem_singleton.mp hu with rfl
    exact Finset.subset_union_right

theorem mem_closure_of_epsReach {t : NTable} (hwf : WfTable t) {s : Nat}
    (hs : s < t.length) {v : Nat} (h : EpsReach t s v) :
    v ∈ findEpsilonClosure t s := by
  induction h with
  | refl => exact mem_closure_self t s
  | tail u v _ hsv ih => exact closure_closed hwf hs u ih hsv

theorem epsReach_lt {t : NTable} (hwf : WfTable t) {s v : Nat}
    (hs : s < t.length) (h : EpsReach t s v) : v < t.length := by
  induction h with
  | refl => exact hs
  | tail u v _ hsv _ =>
    exact Finset.mem_range.mp (hwf.epsSucc_subset u hsv)

theorem epsReach_trans {t : NTable} {s u v : Nat}
    (h1 : EpsReach t s u) (h2 : EpsReach t u v) : EpsReach t s v := by
  induction h2 with
  | refl => exact h1
  | tail w x _ hwx ih => exact EpsReach.tail w x ih hwx

theorem mem_findClosure_iff {t : NTable} (hwf : WfTable t) {s : Nat}
    (hs : s < t.length) (v : Nat) :
    v ∈ findEpsilonClosure t s ↔ EpsReach t s v :=
  ⟨epsReach_of_mem_closure s v, mem_closure_of_epsReach hwf hs⟩

theorem closure_subset_range {t : NTable} (hwf : WfTable t) {s : Nat}
    (hs : s < t.length) :
    findEpsilonClosure t s ⊆ Finset.range t.length := by
  intro v hv
  exact Finset.mem_range.mpr
    (epsReach_lt hwf hs (epsReach_of_mem_closure s v hv))

theorem closure_idempotent {t : NTable} (hwf : WfTable t) {s : Nat}
    (hs : s < t.length) :
    (findEpsilonClosure t s).biUnion (findEpsilonClosure t) =
      findEpsilonClosure t s := by
  apply Finset.Subset.antisymm
  · intro x hx
    rcases Finset.mem_biUnion.mp hx with ⟨u, hu, hxu⟩
    have h1 : EpsReach t s u := epsReach_of_mem_closure s u hu
    have h2 : EpsReach t u x := epsReach_of_mem_closure u x hxu
    exact mem_closure_of_epsReach hwf hs (epsReach_trans h1 h2)
  · intro x hx
    exact Finset.mem_biUnion.mpr ⟨x, hx, mem_closure_self t x⟩

-- ---------------------------------------------------------------------
-- Row and table lemmas
-- ---------------------------------------------------------------------

theorem find?_map_snd (f : Finset Nat → Finset Nat) (r : NRow) (k : String) :
    (r.map (fun p => (p.1, f p.2))).find? (fun p => p.1 == k) =
      (r.find? (fun p => p.1 == k)).map (fun p => (p.1, f p.2)) := by
  induction r with
  | nil => rfl
  | cons p r ih =>
    by_cases h : p.1 = k
    · simp [List.find?, h]
    · have hb : (p.1 == k) = false := by simp [h]
      simp [List.find?, hb, ih]

theorem rowGet_shiftRow (off : Nat) (r : NRow) (k : String) :
    rowGet (shiftRow off r) k = (rowGet r k).image (fun x => x + off) := by
  unfold rowGet shiftRow
  rw [find?_map_snd]
  cases r.find? (fun p => p.1 == k) <;> simp

theorem rowGet_cons (p : String × Finset Nat) (r : NRow) (k : String) :
    rowGet (p :: r) k = if p.1 == k then p.2 else rowGet r k := by
  unfold rowGet
  cases h : (p.1 == k) <;> simp [List.find?, h]

theorem rowGet_map_replace_self (r : NRow) (k : String) (v : Finset Nat)
    (h : r.any (fun p => p.1 == k)) :
    rowGet (r.map (fun p => if p.1 == k then (k, v) else p)) k = v := by
  induction r with
  | nil => simp at h
  | cons p r ih =>
    by_cases hp : p.1 = k
    · simp [rowGet_cons, hp]
    · have hb : (p.1 == k) = false := beq_eq_false_iff_ne.mpr hp
      have h2 : r.any (fun p => p.1 == k) := by
        simpa [List.any_cons, hb] using h
      simpa [rowGet_cons, hp, hb] using ih h2

theorem rowGet_map_replace_other (r : NRow) (k k' : String) (v : Finset Nat)
    (h : k' ≠ k) :
    rowGet (r.map (fun p => if p.1 == k then (k, v) else p)) k' = rowGet r k' := by
  induction r with
  | nil => rfl
  | cons p r ih =>
    by_cases hp : p.1 = k
    · have hb1 : (k == k') = false := beq_eq_false_iff_ne.mpr (Ne.symm h)
      have hb2 : (p.1 == k') = false := by rw [hp]; exact hb1
      simpa [rowGet_cons, hp, hb1, hb2] using ih
    · have hb : (p.1 == k) = false := beq_eq_false_iff_ne.mpr hp
      by_cases hq : p.1 = k'
      · simp [rowGet_cons, hp, hb, hq, h]
      · have hb2 : (p.1 == k') = false := beq_eq_false_iff_ne.mpr hq
        simpa [rowGet_cons, hp, hb, hb2] using ih

theorem rowGet_append_single (r : NRow) (k k' : String) (v : Finset Nat)
    (h : ¬ r.any (fun p => p.1 == k)) :
    rowGet (r ++ [(k, v)]) k' = if k' = k then v else rowGet r k' := by
  induction r with
  | nil =>
    by_cases hk : k' = k
    · simp [rowGet_cons, hk]
    · have hb1 : (k == k') = false := beq_eq_false_iff_ne.mpr (Ne.symm hk)
      simp [rowGet_cons, hb1, hk, rowGet]
  | cons p r ih =>
    have hb : (p.1 == k) = false := by
      cases hc : (p.1 == k) with
      | false => rfl
      | true => exact absurd (by simp [List.any_cons, hc]) h
    have h2 : ¬ r.any (fun p => p.1 == k) := by
      intro hc
      exact h (by simp [List.any_cons, hc])
    by_cases hq : p.1 = k'
    · have hk : ¬ k' = k := by
        intro he
        rw [hq, he] at hb
        simp at hb
      simp [rowGet_cons, hq, hk]
    · have hb2 : (p.1 == k') = false := beq_eq_false_iff_ne.mpr hq
      simpa [rowGet_cons, hq, hb2] using ih h2

theorem rowGet_rowSet (r : NRow) (k k' : String) (v : Finset Nat) :
    rowGet (rowSet r k v) k' = if k' = k then v else rowGet r k' := by
  unfold rowSet
  by_cases h : r.any (fun p => p.1 == k)
  · rw [if_pos h]
    by_cases hk : k' = k
    · rw [hk, if_pos rfl, rowGet_map_replace_self r k v h]
    · rw [if_neg hk, rowGet_map_replace_other r k k' v hk]
  · rw [if_neg h, rowGet_append_single r k k' v h]

theorem getRow_append_left (t1 t2 : NTable) (s : Nat) (h : s < t1.length) :
    getRow (t1 ++ t2) s = getRow t1 s :=
  List.getD_append t1 t2 [] s h

theorem getRow_append_right (t1 t2 : NTable) (s : Nat) (h : t1.length ≤ s) :
    getRow (t1 ++ t2) s = getRow t2 (s - t1.length) :=
  List.getD_append_right t1 t2 [] s h

theorem getRow_shiftTable (off : Nat) (t : NTable) (s : Nat) :
    getRow (shiftTable off t) s = shiftRow off (getRow t s) := by
  induction t generalizing s with
  | nil => cases s <;> rfl
  | cons r t ih =>
    cases s with
    | zero => rfl
    | succ s => exact ih s

theorem getRow_set_self (t : NTable) (i : Nat) (r : NRow) (h : i < t.length) :
    getRow (t.set i r) i = r := by
  induction t generalizing i with
  | nil => simp at h
  | cons r' t ih =>
    cases i with
    | zero => rfl
    | succ i => exact ih i (Nat.lt_of_succ_lt_succ h)

theorem getRow_set_ne (t : NTable) (i s : Nat) (r : NRow) (h : i ≠ s) :
    getRow (t.set i r) s = getRow t s := by
  induction t generalizing i s with
  | nil => rfl
  | cons r' t ih =>
    cases i with
    | zero =>
      cases s with
      | zero => exact absurd rfl h
      | succ s => rfl
    | succ i =>
      cases s with
      | zero => rfl
      | succ s => exact ih i s (fun he => h (by rw [he]))

theorem length_setEps (t : NTable) (i : Nat) (v : Finset Nat) :
    (setEps t i v).length = t.length := List.length_set t _ _

theorem getRow_setEps_ne (t : NTable) (i s : Nat) (v : Finset Nat)
    (h : i ≠ s) : getRow (setEps t i v) s = getRow t s :=
  getRow_set_ne t i s _ h

theorem getRow_setEps_self (t : NTable) (i : Nat) (v : Finset Nat)
    (h : i < t.length) :
    getRow (setEps t i v) i = rowSet (getRow t i) EPSILON v :=
  getRow_set_self t i _ h

/-- The total length of concatenated tables. -/
def totalLen (ts : List NTable) : Nat := (ts.map List.length).sum

theorem length_concatTablesAux (ts : List NTable) (off : Nat) :
    (concatTablesAux ts off).length = totalLen ts := by
  induction ts generalizing off with
  | nil => rfl
  | cons t ts ih =>
    simp only [concatTablesAux, List.length_append, shiftTable,
      List.length_map, totalLen, List.map_cons, List.sum_cons]
    rw [ih]
    rfl

-- ---------------------------------------------------------------------
-- Well-formedness of the combinator-built NFAs
-- ---------------------------------------------------------------------

/-- All transition targets of `t` lie below `L`. -/
def TableBnd (t : NTable) (L : Nat) : Prop :=
  ∀ s k, rowGet (getRow t s) k ⊆ Finset.range L

theorem wfTable_iff_bnd (t : NTable) : WfTable t ↔ TableBnd t t.length :=
  Iff.rfl

theorem wf_concatTablesAux (ts : List NTable) (off : Nat)
    (h : ∀ t ∈ ts, WfTable t) :
    TableBnd (concatTablesAux ts off) (off + totalLen ts) := by
  induction ts generalizing off with
  | nil =>
    intro s k
    unfold concatTablesAux
    cases s <;> simp [getRow, rowGet]
  | cons t ts ih =>
    intro s k
    unfold concatTablesAux
    have hlen : (shiftTable off t).length = t.length := List.length_map _ _
    have htot : totalLen (t :: ts) = t.length + totalLen ts := by
      simp [totalLen]
    by_cases hs : s < (shiftTable off t).length
    · rw [getRow_append_left _ _ _ hs, getRow_shiftTable, rowGet_shiftRow]
      intro x hx
      rcases Finset.mem_image.mp hx with ⟨y, hy, rfl⟩
      have hyr := Finset.mem_range.mp (h t (List.mem_cons_self _ _) s k hy)
      refine Finset.mem_range.mpr ?_
      omega
    · rw [getRow_append_right _ _ _ (Nat.le_of_not_lt hs)]
      intro x hx
      have := Finset.mem_range.mp
        (ih (off + t.length) (fun u hu => h u (List.mem_cons_of_mem _ hu)) _ k hx)
      refine Finset.mem_range.mpr ?_
      omega

theorem getRow_set_oob (t : NTable) (i s : Nat) (r : NRow)
    (h : t.length ≤ i) : getRow (t.set i r) s = getRow t s := by
  rw [List.set_eq_of_length_le h]

theorem bnd_setEps (t : NTable) (i : Nat) (v : Finset Nat) (L : Nat)
    (ht : TableBnd t L) (hv : v ⊆ Finset.range L) :
    TableBnd (setEps t i v) L := by
  intro s k
  by_cases hi : i < t.length
  · by_cases hsi : i = s
    · subst hsi
      rw [getRow_setEps_self t i v hi, rowGet_rowSet]
      by_cases hk : k = EPSILON
      · rw [if_pos hk]; exact hv
      · rw [if_neg hk]; exact ht i k
    · rw [getRow_setEps_ne t i s v hsi]; exact ht s k
  · unfold setEps
    rw [getRow_set_oob t i s _ (Nat.le_of_not_lt hi)]
    exact ht s k

theorem bnd_foldl_setEps (os : List Nat) (vf : Nat → Finset Nat)
    (t : NTable) (L : Nat) (ht : TableBnd t L)
    (hv : ∀ o ∈ os, vf o ⊆ Finset.range L) :
    TableBnd (os.foldl (fun t off => setEps t (off - 1) (vf off)) t) L := by
  induction os generalizing t with
  | nil => exact ht
  | cons o os ih =>
    exact ih _ (bnd_setEps t (o - 1) (vf o) L ht (hv o (List.mem_cons_self _ _)))
      (fun u hu => hv u (List.mem_cons_of_mem _ hu))

theorem length_foldl_setEps (os : List Nat) (vf : Nat → Finset Nat)
    (t : NTable) :
    (os.foldl (fun t off => setEps t (off - 1) (vf off)) t).length =
      t.length := by
  induction os generalizing t with
  | nil => rfl
  | cons o os ih => rw [List.foldl_cons, ih, length_setEps]

theorem offsetsAux_le (ts : List NTable) (off : Nat) :
    ∀ o ∈ offsetsAux ts off, off ≤ o := by
  induction ts generalizing off with
  | nil => intro o ho; simp [offsetsAux] at ho
  | cons t ts ih =>
    intro o ho
    rcases List.mem_cons.mp ho with rfl | ho
    · exact Nat.le_refl o
    · exact Nat.le_trans (Nat.le_add_right _ _) (ih (off + t.length) o ho)

theorem offsetsAux_bound (m : Nat) (ts : List NTable) (off : Nat)
    (h : ∀ t ∈ ts, m ≤ t.length) :
    ∀ o ∈ offsetsAux ts off, o + m ≤ off + totalLen ts := by
  induction ts generalizing off with
  | nil => intro o ho; simp [offsetsAux] at ho
  | cons t ts ih =>
    intro o ho
    have htot : totalLen (t :: ts) = t.length + totalLen ts := by
      simp [totalLen]
    rcases List.mem_cons.mp ho with rfl | ho
    · have := h t (List.mem_cons_self _ _)
      omega
    · have := ih (off + t.length) (fun u hu => h u (List.mem_cons_of_mem _ hu)) o ho
      omega

theorem wf_emptyRowTable : WfTable emptyRowTable := by
  intro s k
  match s with
  | 0 => simp [emptyRowTable, getRow, rowGet]
  | n + 1 => simp [emptyRowTable, getRow, rowGet]

theorem wf_twoRow (key : String) : WfTable [[(key, {1})], []] := by
  intro s k
  match s with
  | 0 =>
    show rowGet [(key, {1})] k ⊆ _
    rw [rowGet_cons]
    by_cases hk : key = k
    · rw [if_pos (by simp [hk])]
      intro x hx
      rcases Finset.mem_singleton.mp hx with rfl
      exact Finset.mem_range.mpr (by simp)
    · rw [if_neg (by simp [hk])]
      simp [rowGet]
  | 1 => simp [getRow, rowGet]
  | n + 2 => simp [getRow, rowGet]

theorem table_concat (ns : List Nfa) :
    (Nfa.concat ns).table =
      ((offsetsAux (ns.map Nfa.table) 0).drop 1).foldl
        (fun t off => setEps t (off - 1) {off})
        (concatTablesAux (ns.map Nfa.table) 0) := rfl

theorem table_union (ns : List Nfa) :
    (Nfa.union ns).table =
      ((offsetsAux (emptyRowTable :: (ns.map Nfa.table) ++ [emptyRowTable]) 0).drop 2).foldl
        (fun t off => setEps t (off - 1)
          {(concatTablesAux (emptyRowTable :: (ns.map Nfa.table) ++ [emptyRowTable]) 0).length - 1})
        (setEps (concatTablesAux (emptyRowTable :: (ns.map Nfa.table) ++ [emptyRowTable]) 0) 0
          (((offsetsAux (emptyRowTable :: (ns.map Nfa.table) ++ [emptyRowTable]) 0).drop 1).dropLast.toFinset)) := rfl

theorem table_star (n : Nfa) :
    (Nfa.star n).table =
      setEps
        (setEps (concatTablesAux [emptyRowTable, n.table, emptyRowTable] 0) 0
          {1, (concatTablesAux [emptyRowTable, n.table, emptyRowTable] 0).length - 1})
        ((concatTablesAux [emptyRowTable, n.table, emptyRowTable] 0).length - 1 - 1)
        {0, (concatTablesAux [emptyRowTable, n.table, emptyRowTable] 0).length - 1} := rfl

theorem built_wf_len {n : Nfa} (h : Built n) :
    WfTable n.table ∧ 2 ≤ n.table.length := by
  induction h with
  | epsilon => exact ⟨wf_twoRow EPSILON, by simp [Nfa.epsilon]⟩
  | char c => exact ⟨wf_twoRow c, by simp [Nfa.char]⟩
  | concat ns hne hb ih =>
    have hw : ∀ t ∈ ns.map Nfa.table, WfTable t := by
      intro t ht
      rcases List.mem_map.mp ht with ⟨m, hm, rfl⟩
      exact (ih m hm).1
    have h2 : ∀ t ∈ ns.map Nfa.table, 2 ≤ t.length := by
      intro t ht
      rcases List.mem_map.mp ht with ⟨m, hm, rfl⟩
      exact (ih m hm).2
    have hbase : TableBnd (concatTablesAux (ns.map Nfa.table) 0)
        (totalLen (ns.map Nfa.table)) := by
      have := wf_concatTablesAux (ns.map Nfa.table) 0 hw
      simpa using this
    have hlenbase := length_concatTablesAux (ns.map Nfa.table) 0
    have hv : ∀ o ∈ (offsetsAux (ns.map Nfa.table) 0).drop 1,
        ({o} : Finset Nat) ⊆ Finset.range (totalLen (ns.map Nfa.table)) := by
      intro o ho x hx
      have hxo : x = o := Finset.mem_singleton.mp hx
      have := offsetsAux_bound 2 (ns.map Nfa.table) 0 h2 o (List.mem_of_mem_drop ho)
      exact Finset.mem_range.mpr (by omega)
    have hL2 : 2 ≤ totalLen (ns.map Nfa.table) := by
      rcases ns with _ | ⟨n0, rest⟩
      · exact absurd rfl hne
      · have := (ih n0 (List.mem_cons_self _ _)).2
        simp only [List.map_cons, totalLen, List.sum_cons]
        omega
    have hlen : (Nfa.concat ns).table.length = totalLen (ns.map Nfa.table) := by
      rw [table_concat, length_foldl_setEps, hlenbase]
    constructor
    · rw [wfTable_iff_bnd, hlen, table_concat]
      exact bnd_foldl_setEps _ _ _ _ hbase hv
    · rw [hlen]; exact hL2
  | union ns hne hb ih =>
    have hw : ∀ t ∈ emptyRowTable :: (ns.map Nfa.table) ++ [emptyRowTable], WfTable t := by
      intro t ht
      rcases List.mem_cons.mp ht with rfl | ht
      · exact wf_emptyRowTable
      · rcases List.mem_append.mp ht with ht | ht
        · rcases List.mem_map.mp ht with ⟨m, hm, rfl⟩
          exact (ih m hm).1
        · rcases List.mem_singleton.mp ht with rfl
          exact wf_emptyRowTable
    have h1 : ∀ t ∈ emptyRowTable :: (ns.map Nfa.table) ++ [emptyRowTable], 1 ≤ t.length := by
      intro t ht
      rcases List.mem_cons.mp ht with rfl | ht
      · simp [emptyRowTable]
      · rcases List.mem_append.mp ht with ht | ht
        · rcases List.mem_map.mp ht with ⟨m, hm, rfl⟩
          have := (ih m hm).2
          omega
        · rcases List.mem_singleton.mp ht with rfl
          simp [emptyRowTable]
    have hbase : TableBnd (concatTablesAux (emptyRowTable :: (ns.map Nfa.table) ++ [emptyRowTable]) 0)
        (totalLen (emptyRowTable :: (ns.map Nfa.table) ++ [emptyRowTable])) := by
      have := wf_concatTablesAux (emptyRowTable :: (ns.map Nfa.table) ++ [emptyRowTable]) 0 hw
      simpa using this
    have hlenbase := length_concatTablesAux (emptyRowTable :: (ns.map Nfa.table) ++ [emptyRowTable]) 0
    have hL2 : 2 ≤ totalLen (emptyRowTable :: (ns.map Nfa.table) ++ [emptyRowTable]) := by
      simp only [totalLen, List.map_cons, List.map_append, List.sum_cons, List.sum_append,
        List.map_map]
      simp [emptyRowTable]
    have hv0 : (((offsetsAux (emptyRowTable :: (ns.map Nfa.table) ++ [emptyRowTable]) 0).drop 1).dropLast.toFinset : Finset Nat) ⊆
        Finset.range (totalLen (emptyRowTable :: (ns.map Nfa.table) ++ [emptyRowTable])) := by
      intro o ho
      have hmem : o ∈ offsetsAux (emptyRowTable :: (ns.map Nfa.table) ++ [emptyRowTable]) 0 :=
        List.mem_of_mem_drop (List.mem_of_mem_dropLast (List.mem_toFinset.mp ho))
      have := offsetsAux_bound 1 _ 0 h1 o hmem
      exact Finset.mem_range.mpr (by omega)
    have hvf : ∀ o ∈ (offsetsAux (emptyRowTable :: (ns.map Nfa.table) ++ [emptyRowTable]) 0).drop 2,
        ({(concatTablesAux (emptyRowTable :: (ns.map Nfa.table) ++ [emptyRowTable]) 0).length - 1} : Finset Nat) ⊆
        Finset.range (totalLen (emptyRowTable :: (ns.map Nfa.table) ++ [emptyRowTable])) := by
      intro o _ x hx
      rcases Finset.mem_singleton.mp hx with rfl
      rw [hlenbase]
      exact Finset.mem_range.mpr (by omega)
    have hlen : (Nfa.union ns).table.length =
        totalLen (emptyRowTable :: (ns.map Nfa.table) ++ [emptyRowTable]) := by
      rw [table_union, length_foldl_setEps, length_setEps, hlenbase]
    constructor
    · rw [wfTable_iff_bnd, hlen, table_union]
      exact bnd_foldl_setEps _ _ _ _
        (bnd_setEps _ 0 _ _ hbase hv0) hvf
    · rw [hlen]; exact hL2
  | star n hb ih =>
    have hw : ∀ t ∈ [emptyRowTable, n.table, emptyRowTable], WfTable t := by
      intro t ht
      rcases List.mem_cons.mp ht with rfl | ht
      · exact wf_emptyRowTable
      · rcases List.mem_cons.mp ht with rfl | ht
        · exact ih.1
        · rcases List.mem_singleton.mp ht with rfl
          exact wf_emptyRowTable
    have hbase : TableBnd (concatTablesAux [emptyRowTable, n.table, emptyRowTable] 0)
        (totalLen [emptyRowTable, n.table, emptyRowTable]) := by
      have := wf_concatTablesAux [emptyRowTable, n.table, emptyRowTable] 0 hw
      simpa using this
    have hlenbase := length_concatTablesAux [emptyRowTable, n.table, emptyRowTable] 0
    have hL : totalLen [emptyRowTable, n.table, emptyRowTable] = n.table.length + 2 := by
      simp [totalLen, emptyRowTable]
      omega
    have hL4 : 4 ≤ totalLen [emptyRowTable, n.table, emptyRowTable] := by
      have := ih.2
      omega
    have hv1 : ({1, (concatTablesAux [emptyRowTable, n.table, emptyRowTable] 0).length - 1} : Finset Nat) ⊆
        Finset.range (totalLen [emptyRowTable, n.table, emptyRowTable]) := by
      intro x hx
      rw [hlenbase] at hx
      rcases Finset.mem_insert.mp hx with rfl | hx
      · exact Finset.mem_range.mpr (by omega)
      · rcases Finset.mem_singleton.mp hx with rfl
        exact Finset.mem_range.mpr (by omega)
    have hv2 : ({0, (concatTablesAux [emptyRowTable, n.table, emptyRowTable] 0).length - 1} : Finset Nat) ⊆
        Finset.range (totalLen [emptyRowTable, n.table, emptyRowTable]) := by
      intro x hx
      rw [hlenbase] at hx
      rcases Finset.mem_insert.mp hx with rfl | hx
      · exact Finset.mem_range.mpr (by omega)
      · rcases Finset.mem_singleton.mp hx with rfl
        exact Finset.mem_range.mpr (by omega)
    have hlen : (Nfa.star n).table.length = totalLen [emptyRowTable, n.table, emptyRowTable] := by
      rw [table_star, length_setEps, length_setEps, hlenbase]
    constructor
    · rw [wfTable_iff_bnd, hlen, table_star]
      exact bnd_setEps _ _ _ _ (bnd_setEps _ 0 _ _ hbase hv1) hv2
    · rw [hlen]; omega

-- ---------------------------------------------------------------------
-- The final row of combinator-built NFAs (claim C10)
-- ---------------------------------------------------------------------

theorem totalLen_pos (ts : List NTable) (hne : ts ≠ [])
    (h1 : ∀ t ∈ ts, 1 ≤ t.length) : 1 ≤ totalLen ts := by
  rcases ts with _ | ⟨t, ts⟩
  · exact absurd rfl hne
  · have := h1 t (List.mem_cons_self _ _)
    simp only [totalLen, List.map_cons, List.sum_cons]
    omega

theorem getRow_concatAux_last (ts : List NTable) :
    ∀ (off : Nat) (hne : ts ≠ []),
    (∀ t ∈ ts, 1 ≤ t.length) →
    getRow (ts.getLast hne) ((ts.getLast hne).length - 1) = [] →
    getRow (concatTablesAux ts off) (totalLen ts - 1) = [] := by
  induction ts with
  | nil => intro off hne _ _; exact absurd rfl hne
  | cons t ts ih =>
    intro off hne h1 hlast
    rcases eq_or_ne ts [] with rfl | hts
    · have ht1 := h1 t (List.mem_cons_self _ _)
      have htot : totalLen [t] = t.length := by simp [totalLen]
      unfold concatTablesAux
      rw [htot]
      have hlt : t.length - 1 < (shiftTable off t).length := by
        rw [show (shiftTable off t).length = t.length from List.length_map _ _]
        omega
      rw [getRow_append_left _ _ _ hlt, getRow_shiftTable]
      have : (t :: ([] : List NTable)).getLast (by simp) = t := rfl
      rw [this] at hlast
      rw [hlast]
      rfl
    · have htpos := totalLen_pos ts hts (fun u hu => h1 u (List.mem_cons_of_mem _ hu))
      have htot : totalLen (t :: ts) = t.length + totalLen ts := by
        simp [totalLen]
      unfold concatTablesAux
      have hge : (shiftTable off t).length ≤ totalLen (t :: ts) - 1 := by
        rw [show (shiftTable off t).length = t.length from List.length_map _ _]
        omega
      rw [getRow_append_right _ _ _ hge]
      have hsub : totalLen (t :: ts) - 1 - (shiftTable off t).length = totalLen ts - 1 := by
        rw [show (shiftTable off t).length = t.length from List.length_map _ _]
        omega
      rw [hsub]
      have hlast2 : getRow (ts.getLast hts) ((ts.getLast hts).length - 1) = [] := by
        rwa [List.getLast_cons hts] at hlast
      exact ih _ hts (fun u hu => h1 u (List.mem_cons_of_mem _ hu)) hlast2

theorem getRow_foldl_setEps_ne (os : List Nat) (vf : Nat → Finset Nat)
    (t : NTable) (s : Nat) (h : ∀ o ∈ os, o - 1 ≠ s) :
    getRow (os.foldl (fun t off => setEps t (off - 1) (vf off)) t) s =
      getRow t s := by
  induction os generalizing t with
  | nil => rfl
  | cons o os ih =>
    rw [List.foldl_cons, ih _ (fun u hu => h u (List.mem_cons_of_mem _ hu)),
      getRow_setEps_ne _ _ _ _ (h o (List.mem_cons_self _ _))]

/-- The final row of every combinator-built NFA is completely empty. -/
theorem built_final_row_empty {n : Nfa} (h : Built n) :
    getRow n.table (n.table.length - 1) = [] := by
  induction h with
  | epsilon => rfl
  | char c => rfl
  | concat ns hne hb ih =>
    have h2 : ∀ t ∈ ns.map Nfa.table, 2 ≤ t.length := by
      intro t ht
      rcases List.mem_map.mp ht with ⟨m, hm, rfl⟩
      exact (built_wf_len (hb m hm)).2
    have h1 : ∀ t ∈ ns.map Nfa.table, 1 ≤ t.length := by
      intro t ht
      have := h2 t ht
      omega
    have hmapne : ns.map Nfa.table ≠ [] := by
      intro hc
      exact hne (List.map_eq_nil_iff.mp hc)
    have hlen : (Nfa.concat ns).table.length = totalLen (ns.map Nfa.table) := by
      rw [table_concat, length_foldl_setEps, length_concatTablesAux]
    rw [hlen, table_concat]
    rw [getRow_foldl_setEps_ne]
    · have hlastmem := List.getLast_mem hmapne
      have hlastrow : getRow ((ns.map Nfa.table).getLast hmapne)
          (((ns.map Nfa.table).getLast hmapne).length - 1) = [] := by
        rcases List.mem_map.mp hlastmem with ⟨m, hm, he⟩
        rw [← he]
        exact ih m hm
      exact getRow_concatAux_last _ 0 hmapne h1 hlastrow
    · intro o ho
      have := offsetsAux_bound 2 (ns.map Nfa.table) 0 h2 o (List.mem_of_mem_drop ho)
      have hpos := totalLen_pos _ hmapne h1
      omega
  | union ns hne hb ih =>
    have h1 : ∀ t ∈ emptyRowTable :: (ns.map Nfa.table) ++ [emptyRowTable], 1 ≤ t.length := by
      intro t ht
      rcases List.mem_cons.mp ht with rfl | ht
      · simp [emptyRowTable]
      · rcases List.mem_append.mp ht with ht | ht
        · rcases List.mem_map.mp ht with ⟨m, hm, rfl⟩
          have := (built_wf_len (hb m hm)).2
          omega
        · rcases List.mem_singleton.mp ht with rfl
          simp [emptyRowTable]
    have hlenbase := length_concatTablesAux (emptyRowTable :: (ns.map Nfa.table) ++ [emptyRowTable]) 0
    have hL2 : 2 ≤ totalLen (emptyRowTable :: (ns.map Nfa.table) ++ [emptyRowTable]) := by
      simp only [totalLen, List.map_cons, List.map_append, List.sum_cons, List.sum_append]
      simp [emptyRowTable]
    have hlen : (Nfa.union ns).table.length =
        totalLen (emptyRowTable :: (ns.map Nfa.table) ++ [emptyRowTable]) := by
      rw [table_union, length_foldl_setEps, length_setEps, hlenbase]
    rw [hlen, table_union]
    rw [getRow_foldl_setEps_ne]
    · rw [getRow_setEps_ne]
      · have hne2 : emptyRowTable :: (ns.map Nfa.table) ++ [emptyRowTable] ≠ [] := by
          simp
        have hlast : (emptyRowTable :: (ns.map Nfa.table) ++ [emptyRowTable]).getLast hne2 =
            emptyRowTable := by
          exact List.getLast_concat (emptyRowTable :: ns.map Nfa.table)
        refine (getRow_concatAux_last _ 0 hne2 h1 ?_)
        rw [hlast]
        rfl
      · omega
    · intro o ho
      have hge1 : 1 ≤ o := by
        have : o ∈ offsetsAux ((ns.map Nfa.table) ++ [emptyRowTable]) (0 + emptyRowTable.length) := by
          have hdrop : (offsetsAux (emptyRowTable :: (ns.map Nfa.table) ++ [emptyRowTable]) 0).drop 2 =
              (offsetsAux ((ns.map Nfa.table) ++ [emptyRowTable]) (0 + emptyRowTable.length)).drop 1 := rfl
          rw [hdrop] at ho
          exact List.mem_of_mem_drop ho
        have := offsetsAux_le _ _ o this
        simpa [emptyRowTable] using this
      have hbnd : o + 1 ≤ 0 + totalLen (emptyRowTable :: (ns.map Nfa.table) ++ [emptyRowTable]) := by
        refine offsetsAux_bound 1 _ 0 h1 o ?_
        exact List.mem_of_mem_drop (by
          have : (2 : Nat) = 1 + 1 := rfl
          rw [this, ← List.drop_drop] at ho
          exact List.mem_of_mem_drop ho)
      omega
  | star n hb ih =>
    have hn2 := (built_wf_len hb).2
    have hlenbase := length_concatTablesAux [emptyRowTable, n.table, emptyRowTable] 0
    have hL : totalLen [emptyRowTable, n.table, emptyRowTable] = n.table.length + 2 := by
      simp [totalLen, emptyRowTable]
      omega
    have hlen : (Nfa.star n).table.length = totalLen [emptyRowTable, n.table, emptyRowTable] := by
      rw [table_star, length_setEps, length_setEps, hlenbase]
    rw [hlen, table_star]
    rw [getRow_setEps_ne _ _ _ _ (by rw [hlenbase]; omega)]
    rw [getRow_setEps_ne _ _ _ _ (by omega)]
    have hne2 : ([emptyRowTable, n.table, emptyRowTable] : List NTable) ≠ [] := by simp
    have h1 : ∀ t ∈ [emptyRowTable, n.table, emptyRowTable], 1 ≤ t.length := by
      intro t ht
      rcases List.mem_cons.mp ht with rfl | ht
      · simp [emptyRowTable]
      · rcases List.mem_cons.mp ht with rfl | ht
        · omega
        · rcases List.mem_singleton.mp ht with rfl
          simp [emptyRowTable]
    refine getRow_concatAux_last _ 0 hne2 h1 ?_
    rfl

-- ---------------------------------------------------------------------
-- Matcher state invariants (claims C5 and C6)
-- ---------------------------------------------------------------------

theorem matchElement_zero (g : Grammar) (tokens : List Token) (e : GElem)
    (st : PState) : matchElement g tokens 0 e st = .error .recursionError := rfl

theorem matchElement_term (g : Grammar) (tokens : List Token) (fuel : Nat)
    (name : String) (st : PState) :
    matchElement g tokens (fuel + 1) (.term name) st =
      matchTerminal tokens name st := rfl

theorem matchElement_eps (g : Grammar) (tokens : List Token) (fuel : Nat)
    (st : PState) :
    matchElement g tokens (fuel + 1) .eps st = .ok (true, st) := rfl

theorem matchElement_act (g : Grammar) (tokens : List Token) (fuel : Nat)
    (st : PState) :
    matchElement g tokens (fuel + 1) .act st = .error .typeError := rfl

theorem matchElement_nonterm (g : Grammar) (tokens : List Token)
    (fuel : Nat) (name : String) (st : PState) :
    matchElement g tokens (fuel + 1) (.nonterm name) st =
      matchNonTerminal g tokens fuel name st := rfl

theorem matchNonTerminal_zero (g : Grammar) (tokens : List Token)
    (name : String) (st : PState) :
    matchNonTerminal g tokens 0 name st = .error .recursionError := rfl

theorem matchNonTerminal_none (g : Grammar) (tokens : List Token)
    (fuel : Nat) (name : String) (st : PState)
    (hl : g.lookup? name = none) :
    matchNonTerminal g tokens (fuel + 1) name st = .error .nameError := by
  show (match g.lookup? name with
    | none => (Except.error PErr.nameError : Except PErr (Bool × PState))
    | some prods => matchAlternatives g tokens fuel st.stack.length prods st) = _
  rw [hl]

theorem matchNonTerminal_some (g : Grammar) (tokens : List Token)
    (fuel : Nat) (name : String) (st : PState) (prods : List GProd)
    (hl : g.lookup? name = some prods) :
    matchNonTerminal g tokens (fuel + 1) name st =
      matchAlternatives g tokens fuel st.stack.length prods st := by
  show (match g.lookup? name with
    | none => (Except.error PErr.nameError : Except PErr (Bool × PState))
    | some prods => matchAlternatives g tokens fuel st.stack.length prods st) = _
  rw [hl]

theorem matchAlternatives_zero (g : Grammar) (tokens : List Token)
    (save : Nat) (ps : List GProd) (st : PState) :
    matchAlternatives g tokens 0 save ps st = .error .recursionError := rfl

theorem matchAlternatives_nil (g : Grammar) (tokens : List Token)
    (fuel save : Nat) (st : PState) :
    matchAlternatives g tokens (fuel + 1) save [] st = .ok (false, st) := rfl

theorem matchAlternatives_cons_eq (g : Grammar) (tokens : List Token)
    (fuel save : Nat) (p : GProd) (ps : List GProd) (st : PState) :
    matchAlternatives g tokens (fuel + 1) save (p :: ps) st =
      (matchProduction g tokens fuel p { st with stack := st.stack ++ [p] }).bind
        (fun r =>
          if r.1 then .ok (true, r.2)
          else matchAlternatives g tokens fuel save ps
            { r.2 with stack := r.2.stack.take save }) := rfl

theorem matchProduction_zero (g : Grammar) (tokens : List Token)
    (p : GProd) (st : PState) :
    matchProduction g tokens 0 p st = .error .recursionError := rfl

theorem matchProduction_succ (g : Grammar) (tokens : List Token) (fuel : Nat)
    (p : GProd) (st : PState) :
    matchProduction g tokens (fuel + 1) p st =
      matchElements g tokens fuel st.lookahead p.elements st := rfl

theorem matchElements_zero (g : Grammar) (tokens : List Token)
    (save : Option Nat) (es : List GElem) (st : PState) :
    matchElements g tokens 0 save es st = .error .recursionError := rfl

theorem matchElements_nil (g : Grammar) (tokens : List Token) (fuel : Nat)
    (save : Option Nat) (st : PState) :
    matchElements g tokens (fuel + 1) save [] st = .ok (true, st) := rfl

theorem matchElements_cons_eq (g : Grammar) (tokens : List Token)
    (fuel : Nat) (save : Option Nat) (e : GElem) (es : List GElem)
    (st : PState) :
    matchElements g tokens (fuel + 1) save (e :: es) st =
      (matchElement g tokens fuel e st).bind (fun r =>
        if r.1 then matchElements g tokens fuel save es r.2
        else .ok (false, { r.2 with lookahead := save })) := rfl

/-- Forward-evaluation steps for replaying a concrete run of the
matcher one call at a time (each lemma consumes exactly one unit of
fuel, mirroring one Python call frame). -/
theorem nt_eval {g : Grammar} {tokens : List Token} (fuel : Nat)
    {name : String} {st : PState} {prods : List GProd}
    {out : Except PErr (Bool × PState)}
    (hl : g.lookup? name = some prods)
    (h : matchAlternatives g tokens fuel st.stack.length prods st = out) :
    matchNonTerminal g tokens (fuel + 1) name st = out := by
  rw [matchNonTerminal_some g tokens fuel name st prods hl, h]

theorem elem_nt_eval {g : Grammar} {tokens : List Token} (fuel : Nat)
    {name : String} {st : PState} {out : Except PErr (Bool × PState)}
    (h : matchNonTerminal g tokens fuel name st = out) :
    matchElement g tokens (fuel + 1) (.nonterm name) st = out := by
  rw [matchElement_nonterm]
  exact h

theorem prod_eval {g : Grammar} {tokens : List Token} (fuel : Nat)
    {p : GProd} {st : PState} {out : Except PErr (Bool × PState)}
    (h : matchElements g tokens fuel st.lookahead p.elements st = out) :
    matchProduction g tokens (fuel + 1) p st = out := by
  rw [matchProduction_succ]
  exact h

theorem alts_succ_step {g : Grammar} {tokens : List Token} (fuel : Nat)
    {save : Nat} {p : GProd} {ps : List GProd} {st st' : PState}
    (hp : matchProduction g tokens fuel p { st with stack := st.stack ++ [p] } =
      .ok (true, st')) :
    matchAlternatives g tokens (fuel + 1) save (p :: ps) st = .ok (true, st') := by
  rw [matchAlternatives_cons_eq, hp]
  rfl

theorem alts_fail_step {g : Grammar} {tokens : List Token} (fuel : Nat)
    {save : Nat} {p : GProd} {ps : List GProd} {st stf : PState}
    {out : Except PErr (Bool × PState)}
    (hp : matchProduction g tokens fuel p { st with stack := st.stack ++ [p] } =
      .ok (false, stf))
    (hrest : matchAlternatives g tokens fuel save ps
      { stf with stack := stf.stack.take save } = out) :
    matchAlternatives g tokens (fuel + 1) save (p :: ps) st = out := by
  rw [matchAlternatives_cons_eq, hp]
  exact hrest

theorem alts_err_step {g : Grammar} {tokens : List Token} (fuel : Nat)
    {save : Nat} {p : GProd} {ps : List GProd} {st : PState} {pe : PErr}
    (hp : matchProduction g tokens fuel p { st with stack := st.stack ++ [p] } =
      .error pe) :
    matchAlternatives g tokens (fuel + 1) save (p :: ps) st = .error pe := by
  rw [matchAlternatives_cons_eq, hp]
  rfl

theorem elems_true_step {g : Grammar} {tokens : List Token} (fuel : Nat)
    {save : Option Nat} {e : GElem} {es : List GElem} {st st1 : PState}
    {out : Except PErr (Bool × PState)}
    (he : matchElement g tokens fuel e st = .ok (true, st1))
    (hrest : matchElements g tokens fuel save es st1 = out) :
    matchElements g tokens (fuel + 1) save (e :: es) st = out := by
  rw [matchElements_cons_eq, he]
  exact hrest

theorem elems_false_step {g : Grammar} {tokens : List Token} (fuel : Nat)
    {save : Option Nat} {e : GElem} {es : List GElem} {st st1 : PState}
    (he : matchElement g tokens fuel e st = .ok (false, st1)) :
    matchElements g tokens (fuel + 1) save (e :: es) st =
      .ok (false, { st1 with lookahead := save }) := by
  rw [matchElements_cons_eq, he]
  rfl

theorem elems_err_step {g : Grammar} {tokens : List Token} (fuel : Nat)
    {save : Option Nat} {e : GElem} {es : List GElem} {st : PState} {pe : PErr}
    (he : matchElement g tokens fuel e st = .error pe) :
    matchElements g tokens (fuel + 1) save (e :: es) st = .error pe := by
  rw [matchElements_cons_eq, he]
  rfl

theorem PState.ext' (a b : PState) (h1 : a.lookahead = b.lookahead)
    (h2 : a.stack = b.stack) : a = b := by
  cases a; cases b; cases h1; cases h2; rfl

theorem okInj {b b' : Bool} {s s' : PState}
    (h : (Except.ok (b, s) : Except PErr (Bool × PState)) = .ok (b', s')) :
    b = b' ∧ s = s' := by
  injection h with h1
  exact ⟨congrArg Prod.fst h1, congrArg Prod.snd h1⟩

theorem stack_advanceLookahead (tokens : List Token) (st : PState) :
    (advanceLookahead tokens st).stack = st.stack := by
  unfold advanceLookahead
  cases st.lookahead <;> rfl

/-- Invariant of `_match_production_element`: the stack only grows, and
a failing element leaves the state untouched. -/
def ElemInv (g : Grammar) (tokens : List Token) (fuel : Nat) : Prop :=
  ∀ e st b st', matchElement g tokens fuel e st = .ok (b, st') →
    (∃ d, st'.stack = st.stack ++ d) ∧ (b = false → st' = st)

/-- Invariant of the element loop of `_match_production`: the stack only
grows, and on failure the lookahead is the saved one. -/
def ElemsInv (g : Grammar) (tokens : List Token) (fuel : Nat) : Prop :=
  ∀ save es st b st', matchElements g tokens fuel save es st = .ok (b, st') →
    (∃ d, st'.stack = st.stack ++ d) ∧ (b = false → st'.lookahead = save)

/-- Invariant of `_match_production`: the stack only grows, and failure
restores the lookahead saved at entry. -/
def ProdInv (g : Grammar) (tokens : List Token) (fuel : Nat) : Prop :=
  ∀ p st b st', matchProduction g tokens fuel p st = .ok (b, st') →
    (∃ d, st'.stack = st.stack ++ d) ∧ (b = false → st'.lookahead = st.lookahead)

/-- Invariant of the alternatives loop of `_match_non_terminal` (with
`save = len(stack)` at entry): the stack only grows, and failure
restores the whole state. -/
def AltsInv (g : Grammar) (tokens : List Token) (fuel : Nat) : Prop :=
  ∀ ps st b st',
    matchAlternatives g tokens fuel st.stack.length ps st = .ok (b, st') →
    (∃ d, st'.stack = st.stack ++ d) ∧ (b = false → st' = st)

/-- Invariant of `_match_non_terminal`: the stack only grows, and
failure restores the whole state. -/
def NtInv (g : Grammar) (tokens : List Token) (fuel : Nat) : Prop :=
  ∀ name st b st', matchNonTerminal g tokens fuel name st = .ok (b, st') →
    (∃ d, st'.stack = st.stack ++ d) ∧ (b = false → st' = st)

def MatcherInv (g : Grammar) (tokens : List Token) (fuel : Nat) : Prop :=
  ElemInv g tokens fuel ∧ ElemsInv g tokens fuel ∧ ProdInv g tokens fuel ∧
    AltsInv g tokens fuel ∧ NtInv g tokens fuel

theorem matcherInv_zero (g : Grammar) (tokens : List Token) :
    MatcherInv g tokens 0 := by
  refine ⟨?_, ?_, ?_, ?_, ?_⟩
  · intro e st b st' h; rw [matchElement_zero] at h; cases h
  · intro save es st b st' h; rw [matchElements_zero] at h; cases h
  · intro p st b st' h; rw [matchProduction_zero] at h; cases h
  · intro ps st b st' h; rw [matchAlternatives_zero] at h; cases h
  · intro name st b st' h; rw [matchNonTerminal_zero] at h; cases h

theorem elemInv_succ (g : Grammar) (tokens : List Token) (fuel : Nat)
    (ih : MatcherInv g tokens fuel) : ElemInv g tokens (fuel + 1) := by
  intro e st b st' h
  match e with
  | .term name =>
    rw [matchElement_term] at h
    unfold matchTerminal at h
    split at h
    · obtain ⟨rfl, rfl⟩ := okInj h
      exact ⟨⟨[], by simp⟩, fun _ => rfl⟩
    · rename_i la hla
      split at h
      · cases h
      · rename_i tok htk
        split at h
        · obtain ⟨rfl, rfl⟩ := okInj h
          refine ⟨⟨[], by rw [stack_advanceLookahead]; simp⟩, fun hb => by cases hb⟩
        · obtain ⟨rfl, rfl⟩ := okInj h
          exact ⟨⟨[], by simp⟩, fun _ => rfl⟩
  | .nonterm name =>
    rw [matchElement_nonterm] at h
    have := ih.2.2.2.2 name st b st' h
    exact ⟨this.1, this.2⟩
  | .eps =>
    rw [matchElement_eps] at h
    obtain ⟨rfl, rfl⟩ := okInj h
    exact ⟨⟨[], by simp⟩, fun hb => by cases hb⟩
  | .act => rw [matchElement_act] at h; cases h

theorem elemsInv_succ (g : Grammar) (tokens : List Token) (fuel : Nat)
    (ih : MatcherInv g tokens fuel) : ElemsInv g tokens (fuel + 1) := by
  intro save es st b st' h
  match es with
  | [] =>
    rw [matchElements_nil] at h
    obtain ⟨rfl, rfl⟩ := okInj h
    exact ⟨⟨[], by simp⟩, fun hb => by cases hb⟩
  | e :: es =>
    rw [matchElements_cons_eq] at h
    cases hr : matchElement g tokens fuel e st with
    | error pe => rw [hr] at h; cases h
    | ok r =>
      rw [hr] at h
      replace h : (if r.1 then matchElements g tokens fuel save es r.2
        else .ok (false, { r.2 with lookahead := save })) = .ok (b, st') := h
      by_cases hb1 : r.1
      · rw [if_pos hb1] at h
        obtain ⟨d1, hd1⟩ := (ih.1 e st r.1 r.2 (by rw [hr])).1
        obtain ⟨⟨d2, hd2⟩, hf⟩ := ih.2.1 save es r.2 b st' h
        exact ⟨⟨d1 ++ d2, by rw [hd2, hd1, List.append_assoc]⟩, hf⟩
      · rw [if_neg hb1] at h
        obtain ⟨rfl, rfl⟩ := okInj h
        obtain ⟨⟨d1, hd1⟩, _⟩ := ih.1 e st r.1 r.2 (by rw [hr])
        exact ⟨⟨d1, by simpa using hd1⟩, fun _ => rfl⟩

theorem prodInv_succ (g : Grammar) (tokens : List Token) (fuel : Nat)
    (ih : MatcherInv g tokens fuel) : ProdInv g tokens (fuel + 1) := by
  intro p st b st' h
  rw [matchProduction_succ] at h
  exact ih.2.1 st.lookahead p.elements st b st' h

theorem altsInv_succ (g : Grammar) (tokens : List Token) (fuel : Nat)
    (ih : MatcherInv g tokens fuel) : AltsInv g tokens (fuel + 1) := by
  intro ps st b st' h
  match ps with
  | [] =>
    rw [matchAlternatives_nil] at h
    obtain ⟨rfl, rfl⟩ := okInj h
    exact ⟨⟨[], by simp⟩, fun _ => rfl⟩
  | p :: ps =>
    rw [matchAlternatives_cons_eq] at h
    cases hr : matchProduction g tokens fuel p { st with stack := st.stack ++ [p] } with
    | error pe => rw [hr] at h; cases h
    | ok r =>
      rw [hr] at h
      replace h : (if r.1 then .ok (true, r.2)
        else matchAlternatives g tokens fuel st.stack.length ps
          { r.2 with stack := r.2.stack.take st.stack.length }) = .ok (b, st') := h
      obtain ⟨⟨d1, hd1⟩, hlf⟩ := ih.2.2.1 p { st with stack := st.stack ++ [p] } r.1 r.2 (by rw [hr])
      by_cases hb1 : r.1
      · rw [if_pos hb1] at h
        obtain ⟨rfl, rfl⟩ := okInj h
        refine ⟨⟨[p] ++ d1, ?_⟩, fun hb => by cases hb⟩
        rw [hd1]
        simp
      · rw [if_neg hb1] at h
        have hla : r.2.lookahead = st.lookahead := hlf (by simpa using hb1)
        have hst2 : ({ r.2 with stack := r.2.stack.take st.stack.length } : PState) = st := by
          refine PState.ext' _ _ hla ?_
          show r.2.stack.take st.stack.length = st.stack
          rw [hd1]
          show ((st.stack ++ [p]) ++ d1).take st.stack.length = st.stack
          rw [List.append_assoc]
          exact List.take_left st.stack ([p] ++ d1)
        rw [hst2] at h
        exact ih.2.2.2.1 ps st b st' h

theorem ntInv_succ (g : Grammar) (tokens : List Token) (fuel : Nat)
    (ih : MatcherInv g tokens fuel) : NtInv g tokens (fuel + 1) := by
  intro name st b st' h
  cases hl : g.lookup? name with
  | none => rw [matchNonTerminal_none g tokens fuel name st hl] at h; cases h
  | some prods =>
    rw [matchNonTerminal_some g tokens fuel name st prods hl] at h
    exact ih.2.2.2.1 prods st b st' h

theorem matcherInv_all (g : Grammar) (tokens : List Token) (fuel : Nat) :
    MatcherInv g tokens fuel := by
  induction fuel with
  | zero => exact matcherInv_zero g tokens
  | succ fuel ih =>
    exact ⟨elemInv_succ g tokens fuel ih, elemsInv_succ g tokens fuel ih,
      prodInv_succ g tokens fuel ih, altsInv_succ g tokens fuel ih,
      ntInv_succ g tokens fuel ih⟩

theorem elemInv_all (g : Grammar) (tokens : List Token) (fuel : Nat) :
    ElemInv g tokens fuel := (matcherInv_all g tokens fuel).1

theorem prodInv_all (g : Grammar) (tokens : List Token) (fuel : Nat) :
    ProdInv g tokens fuel := (matcherInv_all g tokens fuel).2.2.1

theorem altsInv_all (g : Grammar) (tokens : List Token) (fuel : Nat) :
    AltsInv g tokens fuel := (matcherInv_all g tokens fuel).2.2.2.1

theorem ntInv_all (g : Grammar) (tokens : List Token) (fuel : Nat) :
    NtInv g tokens fuel := (matcherInv_all g tokens fuel).2.2.2.2

/-- A failed alternative restores the parser state exactly (lookahead
from the production save, stack from the non-terminal truncation). -/
theorem alts_reset (g : Grammar) (tokens : List Token) (fuel : Nat)
    (p : GProd) (st : PState) (r : Bool × PState)
    (hr : matchProduction g tokens fuel p { st with stack := st.stack ++ [p] } = .ok r)
    (hb : r.1 = false) :
    ({ r.2 with stack := r.2.stack.take st.stack.length } : PState) = st := by
  obtain ⟨⟨d1, hd1⟩, hlf⟩ := prodInv_all g tokens fuel p
    { st with stack := st.stack ++ [p] } r.1 r.2 (by rw [hr])
  refine PState.ext' _ _ (hlf hb) ?_
  show r.2.stack.take st.stack.length = st.stack
  rw [hd1]
  show ((st.stack ++ [p]) ++ d1).take st.stack.length = st.stack
  rw [List.append_assoc]
  exact List.take_left st.stack ([p] ++ d1)

/-- A matched non-terminal commits to the first alternative that
succeeds: every earlier alternative fails (tried from the same restored
state, each with the fuel left when its turn comes), and the successful
one produces the final state. -/
theorem alts_first_success (g : Grammar) (tokens : List Token) :
    ∀ (fuel : Nat) (ps : List GProd) (st st' : PState),
    matchAlternatives g tokens fuel st.stack.length ps st = .ok (true, st') →
    ∃ i p, ps.get? i = some p ∧
      (∀ j pj, j < i → ps.get? j = some pj →
        ∃ stj, matchProduction g tokens (fuel - 1 - j) pj
          { st with stack := st.stack ++ [pj] } = .ok (false, stj)) ∧
      matchProduction g tokens (fuel - 1 - i) p
        { st with stack := st.stack ++ [p] } = .ok (true, st') := by
  intro fuel
  induction fuel with
  | zero =>
    intro ps st st' h
    rw [matchAlternatives_zero] at h
    cases h
  | succ fuel ih =>
    intro ps st st' h
    match ps with
    | [] =>
      rw [matchAlternatives_nil] at h
      exact absurd (okInj h).1 (by simp)
    | p :: ps =>
      rw [matchAlternatives_cons_eq] at h
      cases hr : matchProduction g tokens fuel p { st with stack := st.stack ++ [p] } with
      | error pe => rw [hr] at h; cases h
      | ok r =>
        rw [hr] at h
        replace h : (if r.1 then .ok (true, r.2)
          else matchAlternatives g tokens fuel st.stack.length ps
            { r.2 with stack := r.2.stack.take st.stack.length }) = .ok (true, st') := h
        by_cases hb1 : r.1
        · rw [if_pos hb1] at h
          obtain ⟨_, rfl⟩ := okInj h
          refine ⟨0, p, rfl, fun j pj hj _ => absurd hj (Nat.not_lt_zero j), ?_⟩
          rw [show fuel + 1 - 1 - 0 = fuel from by omega, hr]
          congr 1
          exact Prod.ext (by simpa using hb1) rfl
        · rw [if_neg hb1] at h
          have hb1' : r.1 = false := by simpa using hb1
          rw [alts_reset g tokens fuel p st r hr hb1'] at h
          obtain ⟨i, p', hget, hfail, hsucc⟩ := ih ps st st' h
          refine ⟨i + 1, p', hget, ?_, ?_⟩
          · intro j pj hj hgj
            match j with
            | 0 =>
              refine ⟨r.2, ?_⟩
              have hpj : pj = p := by
                injection hgj with h1
                exact h1.symm
              subst hpj
              rw [show fuel + 1 - 1 - 0 = fuel from by omega, hr]
              congr 1
              exact Prod.ext (by simpa using hb1') rfl
            | j' + 1 =>
              have := hfail j' pj (Nat.lt_of_succ_lt_succ hj) hgj
              rw [show fuel + 1 - 1 - (j' + 1) = fuel - 1 - j' from by omega]
              exact this
          · rw [show fuel + 1 - 1 - (i + 1) = fuel - 1 - i from by omega]
            exact hsucc

-- ---------------------------------------------------------------------
-- Token positions, tree building and token attachment (claim C6)
-- ---------------------------------------------------------------------

/-- The position of the parser's cursor in the token vector
(`None` = past the end). -/
def pos (tokens : List Token) (st : PState) : Nat :=
  match st.lookahead with
  | none => tokens.length
  | some i => i

/-- A lookahead that is in range whenever it is not `None` (this holds
throughout a scan of a non-empty token vector). -/
def ValidLa (tokens : List Token) (st : PState) : Prop :=
  ∀ i, st.lookahead = some i → i < tokens.length

theorem buildNode_zero (prods : List GProd) :
    buildNode 0 prods = .error .recursionError := rfl

theorem buildNode_succ_eq (f : Nat) (p : GProd) (prods : List GProd) :
    buildNode (f + 1) (p :: prods) =
      (buildChildren f p.elements prods).bind
        (fun r => .ok (.node p r.1, r.2)) := rfl

theorem buildChildren_zero (es : List GElem) (prods : List GProd) :
    buildChildren 0 es prods = .error .recursionError := rfl

theorem buildChildren_nil (f : Nat) (prods : List GProd) :
    buildChildren (f + 1) [] prods = .ok ([], prods) := rfl

theorem buildChildren_term_eq (f : Nat) (t : String) (es : List GElem)
    (prods : List GProd) :
    buildChildren (f + 1) (.term t :: es) prods =
      (buildChildren f es prods).bind
        (fun r => .ok (.leaf t none :: r.1, r.2)) := rfl

theorem buildChildren_nonterm_eq (f : Nat) (nm : String) (es : List GElem)
    (prods : List GProd) :
    buildChildren (f + 1) (.nonterm nm :: es) prods =
      (buildNode f prods).bind (fun c =>
        (buildChildren f es c.2).bind (fun r => .ok (c.1 :: r.1, r.2))) := rfl

theorem buildChildren_eps_eq (f : Nat) (es : List GElem)
    (prods : List GProd) :
    buildChildren (f + 1) (.eps :: es) prods = buildChildren f es prods := rfl

theorem buildChildren_act_eq (f : Nat) (es : List GElem)
    (prods : List GProd) :
    buildChildren (f + 1) (.act :: es) prods =
      (buildChildren f es prods).bind
        (fun r => .ok (.actChild :: r.1, r.2)) := rfl

theorem leafCount_leaf (nm : String) (tok : Option Token) :
    leafCount (.leaf nm tok) = 1 := by
  conv_lhs => unfold leafCount

theorem leafCount_act : leafCount .actChild = 0 := by
  conv_lhs => unfold leafCount

theorem leafTokens_leaf (nm : String) (tok : Option Token) :
    leafTokens (.leaf nm tok) = [tok] := by
  conv_lhs => unfold leafTokens

theorem leafTokens_act : leafTokens .actChild = [] := by
  conv_lhs => unfold leafTokens

theorem attachTokens_leaf_nil (nm : String) (tok : Option Token) :
    attachTokens (.leaf nm tok) [] = (.leaf nm none, []) := by
  conv_lhs => unfold attachTokens

theorem attachTokens_leaf_cons (nm : String) (tok : Option Token)
    (tk : Token) (rest : List Token) :
    attachTokens (.leaf nm tok) (tk :: rest) = (.leaf nm (some tk), rest) := by
  conv_lhs => unfold attachTokens

theorem attachTokens_act (tks : List Token) :
    attachTokens .actChild tks = (.actChild, tks) := by
  conv_lhs => unfold attachTokens

theorem leafCount_node (p : GProd) (cs : List PTree) :
    leafCount (.node p cs) = leafCountList cs := by
  conv_lhs => unfold leafCount

theorem leafCountList_cons (c : PTree) (cs : List PTree) :
    leafCountList (c :: cs) = leafCount c + leafCountList cs := by
  conv_lhs => unfold leafCountList

theorem leafTokens_node (p : GProd) (cs : List PTree) :
    leafTokens (.node p cs) = leafTokensList cs := by
  conv_lhs => unfold leafTokens

theorem leafTokensList_cons (c : PTree) (cs : List PTree) :
    leafTokensList (c :: cs) = leafTokens c ++ leafTokensList cs := by
  conv_lhs => unfold leafTokensList

theorem attachTokens_node (p : GProd) (cs : List PTree) (tks : List Token) :
    attachTokens (.node p cs) tks =
      ((.node p (attachTokensList cs tks).1 : PTree), (attachTokensList cs tks).2) := by
  conv_lhs => unfold attachTokens

theorem attachTokensList_cons (c : PTree) (cs : List PTree) (tks : List Token) :
    attachTokensList (c :: cs) tks =
      ((attachTokens c tks).1 :: (attachTokensList cs (attachTokens c tks).2).1,
        (attachTokensList cs (attachTokens c tks).2).2) := by
  conv_lhs => unfold attachTokensList

mutual

theorem attach_spec : ∀ (t : PTree) (tks : List Token),
    leafCount t ≤ tks.length →
    leafTokens (attachTokens t tks).1 = (tks.take (leafCount t)).map some ∧
    (attachTokens t tks).2 = tks.drop (leafCount t)
  | .leaf nm tok, tks, h => by
    cases tks with
    | nil =>
      rw [leafCount_leaf] at h
      simp at h
    | cons tk rest =>
      rw [attachTokens_leaf_cons, leafCount_leaf]
      constructor
      · rw [leafTokens_leaf]
        simp
      · simp
  | .actChild, _, _ => by
    rw [attachTokens_act, leafCount_act]
    constructor
    · rw [leafTokens_act]
      simp
    · simp
  | .node p cs, tks, h => by
    have hc : leafCountList cs ≤ tks.length := by
      rw [leafCount_node] at h
      exact h
    have := attach_specList cs tks hc
    rw [attachTokens_node, leafCount_node]
    constructor
    · rw [leafTokens_node]
      exact this.1
    · exact this.2

theorem attach_specList : ∀ (cs : List PTree) (tks : List Token),
    leafCountList cs ≤ tks.length →
    leafTokensList (attachTokensList cs tks).1 =
      (tks.take (leafCountList cs)).map some ∧
    (attachTokensList cs tks).2 = tks.drop (leafCountList cs)
  | [], tks, _ => by
    unfold attachTokensList leafTokensList leafCountList
    simp
  | c :: cs, tks, h => by
    rw [leafCountList_cons] at h
    have h1 : leafCount c ≤ tks.length := by omega
    have hs1 := attach_spec c tks h1
    have h2 : leafCountList cs ≤ ((attachTokens c tks).2).length := by
      rw [hs1.2, List.length_drop]
      omega
    have hs2 := attach_specList cs ((attachTokens c tks).2) h2
    rw [attachTokensList_cons, leafCountList_cons]
    constructor
    · rw [leafTokensList_cons, hs1.1, hs2.1, hs1.2]
      rw [List.take_add, List.map_append]
    · rw [hs2.2, hs1.2, List.drop_drop]

end

theorem stackCost_cons (p : GProd) (d : List GProd) :
    stackCost (p :: d) = prodWeight p + stackCost d := by
  simp [stackCost]

theorem stackCost_append (d1 d2 : List GProd) :
    stackCost (d1 ++ d2) = stackCost d1 + stackCost d2 := by
  simp [stackCost]

/-- The production sequence `d` builds exactly one tree node (consuming
exactly `d` from the stack, whatever follows) with `k` leaves, as soon
as the fuel covers the cost of the consumed productions. -/
def BuildsNode (d : List GProd) (k : Nat) : Prop :=
  ∀ (rest : List GProd) (bf : Nat), stackCost d ≤ bf →
    ∃ t, buildNode bf (d ++ rest) = .ok (t, rest) ∧ leafCount t = k

/-- The production sequence `d` builds exactly the children for the
element list `es` with `k` leaves in total. -/
def BuildsChildren (es : List GElem) (d : List GProd) (k : Nat) : Prop :=
  ∀ (rest : List GProd) (bf : Nat), es.length + 1 + stackCost d ≤ bf →
    ∃ cs, buildChildren bf es (d ++ rest) = .ok (cs, rest) ∧
      leafCountList cs = k

/-- What one successfully matched element contributes to the stack and
the leaf count. -/
def ElemBuilds (e : GElem) (d : List GProd) (k : Nat) : Prop :=
  match e with
  | .term _ => d = [] ∧ k = 1
  | .eps => d = [] ∧ k = 0
  | .act => False
  | .nonterm _ => BuildsNode d k

theorem buildsChildren_nil : BuildsChildren [] [] 0 := by
  intro rest bf hbf
  cases bf with
  | zero => omega
  | succ bf => exact ⟨[], by rw [List.nil_append, buildChildren_nil], rfl⟩

theorem buildsChildren_cons_term (t : String) (es : List GElem)
    (d : List GProd) (k : Nat) (h : BuildsChildren es d k) :
    BuildsChildren (.term t :: es) d (1 + k) := by
  intro rest bf hbf
  cases bf with
  | zero => omega
  | succ bf =>
    obtain ⟨cs, hcs, hk⟩ := h rest bf (by simp at hbf; omega)
    refine ⟨.leaf t none :: cs, ?_, ?_⟩
    · rw [buildChildren_term_eq, hcs]
      rfl
    · rw [leafCountList_cons, leafCount_leaf, hk]

theorem buildsChildren_cons_eps (es : List GElem) (d : List GProd)
    (k : Nat) (h : BuildsChildren es d k) :
    BuildsChildren (.eps :: es) d k := by
  intro rest bf hbf
  cases bf with
  | zero => omega
  | succ bf =>
    obtain ⟨cs, hcs, hk⟩ := h rest bf (by simp at hbf; omega)
    exact ⟨cs, by rw [buildChildren_eps_eq, hcs], hk⟩

theorem buildsChildren_cons_nonterm (nm : String) (es : List GElem)
    (d1 d2 : List GProd) (k1 k2 : Nat)
    (h1 : BuildsNode d1 k1) (h2 : BuildsChildren es d2 k2) :
    BuildsChildren (.nonterm nm :: es) (d1 ++ d2) (k1 + k2) := by
  intro rest bf hbf
  rw [stackCost_append] at hbf
  cases bf with
  | zero => omega
  | succ bf =>
    have hbf' : es.length + 1 + 1 + (stackCost d1 + stackCost d2) ≤ bf + 1 := by
      simpa using hbf
    obtain ⟨t1, ht1, hk1⟩ := h1 (d2 ++ rest) bf (by omega)
    obtain ⟨cs, hcs, hk2⟩ := h2 rest bf (by omega)
    refine ⟨t1 :: cs, ?_, ?_⟩
    · rw [buildChildren_nonterm_eq, List.append_assoc, ht1]
      show (buildChildren bf es (d2 ++ rest)).bind _ = _
      rw [hcs]
      rfl
    · rw [leafCountList_cons, hk1, hk2]

theorem buildsNode_intro (p : GProd) (d : List GProd) (k : Nat)
    (h : BuildsChildren p.elements d k) : BuildsNode (p :: d) k := by
  intro rest bf hbf
  rw [stackCost_cons] at hbf
  cases bf with
  | zero => unfold prodWeight at hbf; omega
  | succ bf =>
    obtain ⟨cs, hcs, hk⟩ := h rest bf (by unfold prodWeight at hbf; omega)
    refine ⟨.node p cs, ?_, ?_⟩
    · rw [List.cons_append, buildNode_succ_eq, hcs]
      rfl
    · rw [leafCount_node, hk]

/-- A successfully matched element: the lookahead stays valid, moves
forward, and the productions pushed on the stack build the
corresponding tree fragment whose leaf count is the number of consumed
tokens. -/
def ElemSucc (g : Grammar) (tokens : List Token) (fuel : Nat) : Prop :=
  ∀ e st st', ValidLa tokens st →
    matchElement g tokens fuel e st = .ok (true, st') →
    ValidLa tokens st' ∧ pos tokens st ≤ pos tokens st' ∧
    ∃ d, st'.stack = st.stack ++ d ∧
      ElemBuilds e d (pos tokens st' - pos tokens st)

def ElemsSucc (g : Grammar) (tokens : List Token) (fuel : Nat) : Prop :=
  ∀ save es st st', ValidLa tokens st →
    matchElements g tokens fuel save es st = .ok (true, st') →
    ValidLa tokens st' ∧ pos tokens st ≤ pos tokens st' ∧
    ∃ d, st'.stack = st.stack ++ d ∧
      BuildsChildren es d (pos tokens st' - pos tokens st)

def ProdSucc (g : Grammar) (tokens : List Token) (fuel : Nat) : Prop :=
  ∀ p st st', ValidLa tokens st →
    matchProduction g tokens fuel p st = .ok (true, st') →
    ValidLa tokens st' ∧ pos tokens st ≤ pos tokens st' ∧
    ∃ d, st'.stack = st.stack ++ d ∧
      BuildsChildren p.elements d (pos tokens st' - pos tokens st)

def AltsSucc (g : Grammar) (tokens : List Token) (fuel : Nat) : Prop :=
  ∀ ps st st', ValidLa tokens st →
    matchAlternatives g tokens fuel st.stack.length ps st = .ok (true, st') →
    ValidLa tokens st' ∧ pos tokens st ≤ pos tokens st' ∧
    ∃ d, st'.stack = st.stack ++ d ∧
      BuildsNode d (pos tokens st' - pos tokens st)

def NtSucc (g : Grammar) (tokens : List Token) (fuel : Nat) : Prop :=
  ∀ name st st', ValidLa tokens st →
    matchNonTerminal g tokens fuel name st = .ok (true, st') →
    ValidLa tokens st' ∧ pos tokens st ≤ pos tokens st' ∧
    ∃ d, st'.stack = st.stack ++ d ∧
      BuildsNode d (pos tokens st' - pos tokens st)

def MatcherSucc (g : Grammar) (tokens : List Token) (fuel : Nat) : Prop :=
  ElemSucc g tokens fuel ∧ ElemsSucc g tokens fuel ∧
    ProdSucc g tokens fuel ∧ AltsSucc g tokens fuel ∧ NtSucc g tokens fuel

theorem matchTerminal_true (tokens : List Token) (name : String)
    (st st' : PState) (hv : ValidLa tokens st)
    (h : matchTerminal tokens name st = .ok (true, st')) :
    ValidLa tokens st' ∧ st'.stack = st.stack ∧
    pos tokens st' = pos tokens st + 1 := by
  unfold matchTerminal at h
  split at h
  · exact absurd (okInj h).1 (by simp)
  · rename_i la hla
    split at h
    · cases h
    · rename_i tok htk
      split at h
      · obtain ⟨_, rfl⟩ := okInj h
        have hlt : la < tokens.length := hv la hla
        have hpos : pos tokens st = la := by
          unfold pos
          rw [hla]
        refine ⟨?_, stack_advanceLookahead tokens st, ?_⟩
        · intro i hi
          unfold advanceLookahead at hi
          rw [hla] at hi
          simp only at hi
          by_cases hc : la + 1 ≥ tokens.length
          · rw [if_pos hc] at hi
            cases hi
          · rw [if_neg hc] at hi
            injection hi with hi
            omega
        · rw [hpos]
          by_cases hc : la + 1 ≥ tokens.length
          · have h1 : pos tokens (advanceLookahead tokens st) = tokens.length := by
              simp [pos, advanceLookahead, hla, hc]
            omega
          · have h1 : pos tokens (advanceLookahead tokens st) = la + 1 := by
              simp [pos, advanceLookahead, hla, hc]
            omega
      · exact absurd (okInj h).1 (by simp)

theorem matcherSucc_zero (g : Grammar) (tokens : List Token) :
    MatcherSucc g tokens 0 := by
  refine ⟨?_, ?_, ?_, ?_, ?_⟩
  · intro e st st' _ h; rw [matchElement_zero] at h; cases h
  · intro save es st st' _ h; rw [matchElements_zero] at h; cases h
  · intro p st st' _ h; rw [matchProduction_zero] at h; cases h
  · intro ps st st' _ h; rw [matchAlternatives_zero] at h; cases h
  · intro name st st' _ h; rw [matchNonTerminal_zero] at h; cases h

theorem elemSucc_succ (g : Grammar) (tokens : List Token) (fuel : Nat)
    (ih : MatcherSucc g tokens fuel) : ElemSucc g tokens (fuel + 1) := by
  intro e st st' hv h
  match e with
  | .term name =>
    rw [matchElement_term] at h
    obtain ⟨hv', hstk, hpos⟩ := matchTerminal_true tokens name st st' hv h
    refine ⟨hv', by omega, [], by simpa using hstk, ?_⟩
    show [] = [] ∧ pos tokens st' - pos tokens st = 1
    exact ⟨rfl, by omega⟩
  | .nonterm name =>
    rw [matchElement_nonterm] at h
    exact ih.2.2.2.2 name st st' hv h
  | .eps =>
    rw [matchElement_eps] at h
    obtain ⟨_, rfl⟩ := okInj h
    refine ⟨hv, Nat.le_refl _, [], by simp, ?_⟩
    show [] = [] ∧ pos tokens st - pos tokens st = 0
    exact ⟨rfl, by omega⟩
  | .act => rw [matchElement_act] at h; cases h

theorem elemsSucc_succ (g : Grammar) (tokens : List Token) (fuel : Nat)
    (ih : MatcherSucc g tokens fuel) : ElemsSucc g tokens (fuel + 1) := by
  intro save es st st' hv h
  match es with
  | [] =>
    rw [matchElements_nil] at h
    obtain ⟨_, rfl⟩ := okInj h
    refine ⟨hv, Nat.le_refl _, [], by simp, ?_⟩
    rw [Nat.sub_self]
    exact buildsChildren_nil
  | e :: es =>
    rw [matchElements_cons_eq] at h
    cases hr : matchElement g tokens fuel e st with
    | error pe => rw [hr] at h; cases h
    | ok r =>
      rw [hr] at h
      replace h : (if r.1 then matchElements g tokens fuel save es r.2
        else .ok (false, { r.2 with lookahead := save })) = .ok (true, st') := h
      by_cases hb1 : r.1
      · rw [if_pos hb1] at h
        have hr' : matchElement g tokens fuel e st = .ok (true, r.2) := by
          rw [hr]
          congr 1
          exact Prod.ext (by simpa using hb1) rfl
        obtain ⟨hv1, hle1, d1, hd1, hbuild1⟩ := ih.1 e st r.2 hv hr'
        obtain ⟨hv2, hle2, d2, hd2, hbuild2⟩ := ih.2.1 save es r.2 st' hv1 h
        refine ⟨hv2, Nat.le_trans hle1 hle2, d1 ++ d2, ?_, ?_⟩
        · rw [hd2, hd1, List.append_assoc]
        · have hk : pos tokens st' - pos tokens st =
              (pos tokens r.2 - pos tokens st) +
              (pos tokens st' - pos tokens r.2) := by omega
          rw [hk]
          match e, hbuild1 with
          | .term t, ⟨hde, hke⟩ =>
            subst hde
            rw [List.nil_append, hke]
            exact buildsChildren_cons_term t es d2 _ hbuild2
          | .eps, ⟨hde, hke⟩ =>
            subst hde
            rw [List.nil_append, hke, Nat.zero_add]
            exact buildsChildren_cons_eps es d2 _ hbuild2
          | .act, hfalse => exact absurd hfalse (by simp [ElemBuilds])
          | .nonterm nm, hb =>
            exact buildsChildren_cons_nonterm nm es d1 d2 _ _ hb hbuild2
      · rw [if_neg hb1] at h
        exact absurd (okInj h).1 (by simp)

theorem prodSucc_succ (g : Grammar) (tokens : List Token) (fuel : Nat)
    (ih : MatcherSucc g tokens fuel) : ProdSucc g tokens (fuel + 1) := by
  intro p st st' hv h
  rw [matchProduction_succ] at h
  exact ih.2.1 st.lookahead p.elements st st' hv h

theorem altsSucc_succ (g : Grammar) (tokens : List Token) (fuel : Nat)
    (ih : MatcherSucc g tokens fuel) : AltsSucc g tokens (fuel + 1) := by
  intro ps st st' hv h
  match ps with
  | [] =>
    rw [matchAlternatives_nil] at h
    exact absurd (okInj h).1 (by simp)
  | p :: ps =>
    rw [matchAlternatives_cons_eq] at h
    cases hr : matchProduction g tokens fuel p { st with stack := st.stack ++ [p] } with
    | error pe => rw [hr] at h; cases h
    | ok r =>
      rw [hr] at h
      replace h : (if r.1 then .ok (true, r.2)
        else matchAlternatives g tokens fuel st.stack.length ps
          { r.2 with stack := r.2.stack.take st.stack.length }) = .ok (true, st') := h
      by_cases hb1 : r.1
      · rw [if_pos hb1] at h
        obtain ⟨_, rfl⟩ := okInj h
        have hr' : matchProduction g tokens fuel p { st with stack := st.stack ++ [p] } =
            .ok (true, r.2) := by
          rw [hr]
          congr 1
          exact Prod.ext (by simpa using hb1) rfl
        have hv1 : ValidLa tokens { st with stack := st.stack ++ [p] } := hv
        obtain ⟨hv2, hle, d, hd, hbuild⟩ :=
          ih.2.2.1 p { st with stack := st.stack ++ [p] } r.2 hv1 hr'
        refine ⟨hv2, hle, p :: d, ?_, ?_⟩
        · rw [hd]
          show (st.stack ++ [p]) ++ d = st.stack ++ p :: d
          simp
        · exact buildsNode_intro p d _ hbuild
      · rw [if_neg hb1] at h
        rw [alts_reset g tokens fuel p st r hr (by simpa using hb1)] at h
        exact ih.2.2.2.1 ps st st' hv h

theorem ntSucc_succ (g : Grammar) (tokens : List Token) (fuel : Nat)
    (ih : MatcherSucc g tokens fuel) : NtSucc g tokens (fuel + 1) := by
  intro name st st' hv h
  cases hl : g.lookup? name with
  | none => rw [matchNonTerminal_none g tokens fuel name st hl] at h; cases h
  | some prods =>
    rw [matchNonTerminal_some g tokens fuel name st prods hl] at h
    exact ih.2.2.2.1 prods st st' hv h

theorem matcherSucc_all (g : Grammar) (tokens : List Token) (fuel : Nat) :
    MatcherSucc g tokens fuel := by
  induction fuel with
  | zero => exact matcherSucc_zero g tokens
  | succ fuel ih =>
    exact ⟨elemSucc_succ g tokens fuel ih, elemsSucc_succ g tokens fuel ih,
      prodSucc_succ g tokens fuel ih, altsSucc_succ g tokens fuel ih,
      ntSucc_succ g tokens fuel ih⟩

theorem elemSucc_all (g : Grammar) (tokens : List Token) (fuel : Nat) :
    ElemSucc g tokens fuel := (matcherSucc_all g tokens fuel).1

-- ---------------------------------------------------------------------
-- Matching with an empty token vector never moves the lookahead
-- ---------------------------------------------------------------------

def ElemKeep (g : Grammar) (fuel : Nat) : Prop :=
  ∀ e st b st', matchElement g [] fuel e st = .ok (b, st') →
    st'.lookahead = st.lookahead

def ElemsKeep (g : Grammar) (fuel : Nat) : Prop :=
  ∀ save es st b st', save = st.lookahead →
    matchElements g [] fuel save es st = .ok (b, st') →
    st'.lookahead = st.lookahead

def ProdKeep (g : Grammar) (fuel : Nat) : Prop :=
  ∀ p st b st', matchProduction g [] fuel p st = .ok (b, st') →
    st'.lookahead = st.lookahead

def AltsKeep (g : Grammar) (fuel : Nat) : Prop :=
  ∀ save ps st b st', matchAlternatives g [] fuel save ps st = .ok (b, st') →
    st'.lookahead = st.lookahead

def NtKeep (g : Grammar) (fuel : Nat) : Prop :=
  ∀ name st b st', matchNonTerminal g [] fuel name st = .ok (b, st') →
    st'.lookahead = st.lookahead

def MatcherKeep (g : Grammar) (fuel : Nat) : Prop :=
  ElemKeep g fuel ∧ ElemsKeep g fuel ∧ ProdKeep g fuel ∧
    AltsKeep g fuel ∧ NtKeep g fuel

theorem matcherKeep_zero (g : Grammar) : MatcherKeep g 0 := by
  refine ⟨?_, ?_, ?_, ?_, ?_⟩
  · intro e st b st' h; rw [matchElement_zero] at h; cases h
  · intro save es st b st' _ h; rw [matchElements_zero] at h; cases h
  · intro p st b st' h; rw [matchProduction_zero] at h; cases h
  · intro save ps st b st' h; rw [matchAlternatives_zero] at h; cases h
  · intro name st b st' h; rw [matchNonTerminal_zero] at h; cases h

theorem elemKeep_succ (g : Grammar) (fuel : Nat)
    (ih : MatcherKeep g fuel) : ElemKeep g (fuel + 1) := by
  intro e st b st' h
  match e with
  | .term name =>
    rw [matchElement_term] at h
    unfold matchTerminal at h
    split at h
    · obtain ⟨_, rfl⟩ := okInj h
      rfl
    · rename_i la hla
      have : ([] : List Token).get? la = none := rfl
      rw [this] at h
      cases h
  | .nonterm name =>
    rw [matchElement_nonterm] at h
    exact ih.2.2.2.2 name st b st' h
  | .eps =>
    rw [matchElement_eps] at h
    obtain ⟨_, rfl⟩ := okInj h
    rfl
  | .act => rw [matchElement_act] at h; cases h

theorem elemsKeep_succ (g : Grammar) (fuel : Nat)
    (ih : MatcherKeep g fuel) : ElemsKeep g (fuel + 1) := by
  intro save es st b st' hsave h
  match es with
  | [] =>
    rw [matchElements_nil] at h
    obtain ⟨_, rfl⟩ := okInj h
    rfl
  | e :: es =>
    rw [matchElements_cons_eq] at h
    cases hr : matchElement g [] fuel e st with
    | error pe => rw [hr] at h; cases h
    | ok r =>
      rw [hr] at h
      replace h : (if r.1 then matchElements g [] fuel save es r.2
        else .ok (false, { r.2 with lookahead := save })) = .ok (b, st') := h
      have hkeep : r.2.lookahead = st.lookahead :=
        ih.1 e st r.1 r.2 (by rw [hr])
      by_cases hb1 : r.1
      · rw [if_pos hb1] at h
        have := ih.2.1 save es r.2 b st' (by rw [hsave, ← hkeep]) h
        rw [this, hkeep]
      · rw [if_neg hb1] at h
        obtain ⟨_, rfl⟩ := okInj h
        show save = st.lookahead
        exact hsave

theorem prodKeep_succ (g : Grammar) (fuel : Nat)
    (ih : MatcherKeep g fuel) : ProdKeep g (fuel + 1) := by
  intro p st b st' h
  rw [matchProduction_succ] at h
  exact ih.2.1 st.lookahead p.elements st b st' rfl h

theorem altsKeep_succ (g : Grammar) (fuel : Nat)
    (ih : MatcherKeep g fuel) : AltsKeep g (fuel + 1) := by
  intro save ps st b st' h
  match ps with
  | [] =>
    rw [matchAlternatives_nil] at h
    obtain ⟨_, rfl⟩ := okInj h
    rfl
  | p :: ps =>
    rw [matchAlternatives_cons_eq] at h
    cases hr : matchProduction g [] fuel p { st with stack := st.stack ++ [p] } with
    | error pe => rw [hr] at h; cases h
    | ok r =>
      rw [hr] at h
      replace h : (if r.1 then .ok (true, r.2)
        else matchAlternatives g [] fuel save ps
          { r.2 with stack := r.2.stack.take save }) = .ok (b, st') := h
      have hkeep : r.2.lookahead = st.lookahead :=
        ih.2.2.1 p { st with stack := st.stack ++ [p] } r.1 r.2 (by rw [hr])
      by_cases hb1 : r.1
      · rw [if_pos hb1] at h
        obtain ⟨_, rfl⟩ := okInj h
        exact hkeep
      · rw [if_neg hb1] at h
        have := ih.2.2.2.1 save ps { r.2 with stack := r.2.stack.take save } b st' h
        rw [this]
        exact hkeep

theorem ntKeep_succ (g : Grammar) (fuel : Nat)
    (ih : MatcherKeep g fuel) : NtKeep g (fuel + 1) := by
  intro name st b st' h
  cases hl : g.lookup? name with
  | none => rw [matchNonTerminal_none g [] fuel name st hl] at h; cases h
  | some prods =>
    rw [matchNonTerminal_some g [] fuel name st prods hl] at h
    exact ih.2.2.2.1 st.stack.length prods st b st' h

theorem matcherKeep_all (g : Grammar) (fuel : Nat) : MatcherKeep g fuel := by
  induction fuel with
  | zero => exact matcherKeep_zero g
  | succ fuel ih =>
    exact ⟨elemKeep_succ g fuel ih, elemsKeep_succ g fuel ih,
      prodKeep_succ g fuel ih, altsKeep_succ g fuel ih, ntKeep_succ g fuel ih⟩

theorem elemKeep_all (g : Grammar) (fuel : Nat) : ElemKeep g fuel :=
  (matcherKeep_all g fuel).1

mutual

theorem leafTokens_length : ∀ t : PTree, (leafTokens t).length = leafCount t
  | .leaf nm tok => by rw [leafTokens_leaf, leafCount_leaf]; rfl
  | .actChild => by rw [leafTokens_act, leafCount_act]; rfl
  | .node p cs => by
    rw [leafTokens_node, leafCount_node]
    exact leafTokensList_length cs

theorem leafTokensList_length :
    ∀ cs : List PTree, (leafTokensList cs).length = leafCountList cs
  | [] => by
    show (leafTokensList []).length = leafCountList []
    conv_lhs => rw [show leafTokensList [] = [] from by conv_lhs => unfold leafTokensList]
    conv_rhs => unfold leafCountList
    rfl
  | c :: cs => by
    rw [leafTokensList_cons, leafCountList_cons, List.length_append,
      leafTokens_length c, leafTokensList_length cs]

end

theorem parseTokens_nil_grammar (fuel : Nat) (tokens : List Token) :
    parseTokens [] fuel tokens = .error .indexError := rfl

theorem buildNode_nil (f : Nat) : buildNode (f + 1) [] = .error .indexError := by
  conv_lhs => unfold buildNode

theorem parseTokens_cons_eq (name : String) (x : List GProd) (g' : Grammar)
    (fuel : Nat) (tokens : List Token) :
    parseTokens ((name, x) :: g') fuel tokens =
      (matchElement ((name, x) :: g') tokens fuel (.nonterm name) ⟨some 0, []⟩).bind
        (fun r => if r.1 ∧ r.2.lookahead = none then
            (parseTreeInit tokens r.2.stack).bind
              (fun t => .ok ⟨true, some t.1, t.2⟩)
          else .ok ⟨false, none, none⟩) := rfl

/-- Any successful parse yields a tree whose pre-order leaves carry
exactly the input tokens, in order. -/
theorem parse_success_leafTokens (g : Grammar) (fuel : Nat)
    (tokens : List Token) (res : ParseResult)
    (h : parseTokens g fuel tokens = .ok res) (hok : res.ok = true) :
    ∃ tree, res.parseTree = some tree ∧
      leafTokens tree = tokens.map some ∧
      leafCount tree = tokens.length := by
  match g with
  | [] => rw [parseTokens_nil_grammar] at h; cases h
  | (name, x) :: g' =>
    rw [parseTokens_cons_eq] at h
    cases hm : matchElement ((name, x) :: g') tokens fuel (.nonterm name) ⟨some 0, []⟩ with
    | error pe => rw [hm] at h; cases h
    | ok r =>
      rw [hm] at h
      replace h : (if r.1 ∧ r.2.lookahead = none then
          (parseTreeInit tokens r.2.stack).bind
            (fun t => Except.ok ⟨true, some t.1, t.2⟩)
        else Except.ok ⟨false, none, none⟩) = Except.ok res := h
      by_cases hcond : r.1 ∧ r.2.lookahead = none
      · rw [if_pos hcond] at h
        match htk : tokens, hm with
        | [], hm =>
          exfalso
          have hkeep := elemKeep_all ((name, x) :: g') fuel (.nonterm name)
            ⟨some 0, []⟩ r.1 r.2 hm
          rw [hcond.2] at hkeep
          cases hkeep
        | t0 :: ts, hm =>
          have hvalid : ValidLa (t0 :: ts) ⟨some 0, []⟩ := by
            intro i hi
            injection hi with hi
            subst hi
            simp
          have hm' : matchElement ((name, x) :: g') (t0 :: ts) fuel
              (.nonterm name) ⟨some 0, []⟩ = .ok (true, r.2) := by
            rw [hm]
            congr 1
            exact Prod.ext (by simpa using hcond.1) rfl
          obtain ⟨hv2, hle, d, hd, hbuild⟩ :=
            elemSucc_all ((name, x) :: g') (t0 :: ts) fuel (.nonterm name)
              ⟨some 0, []⟩ r.2 hvalid hm'
          have hpos0 : pos (t0 :: ts) (⟨some 0, []⟩ : PState) = 0 := rfl
          have hposr : pos (t0 :: ts) r.2 = (t0 :: ts).length := by
            unfold pos
            rw [hcond.2]
          have hbuild2 : BuildsNode d (t0 :: ts).length := by
            have : ElemBuilds (.nonterm name) d
                (pos (t0 :: ts) r.2 - pos (t0 :: ts) ⟨some 0, []⟩) := hbuild
            rw [hposr, hpos0, Nat.sub_zero] at this
            exact this
          obtain ⟨t, hbn, hlc⟩ := hbuild2 [] (buildNodeFuel d)
            (by unfold buildNodeFuel; omega)
          rw [List.append_nil] at hbn
          have hd2 : r.2.stack = d := by simpa using hd
          -- the built tree is a node
          match d, hbn with
          | [], hbn =>
            rw [show buildNodeFuel ([] : List GProd) =
              stackCost ([] : List GProd) + 1 from rfl, buildNode_nil] at hbn
            cases hbn
          | p :: d', hbn =>
            have hbn0 : buildNode (buildNodeFuel (p :: d')) (p :: d') = .ok (t, []) := hbn
            rw [show buildNodeFuel (p :: d') = stackCost (p :: d') + 1 from rfl,
              buildNode_succ_eq] at hbn
            cases hbc : buildChildren (stackCost (p :: d')) p.elements d' with
            | error pe => rw [hbc] at hbn; cases hbn
            | ok rc =>
              rw [hbc] at hbn
              replace hbn : (Except.ok ((PTree.node p rc.1 : PTree), rc.2) :
                  Except PErr (PTree × List GProd)) = .ok (t, []) := hbn
              injection hbn with hbn
              have ht : t = .node p rc.1 := (congrArg Prod.fst hbn).symm
              -- evaluate parseTreeInit
              rw [hd2] at h
              unfold parseTreeInit at h
              rw [hbn0] at h
              replace h : (let tree := (attachTokens t (t0 :: ts)).1
                match tree with
                | .node p _ =>
                  match p.ret with
                  | some _ =>
                    (returnValue tree).bind (fun v => Except.ok (tree, some v))
                  | none => (Except.ok (tree, none) : Except PErr (PTree × Option RVal))
                | _ => .error .indexError).bind
                  (fun t => (Except.ok (⟨true, some t.1, t.2⟩ : ParseResult) :
                    Except PErr ParseResult)) = Except.ok res := h
              have hattach := attach_spec t (t0 :: ts) (by rw [hlc])
              have hlt : leafTokens (attachTokens t (t0 :: ts)).1 =
                  (t0 :: ts).map some := by
                rw [hattach.1, hlc, List.take_length]
              have hlcount : leafCount (attachTokens t (t0 :: ts)).1 =
                  (t0 :: ts).length := by
                rw [← leafTokens_length, hlt, List.length_map]
              -- the attached tree is still a node
              rw [ht] at h
              rw [attachTokens_node] at h
              replace h : (match p.ret with
                | some _ =>
                  (returnValue (.node p (attachTokensList rc.1 (t0 :: ts)).1)).bind
                    (fun v => Except.ok
                      ((PTree.node p (attachTokensList rc.1 (t0 :: ts)).1 : PTree), some v))
                | none => (Except.ok
                    ((PTree.node p (attachTokensList rc.1 (t0 :: ts)).1 : PTree), none) :
                    Except PErr (PTree × Option RVal))).bind
                  (fun t => (Except.ok (⟨true, some t.1, t.2⟩ : ParseResult) :
                    Except PErr ParseResult)) = Except.ok res := h
              have htree_eq : (attachTokens t (t0 :: ts)).1 =
                  .node p (attachTokensList rc.1 (t0 :: ts)).1 := by
                rw [ht, attachTokens_node]
              cases hret : p.ret with
              | some rd =>
                rw [hret] at h
                cases hrv : returnValue (.node p (attachTokensList rc.1 (t0 :: ts)).1) with
                | error pe => rw [hrv] at h; cases h
                | ok v =>
                  rw [hrv] at h
                  replace h : (Except.ok (⟨true,
                    some (.node p (attachTokensList rc.1 (t0 :: ts)).1), some v⟩ :
                      ParseResult) : Except PErr ParseResult) = Except.ok res := h
                  injection h with h
                  refine ⟨.node p (attachTokensList rc.1 (t0 :: ts)).1, ?_, ?_, ?_⟩
                  · rw [← h]
                  · rw [← htree_eq, hlt]
                  · rw [← htree_eq, hlcount]
              | none =>
                rw [hret] at h
                replace h : (Except.ok (⟨true,
                  some (.node p (attachTokensList rc.1 (t0 :: ts)).1), none⟩ :
                    ParseResult) : Except PErr ParseResult) = Except.ok res := h
                injection h with h
                refine ⟨.node p (attachTokensList rc.1 (t0 :: ts)).1, ?_, ?_, ?_⟩
                · rw [← h]
                · rw [← htree_eq, hlt]
                · rw [← htree_eq, hlcount]
      · rw [if_neg hcond] at h
        injection h with h
        rw [← h] at hok
        cases hok

-- ---------------------------------------------------------------------
-- Concrete regex-pipeline runs
-- ---------------------------------------------------------------------

/-- The tokens of the pattern `"a"`. -/
def toksA : List Token := [⟨"char", "a"⟩]

/-- The tokens of the pattern `"a*|b"`. -/
def toksABstar : List Token :=
  [⟨"char", "a"⟩, Token.ofCategory "*", Token.ofCategory "|", ⟨"char", "b"⟩]

/-- Chain a bind through an evaluated head. -/
theorem bind_ok_eq {α β : Type} {x : Except PErr α} {a : α}
    {f : α → Except PErr β} {out : Except PErr β}
    (hx : x = .ok a) (h : f a = out) : x.bind f = out := by
  rw [hx]
  exact h

theorem bind_err_eq {α β : Type} {x : Except PErr α} {pe : PErr}
    {f : α → Except PErr β} (hx : x = .error pe) : x.bind f = .error pe := by
  rw [hx]
  rfl

/-- Evaluate `parseTokens` from an evaluated run of the matcher. -/
theorem parseTokens_eval {g : Grammar} {name : String} {x : List GProd}
    {g' : Grammar} {fuel : Nat} {tokens : List Token} {r : Bool × PState}
    {out : Except PErr ParseResult}
    (hg : g = (name, x) :: g')
    (hm : matchElement g tokens fuel (.nonterm name) ⟨some 0, []⟩ = .ok r)
    (hrest : (if r.1 ∧ r.2.lookahead = none then
        (parseTreeInit tokens r.2.stack).bind
          (fun t => .ok ⟨true, some t.1, t.2⟩)
      else .ok ⟨false, none, none⟩) = out) :
    parseTokens g fuel tokens = out := by
  subst hg
  rw [parseTokens_cons_eq, hm]
  exact hrest

theorem parseTokens_eval_err {g : Grammar} {name : String} {x : List GProd}
    {g' : Grammar} {fuel : Nat} {tokens : List Token} {pe : PErr}
    (hg : g = (name, x) :: g')
    (hm : matchElement g tokens fuel (.nonterm name) ⟨some 0, []⟩ = .error pe) :
    parseTokens g fuel tokens = .error pe := by
  subst hg
  rw [parseTokens_cons_eq, hm]
  rfl

theorem matchTrace_abstar :
    matchElement regexGrammar toksABstar 40 (.nonterm "UNION") ⟨some 0, []⟩ =
      .ok (true, ⟨none, [pUnionBar, pConcatOne, pStarStar, pItemChar, pUnionOne, pConcatOne, pStarOne, pItemChar]⟩) := by
  have h1 : matchNonTerminal regexGrammar toksABstar 24 "ITEM" ⟨some 0, [pUnionBar, pConcatTwo, pStarStar]⟩ = .ok (true, ⟨some 1, [pUnionBar, pConcatTwo, pStarStar, pItemChar]⟩) := rfl
  have h2 : matchElement regexGrammar toksABstar 25 (.nonterm "ITEM") ⟨some 0, [pUnionBar, pConcatTwo, pStarStar]⟩ = .ok (true, ⟨some 1, [pUnionBar, pConcatTwo, pStarStar, pItemChar]⟩) := elem_nt_eval 24 h1
  have h3 : matchElements regexGrammar toksABstar 25 (some 0) [(.term "*")] ⟨some 1, [pUnionBar, pConcatTwo, pStarStar, pItemChar]⟩ = .ok (true, ⟨some 2, [pUnionBar, pConcatTwo, pStarStar, pItemChar]⟩) := rfl
  have h4 : matchElements regexGrammar toksABstar 26 (some 0) [(.nonterm "ITEM"), (.term "*")] ⟨some 0, [pUnionBar, pConcatTwo, pStarStar]⟩ = .ok (true, ⟨some 2, [pUnionBar, pConcatTwo, pStarStar, pItemChar]⟩) := elems_true_step 25 h2 h3
  have h5 : matchProduction regexGrammar toksABstar 27 pStarStar ⟨some 0, [pUnionBar, pConcatTwo, pStarStar]⟩ = .ok (true, ⟨some 2, [pUnionBar, pConcatTwo, pStarStar, pItemChar]⟩) := prod_eval 26 h4
  have h6 : matchAlternatives regexGrammar toksABstar 28 2 [pStarStar, pStarOpt, pStarPlus, pStarOne] ⟨some 0, [pUnionBar, pConcatTwo]⟩ = .ok (true, ⟨some 2, [pUnionBar, pConcatTwo, pStarStar, pItemChar]⟩) := alts_succ_step 27 h5
  have h7 : matchNonTerminal regexGrammar toksABstar 29 "STAR" ⟨some 0, [pUnionBar, pConcatTwo]⟩ = .ok (true, ⟨some 2, [pUnionBar, pConcatTwo, pStarStar, pItemChar]⟩) := nt_eval 28 rfl h6
  have h8 : matchElement regexGrammar toksABstar 30 (.nonterm "STAR") ⟨some 0, [pUnionBar, pConcatTwo]⟩ = .ok (true, ⟨some 2, [pUnionBar, pConcatTwo, pStarStar, pItemChar]⟩) := elem_nt_eval 29 h7
  have h9 : matchNonTerminal regexGrammar toksABstar 18 "ITEM" ⟨some 2, [pUnionBar, pConcatTwo, pStarStar, pItemChar, pConcatTwo, pStarStar]⟩ = .ok (false, ⟨some 2, [pUnionBar, pConcatTwo, pStarStar, pItemChar, pConcatTwo, pStarStar]⟩) := rfl
  have h10 : matchElement regexGrammar toksABstar 19 (.nonterm "ITEM") ⟨some 2, [pUnionBar, pConcatTwo, pStarStar, pItemChar, pConcatTwo, pStarStar]⟩ = .ok (false, ⟨some 2, [pUnionBar, pConcatTwo, pStarStar, pItemChar, pConcatTwo, pStarStar]⟩) := elem_nt_eval 18 h9
  have h11 : matchElements regexGrammar toksABstar 20 (some 2) [(.nonterm "ITEM"), (.term "*")] ⟨some 2, [pUnionBar, pConcatTwo, pStarStar, pItemChar, pConcatTwo, pStarStar]⟩ = .ok (false, ⟨some 2, [pUnionBar, pConcatTwo, pStarStar, pItemChar, pConcatTwo, pStarStar]⟩) := elems_false_step 19 h10
  have h12 : matchProduction regexGrammar toksABstar 21 pStarStar ⟨some 2, [pUnionBar, pConcatTwo, pStarStar, pItemChar, pConcatTwo, pStarStar]⟩ = .ok (false, ⟨some 2, [pUnionBar, pConcatTwo, pStarStar, pItemChar, pConcatTwo, pStarStar]⟩) := prod_eval 20 h11
  have h13 : matchNonTerminal regexGrammar toksABstar 17 "ITEM" ⟨some 2, [pUnionBar, pConcatTwo, pStarStar, pItemChar, pConcatTwo, pStarOpt]⟩ = .ok (false, ⟨some 2, [pUnionBar, pConcatTwo, pStarStar, pItemChar, pConcatTwo, pStarOpt]⟩) := rfl
  have h14 : matchElement regexGrammar toksABstar 18 (.nonterm "ITEM") ⟨some 2, [pUnionBar, pConcatTwo, pStarStar, pItemChar, pConcatTwo, pStarOpt]⟩ = .ok (false, ⟨some 2, [pUnionBar, pConcatTwo, pStarStar, pItemChar, pConcatTwo, pStarOpt]⟩) := elem_nt_eval 17 h13
  have h15 : matchElements regexGrammar toksABstar 19 (some 2) [(.nonterm "ITEM"), (.term "?")] ⟨some 2, [pUnionBar, pConcatTwo, pStarStar, pItemChar, pConcatTwo, pStarOpt]⟩ = .ok (false, ⟨some 2, [pUnionBar, pConcatTwo, pStarStar, pItemChar, pConcatTwo, pStarOpt]⟩) := elems_false_step 18 h14
  have h16 : matchProduction regexGrammar toksABstar 20 pStarOpt ⟨some 2, [pUnionBar, pConcatTwo, pStarStar, pItemChar, pConcatTwo, pStarOpt]⟩ = .ok (false, ⟨some 2, [pUnionBar, pConcatTwo, pStarStar, pItemChar, pConcatTwo, pStarOpt]⟩) := prod_eval 19 h15
  have h17 : matchNonTerminal regexGrammar toksABstar 16 "ITEM" ⟨some 2, [pUnionBar, pConcatTwo, pStarStar, pItemChar, pConcatTwo, pStarPlus]⟩ = .ok (false, ⟨some 2, [pUnionBar, pConcatTwo, pStarStar, pItemChar, pConcatTwo, pStarPlus]⟩) := rfl
  have h18 : matchElement regexGrammar toksABstar 17 (.nonterm "ITEM") ⟨some 2, [pUnionBar, pConcatTwo, pStarStar, pItemChar, pConcatTwo, pStarPlus]⟩ = .ok (false, ⟨some 2, [pUnionBar, pConcatTwo, pStarStar, pItemChar, pConcatTwo, pStarPlus]⟩) := elem_nt_eval 16 h17
  have h19 : matchElements regexGrammar toksABstar 18 (some 2) [(.nonterm "ITEM"), (.term "+")] ⟨some 2, [pUnionBar, pConcatTwo, pStarStar, pItemChar, pConcatTwo, pStarPlus]⟩ = .ok (false, ⟨some 2, [pUnionBar, pConcatTwo, pStarStar, pItemChar, pConcatTwo, pStarPlus]⟩) := elems_false_step 17 h18
  have h20 : matchProduction regexGrammar toksABstar 19 pStarPlus ⟨some 2, [pUnionBar, pConcatTwo, pStarStar, pItemChar, pConcatTwo, pStarPlus]⟩ = .ok (false, ⟨some 2, [pUnionBar, pConcatTwo, pStarStar, pItemChar, pConcatTwo, pStarPlus]⟩) := prod_eval 18 h19
  have h21 : matchNonTerminal regexGrammar toksABstar 15 "ITEM" ⟨some 2, [pUnionBar, pConcatTwo, pStarStar, pItemChar, pConcatTwo, pStarOne]⟩ = .ok (false, ⟨some 2, [pUnionBar, pConcatTwo, pStarStar, pItemChar, pConcatTwo, pStarOne]⟩) := rfl
  have h22 : matchElement regexGrammar toksABstar 16 (.nonterm "ITEM") ⟨some 2, [pUnionBar, pConcatTwo, pStarStar, pItemChar, pConcatTwo, pStarOne]⟩ = .ok (false, ⟨some 2, [pUnionBar, pConcatTwo, pStarStar, pItemChar, pConcatTwo, pStarOne]⟩) := elem_nt_eval 15 h21
  have h23 : matchElements regexGrammar toksABstar 17 (some 2) [(.nonterm "ITEM")] ⟨some 2, [pUnionBar, pConcatTwo, pStarStar, pItemChar, pConcatTwo, pStarOne]⟩ = .ok (false, ⟨some 2, [pUnionBar, pConcatTwo, pStarStar, pItemChar, pConcatTwo, pStarOne]⟩) := elems_false_step 16 h22
  have h24 : matchProduction regexGrammar toksABstar 18 pStarOne ⟨some 2, [pUnionBar, pConcatTwo, pStarStar, pItemChar, pConcatTwo, pStarOne]⟩ = .ok (false, ⟨some 2, [pUnionBar, pConcatTwo, pStarStar, pItemChar, pConcatTwo, pStarOne]⟩) := prod_eval 17 h23
  have h25 : matchAlternatives regexGrammar toksABstar 18 5 [] ⟨some 2, [pUnionBar, pConcatTwo, pStarStar, pItemChar, pConcatTwo]⟩ = .ok (false, ⟨some 2, [pUnionBar, pConcatTwo, pStarStar, pItemChar, pConcatTwo]⟩) := rfl
  have h26 : matchAlternatives regexGrammar toksABstar 19 5 [pStarOne] ⟨some 2, [pUnionBar, pConcatTwo, pStarStar, pItemChar, pConcatTwo]⟩ = .ok (false, ⟨some 2, [pUnionBar, pConcatTwo, pStarStar, pItemChar, pConcatTwo]⟩) := alts_fail_step 18 h24 h25
  have h27 : matchAlternatives regexGrammar toksABstar 20 5 [pStarPlus, pStarOne] ⟨some 2, [pUnionBar, pConcatTwo, pStarStar, pItemChar, pConcatTwo]⟩ = .ok (false, ⟨some 2, [pUnionBar, pConcatTwo, pStarStar, pItemChar, pConcatTwo]⟩) := alts_fail_step 19 h20 h26
  have h28 : matchAlternatives regexGrammar toksABstar 21 5 [pStarOpt, pStarPlus, pStarOne] ⟨some 2, [pUnionBar, pConcatTwo, pStarStar, pItemChar, pConcatTwo]⟩ = .ok (false, ⟨some 2, [pUnionBar, pConcatTwo, pStarStar, pItemChar, pConcatTwo]⟩) := alts_fail_step 20 h16 h27
  have h29 : matchAlternatives regexGrammar toksABstar 22 5 [pStarStar, pStarOpt, pStarPlus, pStarOne] ⟨some 2, [pUnionBar, pConcatTwo, pStarStar, pItemChar, pConcatTwo]⟩ = .ok (false, ⟨some 2, [pUnionBar, pConcatTwo, pStarStar, pItemChar, pConcatTwo]⟩) := alts_fail_step 21 h12 h28
  have h30 : matchNonTerminal regexGrammar toksABstar 23 "STAR" ⟨some 2, [pUnionBar, pConcatTwo, pStarStar, pItemChar, pConcatTwo]⟩ = .ok (false, ⟨some 2, [pUnionBar, pConcatTwo, pStarStar, pItemChar, pConcatTwo]⟩) := nt_eval 22 rfl h29
  have h31 : matchElement regexGrammar toksABstar 24 (.nonterm "STAR") ⟨some 2, [pUnionBar, pConcatTwo, pStarStar, pItemChar, pConcatTwo]⟩ = .ok (false, ⟨some 2, [pUnionBar, pConcatTwo, pStarStar, pItemChar, pConcatTwo]⟩) := elem_nt_eval 23 h30
  have h32 : matchElements regexGrammar toksABstar 25 (some 2) [(.nonterm "STAR"), (.nonterm "CONCAT")] ⟨some 2, [pUnionBar, pConcatTwo, pStarStar, pItemChar, pConcatTwo]⟩ = .ok (false, ⟨some 2, [pUnionBar, pConcatTwo, pStarStar, pItemChar, pConcatTwo]⟩) := elems_false_step 24 h31
  have h33 : matchProduction regexGrammar toksABstar 26 pConcatTwo ⟨some 2, [pUnionBar, pConcatTwo, pStarStar, pItemChar, pConcatTwo]⟩ = .ok (false, ⟨some 2, [pUnionBar, pConcatTwo, pStarStar, pItemChar, pConcatTwo]⟩) := prod_eval 25 h32
  have h34 : matchNonTerminal regexGrammar toksABstar 17 "ITEM" ⟨some 2, [pUnionBar, pConcatTwo, pStarStar, pItemChar, pConcatOne, pStarStar]⟩ = .ok (false, ⟨some 2, [pUnionBar, pConcatTwo, pStarStar, pItemChar, pConcatOne, pStarStar]⟩) := rfl
  have h35 : matchElement regexGrammar toksABstar 18 (.nonterm "ITEM") ⟨some 2, [pUnionBar, pConcatTwo, pStarStar, pItemChar, pConcatOne, pStarStar]⟩ = .ok (false, ⟨some 2, [pUnionBar, pConcatTwo, pStarStar, pItemChar, pConcatOne, pStarStar]⟩) := elem_nt_eval 17 h34
  have h36 : matchElements regexGrammar toksABstar 19 (some 2) [(.nonterm "ITEM"), (.term "*")] ⟨some 2, [pUnionBar, pConcatTwo, pStarStar, pItemChar, pConcatOne, pStarStar]⟩ = .ok (false, ⟨some 2, [pUnionBar, pConcatTwo, pStarStar, pItemChar, pConcatOne, pStarStar]⟩) := elems_false_step 18 h35
  have h37 : matchProduction regexGrammar toksABstar 20 pStarStar ⟨some 2, [pUnionBar, pConcatTwo, pStarStar, pItemChar, pConcatOne, pStarStar]⟩ = .ok (false, ⟨some 2, [pUnionBar, pConcatTwo, pStarStar, pItemChar, pConcatOne, pStarStar]⟩) := prod_eval 19 h36
  have h38 : matchNonTerminal regexGrammar toksABstar 16 "ITEM" ⟨some 2, [pUnionBar, pConcatTwo, pStarStar, pItemChar, pConcatOne, pStarOpt]⟩ = .ok (false, ⟨some 2, [pUnionBar, pConcatTwo, pStarStar, pItemChar, pConcatOne, pStarOpt]⟩) := rfl
  have h39 : matchElement regexGrammar toksABstar 17 (.nonterm "ITEM") ⟨some 2, [pUnionBar, pConcatTwo, pStarStar, pItemChar, pConcatOne, pStarOpt]⟩ = .ok (false, ⟨some 2, [pUnionBar, pConcatTwo, pStarStar, pItemChar, pConcatOne, pStarOpt]⟩) := elem_nt_eval 16 h38
  have h40 : matchElements regexGrammar toksABstar 18 (some 2) [(.nonterm "ITEM"), (.term "?")] ⟨some 2, [pUnionBar, pConcatTwo, pStarStar, pItemChar, pConcatOne, pStarOpt]⟩ = .ok (false, ⟨some 2, [pUnionBar, pConcatTwo, pStarStar, pItemChar, pConcatOne, pStarOpt]⟩) := elems_false_step 17 h39
  have h41 : matchProduction regexGrammar toksABstar 19 pStarOpt ⟨some 2, [pUnionBar, pConcatTwo, pStarStar, pItemChar, pConcatOne, pStarOpt]⟩ = .ok (false, ⟨some 2, [pUnionBar, pConcatTwo, pStarStar, pItemChar, pConcatOne, pStarOpt]⟩) := prod_eval 18 h40
  have h42 : matchNonTerminal regexGrammar toksABstar 15 "ITEM" ⟨some 2, [pUnionBar, pConcatTwo, pStarStar, pItemChar, pConcatOne, pStarPlus]⟩ = .ok (false, ⟨some 2, [pUnionBar, pConcatTwo, pStarStar, pItemChar, pConcatOne, pStarPlus]⟩) := rfl
  have h43 : matchElement regexGrammar toksABstar 16 (.nonterm "ITEM") ⟨some 2, [pUnionBar, pConcatTwo, pStarStar, pItemChar, pConcatOne, pStarPlus]⟩ = .ok (false, ⟨some 2, [pUnionBar, pConcatTwo, pStarStar, pItemChar, pConcatOne, pStarPlus]⟩) := elem_nt_eval 15 h42
  have h44 : matchElements regexGrammar toksABstar 17 (some 2) [(.nonterm "ITEM"), (.term "+")] ⟨some 2, [pUnionBar, pConcatTwo, pStarStar, pItemChar, pConcatOne, pStarPlus]⟩ = .ok (false, ⟨some 2, [pUnionBar, pConcatTwo, pStarStar, pItemChar, pConcatOne, pStarPlus]⟩) := elems_false_step 16 h43
  have h45 : matchProduction regexGrammar toksABstar 18 pStarPlus ⟨some 2, [pUnionBar, pConcatTwo, pStarStar, pItemChar, pConcatOne, pStarPlus]⟩ = .ok (false, ⟨some 2, [pUnionBar, pConcatTwo, pStarStar, pItemChar, pConcatOne, pStarPlus]⟩) := prod_eval 17 h44
  have h46 : matchNonTerminal regexGrammar toksABstar 14 "ITEM" ⟨some 2, [pUnionBar, pConcatTwo, pStarStar, pItemChar, pConcatOne, pStarOne]⟩ = .ok (false, ⟨some 2, [pUnionBar, pConcatTwo, pStarStar, pItemChar, pConcatOne, pStarOne]⟩) := rfl
  have h47 : matchElement regexGrammar toksABstar 15 (.nonterm "ITEM") ⟨some 2, [pUnionBar, pConcatTwo, pStarStar, pItemChar, pConcatOne, pStarOne]⟩ = .ok (false, ⟨some 2, [pUnionBar, pConcatTwo, pStarStar, pItemChar, pConcatOne, pStarOne]⟩) := elem_nt_eval 14 h46
  have h48 : matchElements regexGrammar toksABstar 16 (some 2) [(.nonterm "ITEM")] ⟨some 2, [pUnionBar, pConcatTwo, pStarStar, pItemChar, pConcatOne, pStarOne]⟩ = .ok (false, ⟨some 2, [pUnionBar, pConcatTwo, pStarStar, pItemChar, pConcatOne, pStarOne]⟩) := elems_false_step 15 h47
  have h49 : matchProduction regexGrammar toksABstar 17 pStarOne ⟨some 2, [pUnionBar, pConcatTwo, pStarStar, pItemChar, pConcatOne, pStarOne]⟩ = .ok (false, ⟨some 2, [pUnionBar, pConcatTwo, pStarStar, pItemChar, pConcatOne, pStarOne]⟩) := prod_eval 16 h48
  have h50 : matchAlternatives regexGrammar toksABstar 17 5 [] ⟨some 2, [pUnionBar, pConcatTwo, pStarStar, pItemChar, pConcatOne]⟩ = .ok (false, ⟨some 2, [pUnionBar, pConcatTwo, pStarStar, pItemChar, pConcatOne]⟩) := rfl
  have h51 : matchAlternatives regexGrammar toksABstar 18 5 [pStarOne] ⟨some 2, [pUnionBar, pConcatTwo, pStarStar, pItemChar, pConcatOne]⟩ = .ok (false, ⟨some 2, [pUnionBar, pConcatTwo, pStarStar, pItemChar, pConcatOne]⟩) := alts_fail_step 17 h49 h50
  have h52 : matchAlternatives regexGrammar toksABstar 19 5 [pStarPlus, pStarOne] ⟨some 2, [pUnionBar, pConcatTwo, pStarStar, pItemChar, pConcatOne]⟩ = .ok (false, ⟨some 2, [pUnionBar, pConcatTwo, pStarStar, pItemChar, pConcatOne]⟩) := alts_fail_step 18 h45 h51
  have h53 : matchAlternatives regexGrammar toksABstar 20 5 [pStarOpt, pStarPlus, pStarOne] ⟨some 2, [pUnionBar, pConcatTwo, pStarStar, pItemChar, pConcatOne]⟩ = .ok (false, ⟨some 2, [pUnionBar, pConcatTwo, pStarStar, pItemChar, pConcatOne]⟩) := alts_fail_step 19 h41 h52
  have h54 : matchAlternatives regexGrammar toksABstar 21 5 [pStarStar, pStarOpt, pStarPlus, pStarOne] ⟨some 2, [pUnionBar, pConcatTwo, pStarStar, pItemChar, pConcatOne]⟩ = .ok (false, ⟨some 2, [pUnionBar, pConcatTwo, pStarStar, pItemChar, pConcatOne]⟩) := alts_fail_step 20 h37 h53
  have h55 : matchNonTerminal regexGrammar toksABstar 22 "STAR" ⟨some 2, [pUnionBar, pConcatTwo, pStarStar, pItemChar, pConcatOne]⟩ = .ok (false, ⟨some 2, [pUnionBar, pConcatTwo, pStarStar, pItemChar, pConcatOne]⟩) := nt_eval 21 rfl h54
  have h56 : matchElement regexGrammar toksABstar 23 (.nonterm "STAR") ⟨some 2, [pUnionBar, pConcatTwo, pStarStar, pItemChar, pConcatOne]⟩ = .ok (false, ⟨some 2, [pUnionBar, pConcatTwo, pStarStar, pItemChar, pConcatOne]⟩) := elem_nt_eval 22 h55
  have h57 : matchElements regexGrammar toksABstar 24 (some 2) [(.nonterm "STAR")] ⟨some 2, [pUnionBar, pConcatTwo, pStarStar, pItemChar, pConcatOne]⟩ = .ok (false, ⟨some 2, [pUnionBar, pConcatTwo, pStarStar, pItemChar, pConcatOne]⟩) := elems_false_step 23 h56
  have h58 : matchProduction regexGrammar toksABstar 25 pConcatOne ⟨some 2, [pUnionBar, pConcatTwo, pStarStar, pItemChar, pConcatOne]⟩ = .ok (false, ⟨some 2, [pUnionBar, pConcatTwo, pStarStar, pItemChar, pConcatOne]⟩) := prod_eval 24 h57
  have h59 : matchAlternatives regexGrammar toksABstar 25 4 [] ⟨some 2, [pUnionBar, pConcatTwo, pStarStar, pItemChar]⟩ = .ok (false, ⟨some 2, [pUnionBar, pConcatTwo, pStarStar, pItemChar]⟩) := rfl
  have h60 : matchAlternatives regexGrammar toksABstar 26 4 [pConcatOne] ⟨some 2, [pUnionBar, pConcatTwo, pStarStar, pItemChar]⟩ = .ok (false, ⟨some 2, [pUnionBar, pConcatTwo, pStarStar, pItemChar]⟩) := alts_fail_step 25 h58 h59
  have h61 : matchAlternatives regexGrammar toksABstar 27 4 [pConcatTwo, pConcatOne] ⟨some 2, [pUnionBar, pConcatTwo, pStarStar, pItemChar]⟩ = .ok (false, ⟨some 2, [pUnionBar, pConcatTwo, pStarStar, pItemChar]⟩) := alts_fail_step 26 h33 h60
  have h62 : matchNonTerminal regexGrammar toksABstar 28 "CONCAT" ⟨some 2, [pUnionBar, pConcatTwo, pStarStar, pItemChar]⟩ = .ok (false, ⟨some 2, [pUnionBar, pConcatTwo, pStarStar, pItemChar]⟩) := nt_eval 27 rfl h61
  have h63 : matchElement regexGrammar toksABstar 29 (.nonterm "CONCAT") ⟨some 2, [pUnionBar, pConcatTwo, pStarStar, pItemChar]⟩ = .ok (false, ⟨some 2, [pUnionBar, pConcatTwo, pStarStar, pItemChar]⟩) := elem_nt_eval 28 h62
  have h64 : matchElements regexGrammar toksABstar 30 (some 0) [(.nonterm "CONCAT")] ⟨some 2, [pUnionBar, pConcatTwo, pStarStar, pItemChar]⟩ = .ok (false, ⟨some 0, [pUnionBar, pConcatTwo, pStarStar, pItemChar]⟩) := elems_false_step 29 h63
  have h65 : matchElements regexGrammar toksABstar 31 (some 0) [(.nonterm "STAR"), (.nonterm "CONCAT")] ⟨some 0, [pUnionBar, pConcatTwo]⟩ = .ok (false, ⟨some 0, [pUnionBar, pConcatTwo, pStarStar, pItemChar]⟩) := elems_true_step 30 h8 h64
  have h66 : matchProduction regexGrammar toksABstar 32 pConcatTwo ⟨some 0, [pUnionBar, pConcatTwo]⟩ = .ok (false, ⟨some 0, [pUnionBar, pConcatTwo, pStarStar, pItemChar]⟩) := prod_eval 31 h65
  have h67 : matchNonTerminal regexGrammar toksABstar 23 "ITEM" ⟨some 0, [pUnionBar, pConcatOne, pStarStar]⟩ = .ok (true, ⟨some 1, [pUnionBar, pConcatOne, pStarStar, pItemChar]⟩) := rfl
  have h68 : matchElement regexGrammar toksABstar 24 (.nonterm "ITEM") ⟨some 0, [pUnionBar, pConcatOne, pStarStar]⟩ = .ok (true, ⟨some 1, [pUnionBar, pConcatOne, pStarStar, pItemChar]⟩) := elem_nt_eval 23 h67
  have h69 : matchElements regexGrammar toksABstar 24 (some 0) [(.term "*")] ⟨some 1, [pUnionBar, pConcatOne, pStarStar, pItemChar]⟩ = .ok (true, ⟨some 2, [pUnionBar, pConcatOne, pStarStar, pItemChar]⟩) := rfl
  have h70 : matchElements regexGrammar toksABstar 25 (some 0) [(.nonterm "ITEM"), (.term "*")] ⟨some 0, [pUnionBar, pConcatOne, pStarStar]⟩ = .ok (true, ⟨some 2, [pUnionBar, pConcatOne, pStarStar, pItemChar]⟩) := elems_true_step 24 h68 h69
  have h71 : matchProduction regexGrammar toksABstar 26 pStarStar ⟨some 0, [pUnionBar, pConcatOne, pStarStar]⟩ = .ok (true, ⟨some 2, [pUnionBar, pConcatOne, pStarStar, pItemChar]⟩) := prod_eval 25 h70
  have h72 : matchAlternatives regexGrammar toksABstar 27 2 [pStarStar, pStarOpt, pStarPlus, pStarOne] ⟨some 0, [pUnionBar, pConcatOne]⟩ = .ok (true, ⟨some 2, [pUnionBar, pConcatOne, pStarStar, pItemChar]⟩) := alts_succ_step 26 h71
  have h73 : matchNonTerminal regexGrammar toksABstar 28 "STAR" ⟨some 0, [pUnionBar, pConcatOne]⟩ = .ok (true, ⟨some 2, [pUnionBar, pConcatOne, pStarStar, pItemChar]⟩) := nt_eval 27 rfl h72
  have h74 : matchElement regexGrammar toksABstar 29 (.nonterm "STAR") ⟨some 0, [pUnionBar, pConcatOne]⟩ = .ok (true, ⟨some 2, [pUnionBar, pConcatOne, pStarStar, pItemChar]⟩) := elem_nt_eval 28 h73
  have h75 : matchElements regexGrammar toksABstar 29 (some 0) [] ⟨some 2, [pUnionBar, pConcatOne, pStarStar, pItemChar]⟩ = .ok (true, ⟨some 2, [pUnionBar, pConcatOne, pStarStar, pItemChar]⟩) := rfl
  have h76 : matchElements regexGrammar toksABstar 30 (some 0) [(.nonterm "STAR")] ⟨some 0, [pUnionBar, pConcatOne]⟩ = .ok (true, ⟨some 2, [pUnionBar, pConcatOne, pStarStar, pItemChar]⟩) := elems_true_step 29 h74 h75
  have h77 : matchProduction regexGrammar toksABstar 31 pConcatOne ⟨some 0, [pUnionBar, pConcatOne]⟩ = .ok (true, ⟨some 2, [pUnionBar, pConcatOne, pStarStar, pItemChar]⟩) := prod_eval 30 h76
  have h78 : matchAlternatives regexGrammar toksABstar 32 1 [pConcatOne] ⟨some 0, [pUnionBar]⟩ = .ok (true, ⟨some 2, [pUnionBar, pConcatOne, pStarStar, pItemChar]⟩) := alts_succ_step 31 h77
  have h79 : matchAlternatives regexGrammar toksABstar 33 1 [pConcatTwo, pConcatOne] ⟨some 0, [pUnionBar]⟩ = .ok (true, ⟨some 2, [pUnionBar, pConcatOne, pStarStar, pItemChar]⟩) := alts_fail_step 32 h66 h78
  have h80 : matchNonTerminal regexGrammar toksABstar 34 "CONCAT" ⟨some 0, [pUnionBar]⟩ = .ok (true, ⟨some 2, [pUnionBar, pConcatOne, pStarStar, pItemChar]⟩) := nt_eval 33 rfl h79
  have h81 : matchElement regexGrammar toksABstar 35 (.nonterm "CONCAT") ⟨some 0, [pUnionBar]⟩ = .ok (true, ⟨some 2, [pUnionBar, pConcatOne, pStarStar, pItemChar]⟩) := elem_nt_eval 34 h80
  have h82 : matchElement regexGrammar toksABstar 34 (.term "|") ⟨some 2, [pUnionBar, pConcatOne, pStarStar, pItemChar]⟩ = .ok (true, ⟨some 3, [pUnionBar, pConcatOne, pStarStar, pItemChar]⟩) := rfl
  have h83 : matchNonTerminal regexGrammar toksABstar 17 "ITEM" ⟨some 3, [pUnionBar, pConcatOne, pStarStar, pItemChar, pUnionBar, pConcatTwo, pStarStar]⟩ = .ok (true, ⟨none, [pUnionBar, pConcatOne, pStarStar, pItemChar, pUnionBar, pConcatTwo, pStarStar, pItemChar]⟩) := rfl
  have h84 : matchElement regexGrammar toksABstar 18 (.nonterm "ITEM") ⟨some 3, [pUnionBar, pConcatOne, pStarStar, pItemChar, pUnionBar, pConcatTwo, pStarStar]⟩ = .ok (true, ⟨none, [pUnionBar, pConcatOne, pStarStar, pItemChar, pUnionBar, pConcatTwo, pStarStar, pItemChar]⟩) := elem_nt_eval 17 h83
  have h85 : matchElements regexGrammar toksABstar 18 (some 3) [(.term "*")] ⟨none, [pUnionBar, pConcatOne, pStarStar, pItemChar, pUnionBar, pConcatTwo, pStarStar, pItemChar]⟩ = .ok (false, ⟨some 3, [pUnionBar, pConcatOne, pStarStar, pItemChar, pUnionBar, pConcatTwo, pStarStar, pItemChar]⟩) := rfl
  have h86 : matchElements regexGrammar toksABstar 19 (some 3) [(.nonterm "ITEM"), (.term "*")] ⟨some 3, [pUnionBar, pConcatOne, pStarStar, pItemChar, pUnionBar, pConcatTwo, pStarStar]⟩ = .ok (false, ⟨some 3, [pUnionBar, pConcatOne, pStarStar, pItemChar, pUnionBar, pConcatTwo, pStarStar, pItemChar]⟩) := elems_true_step 18 h84 h85
  have h87 : matchProduction regexGrammar toksABstar 20 pStarStar ⟨some 3, [pUnionBar, pConcatOne, pStarStar, pItemChar, pUnionBar, pConcatTwo, pStarStar]⟩ = .ok (false, ⟨some 3, [pUnionBar, pConcatOne, pStarStar, pItemChar, pUnionBar, pConcatTwo, pStarStar, pItemChar]⟩) := prod_eval 19 h86
  have h88 : matchNonTerminal regexGrammar toksABstar 16 "ITEM" ⟨some 3, [pUnionBar, pConcatOne, pStarStar, pItemChar, pUnionBar, pConcatTwo, pStarOpt]⟩ = .ok (true, ⟨none, [pUnionBar, pConcatOne, pStarStar, pItemChar, pUnionBar, pConcatTwo, pStarOpt, pItemChar]⟩) := rfl
  have h89 : matchElement regexGrammar toksABstar 17 (.nonterm "ITEM") ⟨some 3, [pUnionBar, pConcatOne, pStarStar, pItemChar, pUnionBar, pConcatTwo, pStarOpt]⟩ = .ok (true, ⟨none, [pUnionBar, pConcatOne, pStarStar, pItemChar, pUnionBar, pConcatTwo, pStarOpt, pItemChar]⟩) := elem_nt_eval 16 h88
  have h90 : matchElements regexGrammar toksABstar 17 (some 3) [(.term "?")] ⟨none, [pUnionBar, pConcatOne, pStarStar, pItemChar, pUnionBar, pConcatTwo, pStarOpt, pItemChar]⟩ = .ok (false, ⟨some 3, [pUnionBar, pConcatOne, pStarStar, pItemChar, pUnionBar, pConcatTwo, pStarOpt, pItemChar]⟩) := rfl
  have h91 : matchElements regexGrammar toksABstar 18 (some 3) [(.nonterm "ITEM"), (.term "?")] ⟨some 3, [pUnionBar, pConcatOne, pStarStar, pItemChar, pUnionBar, pConcatTwo, pStarOpt]⟩ = .ok (false, ⟨some 3, [pUnionBar, pConcatOne, pStarStar, pItemChar, pUnionBar, pConcatTwo, pStarOpt, pItemChar]⟩) := elems_true_step 17 h89 h90
  have h92 : matchProduction regexGrammar toksABstar 19 pStarOpt ⟨some 3, [pUnionBar, pConcatOne, pStarStar, pItemChar, pUnionBar, pConcatTwo, pStarOpt]⟩ = .ok (false, ⟨some 3, [pUnionBar, pConcatOne, pStarStar, pItemChar, pUnionBar, pConcatTwo, pStarOpt, pItemChar]⟩) := prod_eval 18 h91
  have h93 : matchNonTerminal regexGrammar toksABstar 15 "ITEM" ⟨some 3, [pUnionBar, pConcatOne, pStarStar, pItemChar, pUnionBar, pConcatTwo, pStarPlus]⟩ = .ok (true, ⟨none, [pUnionBar, pConcatOne, pStarStar, pItemChar, pUnionBar, pConcatTwo, pStarPlus, pItemChar]⟩) := rfl
  have h94 : matchElement regexGrammar toksABstar 16 (.nonterm "ITEM") ⟨some 3, [pUnionBar, pConcatOne, pStarStar, pItemChar, pUnionBar, pConcatTwo, pStarPlus]⟩ = .ok (true, ⟨none, [pUnionBar, pConcatOne, pStarStar, pItemChar, pUnionBar, pConcatTwo, pStarPlus, pItemChar]⟩) := elem_nt_eval 15 h93
  have h95 : matchElements regexGrammar toksABstar 16 (some 3) [(.term "+")] ⟨none, [pUnionBar, pConcatOne, pStarStar, pItemChar, pUnionBar, pConcatTwo, pStarPlus, pItemChar]⟩ = .ok (false, ⟨some 3, [pUnionBar, pConcatOne, pStarStar, pItemChar, pUnionBar, pConcatTwo, pStarPlus, pItemChar]⟩) := rfl
  have h96 : matchElements regexGrammar toksABstar 17 (some 3) [(.nonterm "ITEM"), (.term "+")] ⟨some 3, [pUnionBar, pConcatOne, pStarStar, pItemChar, pUnionBar, pConcatTwo, pStarPlus]⟩ = .ok (false, ⟨some 3, [pUnionBar, pConcatOne, pStarStar, pItemChar, pUnionBar, pConcatTwo, pStarPlus, pItemChar]⟩) := elems_true_step 16 h94 h95
  have h97 : matchProduction regexGrammar toksABstar 18 pStarPlus ⟨some 3, [pUnionBar, pConcatOne, pStarStar, pItemChar, pUnionBar, pConcatTwo, pStarPlus]⟩ = .ok (false, ⟨some 3, [pUnionBar, pConcatOne, pStarStar, pItemChar, pUnionBar, pConcatTwo, pStarPlus, pItemChar]⟩) := prod_eval 17 h96
  have h98 : matchNonTerminal regexGrammar toksABstar 14 "ITEM" ⟨some 3, [pUnionBar, pConcatOne, pStarStar, pItemChar, pUnionBar, pConcatTwo, pStarOne]⟩ = .ok (true, ⟨none, [pUnionBar, pConcatOne, pStarStar, pItemChar, pUnionBar, pConcatTwo, pStarOne, pItemChar]⟩) := rfl
  have h99 : matchElement regexGrammar toksABstar 15 (.nonterm "ITEM") ⟨some 3, [pUnionBar, pConcatOne, pStarStar, pItemChar, pUnionBar, pConcatTwo, pStarOne]⟩ = .ok (true, ⟨none, [pUnionBar, pConcatOne, pStarStar, pItemChar, pUnionBar, pConcatTwo, pStarOne, pItemChar]⟩) := elem_nt_eval 14 h98
  have h100 : matchElements regexGrammar toksABstar 15 (some 3) [] ⟨none, [pUnionBar, pConcatOne, pStarStar, pItemChar, pUnionBar, pConcatTwo, pStarOne, pItemChar]⟩ = .ok (true, ⟨none, [pUnionBar, pConcatOne, pStarStar, pItemChar, pUnionBar, pConcatTwo, pStarOne, pItemChar]⟩) := rfl
  have h101 : matchElements regexGrammar toksABstar 16 (some 3) [(.nonterm "ITEM")] ⟨some 3, [pUnionBar, pConcatOne, pStarStar, pItemChar, pUnionBar, pConcatTwo, pStarOne]⟩ = .ok (true, ⟨none, [pUnionBar, pConcatOne, pStarStar, pItemChar, pUnionBar, pConcatTwo, pStarOne, pItemChar]⟩) := elems_true_step 15 h99 h100
  have h102 : matchProduction regexGrammar toksABstar 17 pStarOne ⟨some 3, [pUnionBar, pConcatOne, pStarStar, pItemChar, pUnionBar, pConcatTwo, pStarOne]⟩ = .ok (true, ⟨none, [pUnionBar, pConcatOne, pStarStar, pItemChar, pUnionBar, pConcatTwo, pStarOne, pItemChar]⟩) := prod_eval 16 h101
  have h103 : matchAlternatives regexGrammar toksABstar 18 6 [pStarOne] ⟨some 3, [pUnionBar, pConcatOne, pStarStar, pItemChar, pUnionBar, pConcatTwo]⟩ = .ok (true, ⟨none, [pUnionBar, pConcatOne, pStarStar, pItemChar, pUnionBar, pConcatTwo, pStarOne, pItemChar]⟩) := alts_succ_step 17 h102
  have h104 : matchAlternatives regexGrammar toksABstar 19 6 [pStarPlus, pStarOne] ⟨some 3, [pUnionBar, pConcatOne, pStarStar, pItemChar, pUnionBar, pConcatTwo]⟩ = .ok (true, ⟨none, [pUnionBar, pConcatOne, pStarStar, pItemChar, pUnionBar, pConcatTwo, pStarOne, pItemChar]⟩) := alts_fail_step 18 h97 h103
  have h105 : matchAlternatives regexGrammar toksABstar 20 6 [pStarOpt, pStarPlus, pStarOne] ⟨some 3, [pUnionBar, pConcatOne, pStarStar, pItemChar, pUnionBar, pConcatTwo]⟩ = .ok (true, ⟨none, [pUnionBar, pConcatOne, pStarStar, pItemChar, pUnionBar, pConcatTwo, pStarOne, pItemChar]⟩) := alts_fail_step 19 h92 h104
  have h106 : matchAlternatives regexGrammar toksABstar 21 6 [pStarStar, pStarOpt, pStarPlus, pStarOne] ⟨some 3, [pUnionBar, pConcatOne, pStarStar, pItemChar, pUnionBar, pConcatTwo]⟩ = .ok (true, ⟨none, [pUnionBar, pConcatOne, pStarStar, pItemChar, pUnionBar, pConcatTwo, pStarOne, pItemChar]⟩) := alts_fail_step 20 h87 h105
  have h107 : matchNonTerminal regexGrammar toksABstar 22 "STAR" ⟨some 3, [pUnionBar, pConcatOne, pStarStar, pItemChar, pUnionBar, pConcatTwo]⟩ = .ok (true, ⟨none, [pUnionBar, pConcatOne, pStarStar, pItemChar, pUnionBar, pConcatTwo, pStarOne, pItemChar]⟩) := nt_eval 21 rfl h106
  have h108 : matchElement regexGrammar toksABstar 23 (.nonterm "STAR") ⟨some 3, [pUnionBar, pConcatOne, pStarStar, pItemChar, pUnionBar, pConcatTwo]⟩ = .ok (true, ⟨none, [pUnionBar, pConcatOne, pStarStar, pItemChar, pUnionBar, pConcatTwo, pStarOne, pItemChar]⟩) := elem_nt_eval 22 h107
  have h109 : matchNonTerminal regexGrammar toksABstar 11 "ITEM" ⟨none, [pUnionBar, pConcatOne, pStarStar, pItemChar, pUnionBar, pConcatTwo, pStarOne, pItemChar, pConcatTwo, pStarStar]⟩ = .ok (false, ⟨none, [pUnionBar, pConcatOne, pStarStar, pItemChar, pUnionBar, pConcatTwo, pStarOne, pItemChar, pConcatTwo, pStarStar]⟩) := rfl
  have h110 : matchElement regexGrammar toksABstar 12 (.nonterm "ITEM") ⟨none, [pUnionBar, pConcatOne, pStarStar, pItemChar, pUnionBar, pConcatTwo, pStarOne, pItemChar, pConcatTwo, pStarStar]⟩ = .ok (false, ⟨none, [pUnionBar, pConcatOne, pStarStar, pItemChar, pUnionBar, pConcatTwo, pStarOne, pItemChar, pConcatTwo, pStarStar]⟩) := elem_nt_eval 11 h109
  have h111 : matchElements regexGrammar toksABstar 13 none [(.nonterm "ITEM"), (.term "*")] ⟨none, [pUnionBar, pConcatOne, pStarStar, pItemChar, pUnionBar, pConcatTwo, pStarOne, pItemChar, pConcatTwo, pStarStar]⟩ = .ok (false, ⟨none, [pUnionBar, pConcatOne, pStarStar, pItemChar, pUnionBar, pConcatTwo, pStarOne, pItemChar, pConcatTwo, pStarStar]⟩) := elems_false_step 12 h110
  have h112 : matchProduction regexGrammar toksABstar 14 pStarStar ⟨none, [pUnionBar, pConcatOne, pStarStar, pItemChar, pUnionBar, pConcatTwo, pStarOne, pItemChar, pConcatTwo, pStarStar]⟩ = .ok (false, ⟨none, [pUnionBar, pConcatOne, pStarStar, pItemChar, pUnionBar, pConcatTwo, pStarOne, pItemChar, pConcatTwo, pStarStar]⟩) := prod_eval 13 h111
  have h113 : matchNonTerminal regexGrammar toksABstar 10 "ITEM" ⟨none, [pUnionBar, pConcatOne, pStarStar, pItemChar, pUnionBar, pConcatTwo, pStarOne, pItemChar, pConcatTwo, pStarOpt]⟩ = .ok (false, ⟨none, [pUnionBar, pConcatOne, pStarStar, pItemChar, pUnionBar, pConcatTwo, pStarOne, pItemChar, pConcatTwo, pStarOpt]⟩) := rfl
  have h114 : matchElement regexGrammar toksABstar 11 (.nonterm "ITEM") ⟨none, [pUnionBar, pConcatOne, pStarStar, pItemChar, pUnionBar, pConcatTwo, pStarOne, pItemChar, pConcatTwo, pStarOpt]⟩ = .ok (false, ⟨none, [pUnionBar, pConcatOne, pStarStar, pItemChar, pUnionBar, pConcatTwo, pStarOne, pItemChar, pConcatTwo, pStarOpt]⟩) := elem_nt_eval 10 h113
  have h115 : matchElements regexGrammar toksABstar 12 none [(.nonterm "ITEM"), (.term "?")] ⟨none, [pUnionBar, pConcatOne, pStarStar, pItemChar, pUnionBar, pConcatTwo, pStarOne, pItemChar, pConcatTwo, pStarOpt]⟩ = .ok (false, ⟨none, [pUnionBar, pConcatOne, pStarStar, pItemChar, pUnionBar, pConcatTwo, pStarOne, pItemChar, pConcatTwo, pStarOpt]⟩) := elems_false_step 11 h114
  have h116 : matchProduction regexGrammar toksABstar 13 pStarOpt ⟨none, [pUnionBar, pConcatOne, pStarStar, pItemChar, pUnionBar, pConcatTwo, pStarOne, pItemChar, pConcatTwo, pStarOpt]⟩ = .ok (false, ⟨none, [pUnionBar, pConcatOne, pStarStar, pItemChar, pUnionBar, pConcatTwo, pStarOne, pItemChar, pConcatTwo, pStarOpt]⟩) := prod_eval 12 h115
  have h117 : matchNonTerminal regexGrammar toksABstar 9 "ITEM" ⟨none, [pUnionBar, pConcatOne, pStarStar, pItemChar, pUnionBar, pConcatTwo, pStarOne, pItemChar, pConcatTwo, pStarPlus]⟩ = .ok (false, ⟨none, [pUnionBar, pConcatOne, pStarStar, pItemChar, pUnionBar, pConcatTwo, pStarOne, pItemChar, pConcatTwo, pStarPlus]⟩) := rfl
  have h118 : matchElement regexGrammar toksABstar 10 (.nonterm "ITEM") ⟨none, [pUnionBar, pConcatOne, pStarStar, pItemChar, pUnionBar, pConcatTwo, pStarOne, pItemChar, pConcatTwo, pStarPlus]⟩ = .ok (false, ⟨none, [pUnionBar, pConcatOne, pStarStar, pItemChar, pUnionBar, pConcatTwo, pStarOne, pItemChar, pConcatTwo, pStarPlus]⟩) := elem_nt_eval 9 h117
  have h119 : matchElements regexGrammar toksABstar 11 none [(.nonterm "ITEM"), (.term "+")] ⟨none, [pUnionBar, pConcatOne, pStarStar, pItemChar, pUnionBar, pConcatTwo, pStarOne, pItemChar, pConcatTwo, pStarPlus]⟩ = .ok (false, ⟨none, [pUnionBar, pConcatOne, pStarStar, pItemChar, pUnionBar, pConcatTwo, pStarOne, pItemChar, pConcatTwo, pStarPlus]⟩) := elems_false_step 10 h118
  have h120 : matchProduction regexGrammar toksABstar 12 pStarPlus ⟨none, [pUnionBar, pConcatOne, pStarStar, pItemChar, pUnionBar, pConcatTwo, pStarOne, pItemChar, pConcatTwo, pStarPlus]⟩ = .ok (false, ⟨none, [pUnionBar, pConcatOne, pStarStar, pItemChar, pUnionBar, pConcatTwo, pStarOne, pItemChar, pConcatTwo, pStarPlus]⟩) := prod_eval 11 h119
  have h121 : matchNonTerminal regexGrammar toksABstar 8 "ITEM" ⟨none, [pUnionBar, pConcatOne, pStarStar, pItemChar, pUnionBar, pConcatTwo, pStarOne, pItemChar, pConcatTwo, pStarOne]⟩ = .ok (false, ⟨none, [pUnionBar, pConcatOne, pStarStar, pItemChar, pUnionBar, pConcatTwo, pStarOne, pItemChar, pConcatTwo, pStarOne]⟩) := rfl
  have h122 : matchElement regexGrammar toksABstar 9 (.nonterm "ITEM") ⟨none, [pUnionBar, pConcatOne, pStarStar, pItemChar, pUnionBar, pConcatTwo, pStarOne, pItemChar, pConcatTwo, pStarOne]⟩ = .ok (false, ⟨none, [pUnionBar, pConcatOne, pStarStar, pItemChar, pUnionBar, pConcatTwo, pStarOne, pItemChar, pConcatTwo, pStarOne]⟩) := elem_nt_eval 8 h121
  have h123 : matchElements regexGrammar toksABstar 10 none [(.nonterm "ITEM")] ⟨none, [pUnionBar, pConcatOne, pStarStar, pItemChar, pUnionBar, pConcatTwo, pStarOne, pItemChar, pConcatTwo, pStarOne]⟩ = .ok (false, ⟨none, [pUnionBar, pConcatOne, pStarStar, pItemChar, pUnionBar, pConcatTwo, pStarOne, pItemChar, pConcatTwo, pStarOne]⟩) := elems_false_step 9 h122
  have h124 : matchProduction regexGrammar toksABstar 11 pStarOne ⟨none, [pUnionBar, pConcatOne, pStarStar, pItemChar, pUnionBar, pConcatTwo, pStarOne, pItemChar, pConcatTwo, pStarOne]⟩ = .ok (false, ⟨none, [pUnionBar, pConcatOne, pStarStar, pItemChar, pUnionBar, pConcatTwo, pStarOne, pItemChar, pConcatTwo, pStarOne]⟩) := prod_eval 10 h123
  have h125 : matchAlternatives regexGrammar toksABstar 11 9 [] ⟨none, [pUnionBar, pConcatOne, pStarStar, pItemChar, pUnionBar, pConcatTwo, pStarOne, pItemChar, pConcatTwo]⟩ = .ok (false, ⟨none, [pUnionBar, pConcatOne, pStarStar, pItemChar, pUnionBar, pConcatTwo, pStarOne, pItemChar, pConcatTwo]⟩) := rfl
  have h126 : matchAlternatives regexGrammar toksABstar 12 9 [pStarOne] ⟨none, [pUnionBar, pConcatOne, pStarStar, pItemChar, pUnionBar, pConcatTwo, pStarOne, pItemChar, pConcatTwo]⟩ = .ok (false, ⟨none, [pUnionBar, pConcatOne, pStarStar, pItemChar, pUnionBar, pConcatTwo, pStarOne, pItemChar, pConcatTwo]⟩) := alts_fail_step 11 h124 h125
  have h127 : matchAlternatives regexGrammar toksABstar 13 9 [pStarPlus, pStarOne] ⟨none, [pUnionBar, pConcatOne, pStarStar, pItemChar, pUnionBar, pConcatTwo, pStarOne, pItemChar, pConcatTwo]⟩ = .ok (false, ⟨none, [pUnionBar, pConcatOne, pStarStar, pItemChar, pUnionBar, pConcatTwo, pStarOne, pItemChar, pConcatTwo]⟩) := alts_fail_step 12 h120 h126
  have h128 : matchAlternatives regexGrammar toksABstar 14 9 [pStarOpt, pStarPlus, pStarOne] ⟨none, [pUnionBar, pConcatOne, pStarStar, pItemChar, pUnionBar, pConcatTwo, pStarOne, pItemChar, pConcatTwo]⟩ = .ok (false, ⟨none, [pUnionBar, pConcatOne, pStarStar, pItemChar, pUnionBar, pConcatTwo, pStarOne, pItemChar, pConcatTwo]⟩) := alts_fail_step 13 h116 h127
  have h129 : matchAlternatives regexGrammar toksABstar 15 9 [pStarStar, pStarOpt, pStarPlus, pStarOne] ⟨none, [pUnionBar, pConcatOne, pStarStar, pItemChar, pUnionBar, pConcatTwo, pStarOne, pItemChar, pConcatTwo]⟩ = .ok (false, ⟨none, [pUnionBar, pConcatOne, pStarStar, pItemChar, pUnionBar, pConcatTwo, pStarOne, pItemChar, pConcatTwo]⟩) := alts_fail_step 14 h112 h128
  have h130 : matchNonTerminal regexGrammar toksABstar 16 "STAR" ⟨none, [pUnionBar, pConcatOne, pStarStar, pItemChar, pUnionBar, pConcatTwo, pStarOne, pItemChar, pConcatTwo]⟩ = .ok (false, ⟨none, [pUnionBar, pConcatOne, pStarStar, pItemChar, pUnionBar, pConcatTwo, pStarOne, pItemChar, pConcatTwo]⟩) := nt_eval 15 rfl h129
  have h131 : matchElement regexGrammar toksABstar 17 (.nonterm "STAR") ⟨none, [pUnionBar, pConcatOne, pStarStar, pItemChar, pUnionBar, pConcatTwo, pStarOne, pItemChar, pConcatTwo]⟩ = .ok (false, ⟨none, [pUnionBar, pConcatOne, pStarStar, pItemChar, pUnionBar, pConcatTwo, pStarOne, pItemChar, pConcatTwo]⟩) := elem_nt_eval 16 h130
  have h132 : matchElements regexGrammar toksABstar 18 none [(.nonterm "STAR"), (.nonterm "CONCAT")] ⟨none, [pUnionBar, pConcatOne, pStarStar, pItemChar, pUnionBar, pConcatTwo, pStarOne, pItemChar, pConcatTwo]⟩ = .ok (false, ⟨none, [pUnionBar, pConcatOne, pStarStar, pItemChar, pUnionBar, pConcatTwo, pStarOne, pItemChar, pConcatTwo]⟩) := elems_false_step 17 h131
  have h133 : matchProduction regexGrammar toksABstar 19 pConcatTwo ⟨none, [pUnionBar, pConcatOne, pStarStar, pItemChar, pUnionBar, pConcatTwo, pStarOne, pItemChar, pConcatTwo]⟩ = .ok (false, ⟨none, [pUnionBar, pConcatOne, pStarStar, pItemChar, pUnionBar, pConcatTwo, pStarOne, pItemChar, pConcatTwo]⟩) := prod_eval 18 h132
  have h134 : matchNonTerminal regexGrammar toksABstar 10 "ITEM" ⟨none, [pUnionBar, pConcatOne, pStarStar, pItemChar, pUnionBar, pConcatTwo, pStarOne, pItemChar, pConcatOne, pStarStar]⟩ = .ok (false, ⟨none, [pUnionBar, pConcatOne, pStarStar, pItemChar, pUnionBar, pConcatTwo, pStarOne, pItemChar, pConcatOne, pStarStar]⟩) := rfl
  have h135 : matchElement regexGrammar toksABstar 11 (.nonterm "ITEM") ⟨none, [pUnionBar, pConcatOne, pStarStar, pItemChar, pUnionBar, pConcatTwo, pStarOne, pItemChar, pConcatOne, pStarStar]⟩ = .ok (false, ⟨none, [pUnionBar, pConcatOne, pStarStar, pItemChar, pUnionBar, pConcatTwo, pStarOne, pItemChar, pConcatOne, pStarStar]⟩) := elem_nt_eval 10 h134
  have h136 : matchElements regexGrammar toksABstar 12 none [(.nonterm "ITEM"), (.term "*")] ⟨none, [pUnionBar, pConcatOne, pStarStar, pItemChar, pUnionBar, pConcatTwo, pStarOne, pItemChar, pConcatOne, pStarStar]⟩ = .ok (false, ⟨none, [pUnionBar, pConcatOne, pStarStar, pItemChar, pUnionBar, pConcatTwo, pStarOne, pItemChar, pConcatOne, pStarStar]⟩) := elems_false_step 11 h135
  have h137 : matchProduction regexGrammar toksABstar 13 pStarStar ⟨none, [pUnionBar, pConcatOne, pStarStar, pItemChar, pUnionBar, pConcatTwo, pStarOne, pItemChar, pConcatOne, pStarStar]⟩ = .ok (false, ⟨none, [pUnionBar, pConcatOne, pStarStar, pItemChar, pUnionBar, pConcatTwo, pStarOne, pItemChar, pConcatOne, pStarStar]⟩) := prod_eval 12 h136
  have h138 : matchNonTerminal regexGrammar toksABstar 9 "ITEM" ⟨none, [pUnionBar, pConcatOne, pStarStar, pItemChar, pUnionBar, pConcatTwo, pStarOne, pItemChar, pConcatOne, pStarOpt]⟩ = .ok (false, ⟨none, [pUnionBar, pConcatOne, pStarStar, pItemChar, pUnionBar, pConcatTwo, pStarOne, pItemChar, pConcatOne, pStarOpt]⟩) := rfl
  have h139 : matchElement regexGrammar toksABstar 10 (.nonterm "ITEM") ⟨none, [pUnionBar, pConcatOne, pStarStar, pItemChar, pUnionBar, pConcatTwo, pStarOne, pItemChar, pConcatOne, pStarOpt]⟩ = .ok (false, ⟨none, [pUnionBar, pConcatOne, pStarStar, pItemChar, pUnionBar, pConcatTwo, pStarOne, pItemChar, pConcatOne, pStarOpt]⟩) := elem_nt_eval 9 h138
  have h140 : matchElements regexGrammar toksABstar 11 none [(.nonterm "ITEM"), (.term "?")] ⟨none, [pUnionBar, pConcatOne, pStarStar, pItemChar, pUnionBar, pConcatTwo, pStarOne, pItemChar, pConcatOne, pStarOpt]⟩ = .ok (false, ⟨none, [pUnionBar, pConcatOne, pStarStar, pItemChar, pUnionBar, pConcatTwo, pStarOne, pItemChar, pConcatOne, pStarOpt]⟩) := elems_false_step 10 h139
  have h141 : matchProduction regexGrammar toksABstar 12 pStarOpt ⟨none, [pUnionBar, pConcatOne, pStarStar, pItemChar, pUnionBar, pConcatTwo, pStarOne, pItemChar, pConcatOne, pStarOpt]⟩ = .ok (false, ⟨none, [pUnionBar, pConcatOne, pStarStar, pItemChar, pUnionBar, pConcatTwo, pStarOne, pItemChar, pConcatOne, pStarOpt]⟩) := prod_eval 11 h140
  have h142 : matchNonTerminal regexGrammar toksABstar 8 "ITEM" ⟨none, [pUnionBar, pConcatOne, pStarStar, pItemChar, pUnionBar, pConcatTwo, pStarOne, pItemChar, pConcatOne, pStarPlus]⟩ = .ok (false, ⟨none, [pUnionBar, pConcatOne, pStarStar, pItemChar, pUnionBar, pConcatTwo, pStarOne, pItemChar, pConcatOne, pStarPlus]⟩) := rfl
  have h143 : matchElement regexGrammar toksABstar 9 (.nonterm "ITEM") ⟨none, [pUnionBar, pConcatOne, pStarStar, pItemChar, pUnionBar, pConcatTwo, pStarOne, pItemChar, pConcatOne, pStarPlus]⟩ = .ok (false, ⟨none, [pUnionBar, pConcatOne, pStarStar, pItemChar, pUnionBar, pConcatTwo, pStarOne, pItemChar, pConcatOne, pStarPlus]⟩) := elem_nt_eval 8 h142
  have h144 : matchElements regexGrammar toksABstar 10 none [(.nonterm "ITEM"), (.term "+")] ⟨none, [pUnionBar, pConcatOne, pStarStar, pItemChar, pUnionBar, pConcatTwo, pStarOne, pItemChar, pConcatOne, pStarPlus]⟩ = .ok (false, ⟨none, [pUnionBar, pConcatOne, pStarStar, pItemChar, pUnionBar, pConcatTwo, pStarOne, pItemChar, pConcatOne, pStarPlus]⟩) := elems_false_step 9 h143
  have h145 : matchProduction regexGrammar toksABstar 11 pStarPlus ⟨none, [pUnionBar, pConcatOne, pStarStar, pItemChar, pUnionBar, pConcatTwo, pStarOne, pItemChar, pConcatOne, pStarPlus]⟩ = .ok (false, ⟨none, [pUnionBar, pConcatOne, pStarStar, pItemChar, pUnionBar, pConcatTwo, pStarOne, pItemChar, pConcatOne, pStarPlus]⟩) := prod_eval 10 h144
  have h146 : matchNonTerminal regexGrammar toksABstar 7 "ITEM" ⟨none, [pUnionBar, pConcatOne, pStarStar, pItemChar, pUnionBar, pConcatTwo, pStarOne, pItemChar, pConcatOne, pStarOne]⟩ = .ok (false, ⟨none, [pUnionBar, pConcatOne, pStarStar, pItemChar, pUnionBar, pConcatTwo, pStarOne, pItemChar, pConcatOne, pStarOne]⟩) := rfl
  have h147 : matchElement regexGrammar toksABstar 8 (.nonterm "ITEM") ⟨none, [pUnionBar, pConcatOne, pStarStar, pItemChar, pUnionBar, pConcatTwo, pStarOne, pItemChar, pConcatOne, pStarOne]⟩ = .ok (false, ⟨none, [pUnionBar, pConcatOne, pStarStar, pItemChar, pUnionBar, pConcatTwo, pStarOne, pItemChar, pConcatOne, pStarOne]⟩) := elem_nt_eval 7 h146
  have h148 : matchElements regexGrammar toksABstar 9 none [(.nonterm "ITEM")] ⟨none, [pUnionBar, pConcatOne, pStarStar, pItemChar, pUnionBar, pConcatTwo, pStarOne, pItemChar, pConcatOne, pStarOne]⟩ = .ok (false, ⟨none, [pUnionBar, pConcatOne, pStarStar, pItemChar, pUnionBar, pConcatTwo, pStarOne, pItemChar, pConcatOne, pStarOne]⟩) := elems_false_step 8 h147
  have h149 : matchProduction regexGrammar toksABstar 10 pStarOne ⟨none, [pUnionBar, pConcatOne, pStarStar, pItemChar, pUnionBar, pConcatTwo, pStarOne, pItemChar, pConcatOne, pStarOne]⟩ = .ok (false, ⟨none, [pUnionBar, pConcatOne, pStarStar, pItemChar, pUnionBar, pConcatTwo, pStarOne, pItemChar, pConcatOne, pStarOne]⟩) := prod_eval 9 h148
  have h150 : matchAlternatives regexGrammar toksABstar 10 9 [] ⟨none, [pUnionBar, pConcatOne, pStarStar, pItemChar, pUnionBar, pConcatTwo, pStarOne, pItemChar, pConcatOne]⟩ = .ok (false, ⟨none, [pUnionBar, pConcatOne, pStarStar, pItemChar, pUnionBar, pConcatTwo, pStarOne, pItemChar, pConcatOne]⟩) := rfl
  have h151 : matchAlternatives regexGrammar toksABstar 11 9 [pStarOne] ⟨none, [pUnionBar, pConcatOne, pStarStar, pItemChar, pUnionBar, pConcatTwo, pStarOne, pItemChar, pConcatOne]⟩ = .ok (false, ⟨none, [pUnionBar, pConcatOne, pStarStar, pItemChar, pUnionBar, pConcatTwo, pStarOne, pItemChar, pConcatOne]⟩) := alts_fail_step 10 h149 h150
  have h152 : matchAlternatives regexGrammar toksABstar 12 9 [pStarPlus, pStarOne] ⟨none, [pUnionBar, pConcatOne, pStarStar, pItemChar, pUnionBar, pConcatTwo, pStarOne, pItemChar, pConcatOne]⟩ = .ok (false, ⟨none, [pUnionBar, pConcatOne, pStarStar, pItemChar, pUnionBar, pConcatTwo, pStarOne, pItemChar, pConcatOne]⟩) := alts_fail_step 11 h145 h151
  have h153 : matchAlternatives regexGrammar toksABstar 13 9 [pStarOpt, pStarPlus, pStarOne] ⟨none, [pUnionBar, pConcatOne, pStarStar, pItemChar, pUnionBar, pConcatTwo, pStarOne, pItemChar, pConcatOne]⟩ = .ok (false, ⟨none, [pUnionBar, pConcatOne, pStarStar, pItemChar, pUnionBar, pConcatTwo, pStarOne, pItemChar, pConcatOne]⟩) := alts_fail_step 12 h141 h152
  have h154 : matchAlternatives regexGrammar toksABstar 14 9 [pStarStar, pStarOpt, pStarPlus, pStarOne] ⟨none, [pUnionBar, pConcatOne, pStarStar, pItemChar, pUnionBar, pConcatTwo, pStarOne, pItemChar, pConcatOne]⟩ = .ok (false, ⟨none, [pUnionBar, pConcatOne, pStarStar, pItemChar, pUnionBar, pConcatTwo, pStarOne, pItemChar, pConcatOne]⟩) := alts_fail_step 13 h137 h153
  have h155 : matchNonTerminal regexGrammar toksABstar 15 "STAR" ⟨none, [pUnionBar, pConcatOne, pStarStar, pItemChar, pUnionBar, pConcatTwo, pStarOne, pItemChar, pConcatOne]⟩ = .ok (false, ⟨none, [pUnionBar, pConcatOne, pStarStar, pItemChar, pUnionBar, pConcatTwo, pStarOne, pItemChar, pConcatOne]⟩) := nt_eval 14 rfl h154
  have h156 : matchElement regexGrammar toksABstar 16 (.nonterm "STAR") ⟨none, [pUnionBar, pConcatOne, pStarStar, pItemChar, pUnionBar, pConcatTwo, pStarOne, pItemChar, pConcatOne]⟩ = .ok (false, ⟨none, [pUnionBar, pConcatOne, pStarStar, pItemChar, pUnionBar, pConcatTwo, pStarOne, pItemChar, pConcatOne]⟩) := elem_nt_eval 15 h155
  have h157 : matchElements regexGrammar toksABstar 17 none [(.nonterm "STAR")] ⟨none, [pUnionBar, pConcatOne, pStarStar, pItemChar, pUnionBar, pConcatTwo, pStarOne, pItemChar, pConcatOne]⟩ = .ok (false, ⟨none, [pUnionBar, pConcatOne, pStarStar, pItemChar, pUnionBar, pConcatTwo, pStarOne, pItemChar, pConcatOne]⟩) := elems_false_step 16 h156
  have h158 : matchProduction regexGrammar toksABstar 18 pConcatOne ⟨none, [pUnionBar, pConcatOne, pStarStar, pItemChar, pUnionBar, pConcatTwo, pStarOne, pItemChar, pConcatOne]⟩ = .ok (false, ⟨none, [pUnionBar, pConcatOne, pStarStar, pItemChar, pUnionBar, pConcatTwo, pStarOne, pItemChar, pConcatOne]⟩) := prod_eval 17 h157
  have h159 : matchAlternatives regexGrammar toksABstar 18 8 [] ⟨none, [pUnionBar, pConcatOne, pStarStar, pItemChar, pUnionBar, pConcatTwo, pStarOne, pItemChar]⟩ = .ok (false, ⟨none, [pUnionBar, pConcatOne, pStarStar, pItemChar, pUnionBar, pConcatTwo, pStarOne, pItemChar]⟩) := rfl
  have h160 : matchAlternatives regexGrammar toksABstar 19 8 [pConcatOne] ⟨none, [pUnionBar, pConcatOne, pStarStar, pItemChar, pUnionBar, pConcatTwo, pStarOne, pItemChar]⟩ = .ok (false, ⟨none, [pUnionBar, pConcatOne, pStarStar, pItemChar, pUnionBar, pConcatTwo, pStarOne, pItemChar]⟩) := alts_fail_step 18 h158 h159
  have h161 : matchAlternatives regexGrammar toksABstar 20 8 [pConcatTwo, pConcatOne] ⟨none, [pUnionBar, pConcatOne, pStarStar, pItemChar, pUnionBar, pConcatTwo, pStarOne, pItemChar]⟩ = .ok (false, ⟨none, [pUnionBar, pConcatOne, pStarStar, pItemChar, pUnionBar, pConcatTwo, pStarOne, pItemChar]⟩) := alts_fail_step 19 h133 h160
  have h162 : matchNonTerminal regexGrammar toksABstar 21 "CONCAT" ⟨none, [pUnionBar, pConcatOne, pStarStar, pItemChar, pUnionBar, pConcatTwo, pStarOne, pItemChar]⟩ = .ok (false, ⟨none, [pUnionBar, pConcatOne, pStarStar, pItemChar, pUnionBar, pConcatTwo, pStarOne, pItemChar]⟩) := nt_eval 20 rfl h161
  have h163 : matchElement regexGrammar toksABstar 22 (.nonterm "CONCAT") ⟨none, [pUnionBar, pConcatOne, pStarStar, pItemChar, pUnionBar, pConcatTwo, pStarOne, pItemChar]⟩ = .ok (false, ⟨none, [pUnionBar, pConcatOne, pStarStar, pItemChar, pUnionBar, pConcatTwo, pStarOne, pItemChar]⟩) := elem_nt_eval 21 h162
  have h164 : matchElements regexGrammar toksABstar 23 (some 3) [(.nonterm "CONCAT")] ⟨none, [pUnionBar, pConcatOne, pStarStar, pItemChar, pUnionBar, pConcatTwo, pStarOne, pItemChar]⟩ = .ok (false, ⟨some 3, [pUnionBar, pConcatOne, pStarStar, pItemChar, pUnionBar, pConcatTwo, pStarOne, pItemChar]⟩) := elems_false_step 22 h163
  have h165 : matchElements regexGrammar toksABstar 24 (some 3) [(.nonterm "STAR"), (.nonterm "CONCAT")] ⟨some 3, [pUnionBar, pConcatOne, pStarStar, pItemChar, pUnionBar, pConcatTwo]⟩ = .ok (false, ⟨some 3, [pUnionBar, pConcatOne, pStarStar, pItemChar, pUnionBar, pConcatTwo, pStarOne, pItemChar]⟩) := elems_true_step 23 h108 h164
  have h166 : matchProduction regexGrammar toksABstar 25 pConcatTwo ⟨some 3, [pUnionBar, pConcatOne, pStarStar, pItemChar, pUnionBar, pConcatTwo]⟩ = .ok (false, ⟨some 3, [pUnionBar, pConcatOne, pStarStar, pItemChar, pUnionBar, pConcatTwo, pStarOne, pItemChar]⟩) := prod_eval 24 h165
  have h167 : matchNonTerminal regexGrammar toksABstar 16 "ITEM" ⟨some 3, [pUnionBar, pConcatOne, pStarStar, pItemChar, pUnionBar, pConcatOne, pStarStar]⟩ = .ok (true, ⟨none, [pUnionBar, pConcatOne, pStarStar, pItemChar, pUnionBar, pConcatOne, pStarStar, pItemChar]⟩) := rfl
  have h168 : matchElement regexGrammar toksABstar 17 (.nonterm "ITEM") ⟨some 3, [pUnionBar, pConcatOne, pStarStar, pItemChar, pUnionBar, pConcatOne, pStarStar]⟩ = .ok (true, ⟨none, [pUnionBar, pConcatOne, pStarStar, pItemChar, pUnionBar, pConcatOne, pStarStar, pItemChar]⟩) := elem_nt_eval 16 h167
  have h169 : matchElements regexGrammar toksABstar 17 (some 3) [(.term "*")] ⟨none, [pUnionBar, pConcatOne, pStarStar, pItemChar, pUnionBar, pConcatOne, pStarStar, pItemChar]⟩ = .ok (false, ⟨some 3, [pUnionBar, pConcatOne, pStarStar, pItemChar, pUnionBar, pConcatOne, pStarStar, pItemChar]⟩) := rfl
  have h170 : matchElements regexGrammar toksABstar 18 (some 3) [(.nonterm "ITEM"), (.term "*")] ⟨some 3, [pUnionBar, pConcatOne, pStarStar, pItemChar, pUnionBar, pConcatOne, pStarStar]⟩ = .ok (false, ⟨some 3, [pUnionBar, pConcatOne, pStarStar, pItemChar, pUnionBar, pConcatOne, pStarStar, pItemChar]⟩) := elems_true_step 17 h168 h169
  have h171 : matchProduction regexGrammar toksABstar 19 pStarStar ⟨some 3, [pUnionBar, pConcatOne, pStarStar, pItemChar, pUnionBar, pConcatOne, pStarStar]⟩ = .ok (false, ⟨some 3, [pUnionBar, pConcatOne, pStarStar, pItemChar, pUnionBar, pConcatOne, pStarStar, pItemChar]⟩) := prod_eval 18 h170
  have h172 : matchNonTerminal regexGrammar toksABstar 15 "ITEM" ⟨some 3, [pUnionBar, pConcatOne, pStarStar, pItemChar, pUnionBar, pConcatOne, pStarOpt]⟩ = .ok (true, ⟨none, [pUnionBar, pConcatOne, pStarStar, pItemChar, pUnionBar, pConcatOne, pStarOpt, pItemChar]⟩) := rfl
  have h173 : matchElement regexGrammar toksABstar 16 (.nonterm "ITEM") ⟨some 3, [pUnionBar, pConcatOne, pStarStar, pItemChar, pUnionBar, pConcatOne, pStarOpt]⟩ = .ok (true, ⟨none, [pUnionBar, pConcatOne, pStarStar, pItemChar, pUnionBar, pConcatOne, pStarOpt, pItemChar]⟩) := elem_nt_eval 15 h172
  have h174 : matchElements regexGrammar toksABstar 16 (some 3) [(.term "?")] ⟨none, [pUnionBar, pConcatOne, pStarStar, pItemChar, pUnionBar, pConcatOne, pStarOpt, pItemChar]⟩ = .ok (false, ⟨some 3, [pUnionBar, pConcatOne, pStarStar, pItemChar, pUnionBar, pConcatOne, pStarOpt, pItemChar]⟩) := rfl
  have h175 : matchElements regexGrammar toksABstar 17 (some 3) [(.nonterm "ITEM"), (.term "?")] ⟨some 3, [pUnionBar, pConcatOne, pStarStar, pItemChar, pUnionBar, pConcatOne, pStarOpt]⟩ = .ok (false, ⟨some 3, [pUnionBar, pConcatOne, pStarStar, pItemChar, pUnionBar, pConcatOne, pStarOpt, pItemChar]⟩) := elems_true_step 16 h173 h174
  have h176 : matchProduction regexGrammar toksABstar 18 pStarOpt ⟨some 3, [pUnionBar, pConcatOne, pStarStar, pItemChar, pUnionBar, pConcatOne, pStarOpt]⟩ = .ok (false, ⟨some 3, [pUnionBar, pConcatOne, pStarStar, pItemChar, pUnionBar, pConcatOne, pStarOpt, pItemChar]⟩) := prod_eval 17 h175
  have h177 : matchNonTerminal regexGrammar toksABstar 14 "ITEM" ⟨some 3, [pUnionBar, pConcatOne, pStarStar, pItemChar, pUnionBar, pConcatOne, pStarPlus]⟩ = .ok (true, ⟨none, [pUnionBar, pConcatOne, pStarStar, pItemChar, pUnionBar, pConcatOne, pStarPlus, pItemChar]⟩) := rfl
  have h178 : matchElement regexGrammar toksABstar 15 (.nonterm "ITEM") ⟨some 3, [pUnionBar, pConcatOne, pStarStar, pItemChar, pUnionBar, pConcatOne, pStarPlus]⟩ = .ok (true, ⟨none, [pUnionBar, pConcatOne, pStarStar, pItemChar, pUnionBar, pConcatOne, pStarPlus, pItemChar]⟩) := elem_nt_eval 14 h177
  have h179 : matchElements regexGrammar toksABstar 15 (some 3) [(.term "+")] ⟨none, [pUnionBar, pConcatOne, pStarStar, pItemChar, pUnionBar, pConcatOne, pStarPlus, pItemChar]⟩ = .ok (false, ⟨some 3, [pUnionBar, pConcatOne, pStarStar, pItemChar, pUnionBar, pConcatOne, pStarPlus, pItemChar]⟩) := rfl
  have h180 : matchElements regexGrammar toksABstar 16 (some 3) [(.nonterm "ITEM"), (.term "+")] ⟨some 3, [pUnionBar, pConcatOne, pStarStar, pItemChar, pUnionBar, pConcatOne, pStarPlus]⟩ = .ok (false, ⟨some 3, [pUnionBar, pConcatOne, pStarStar, pItemChar, pUnionBar, pConcatOne, pStarPlus, pItemChar]⟩) := elems_true_step 15 h178 h179
  have h181 : matchProduction regexGrammar toksABstar 17 pStarPlus ⟨some 3, [pUnionBar, pConcatOne, pStarStar, pItemChar, pUnionBar, pConcatOne, pStarPlus]⟩ = .ok (false, ⟨some 3, [pUnionBar, pConcatOne, pStarStar, pItemChar, pUnionBar, pConcatOne, pStarPlus, pItemChar]⟩) := prod_eval 16 h180
  have h182 : matchNonTerminal regexGrammar toksABstar 13 "ITEM" ⟨some 3, [pUnionBar, pConcatOne, pStarStar, pItemChar, pUnionBar, pConcatOne, pStarOne]⟩ = .ok (true, ⟨none, [pUnionBar, pConcatOne, pStarStar, pItemChar, pUnionBar, pConcatOne, pStarOne, pItemChar]⟩) := rfl
  have h183 : matchElement regexGrammar toksABstar 14 (.nonterm "ITEM") ⟨some 3, [pUnionBar, pConcatOne, pStarStar, pItemChar, pUnionBar, pConcatOne, pStarOne]⟩ = .ok (true, ⟨none, [pUnionBar, pConcatOne, pStarStar, pItemChar, pUnionBar, pConcatOne, pStarOne, pItemChar]⟩) := elem_nt_eval 13 h182
  have h184 : matchElements regexGrammar toksABstar 14 (some 3) [] ⟨none, [pUnionBar, pConcatOne, pStarStar, pItemChar, pUnionBar, pConcatOne, pStarOne, pItemChar]⟩ = .ok (true, ⟨none, [pUnionBar, pConcatOne, pStarStar, pItemChar, pUnionBar, pConcatOne, pStarOne, pItemChar]⟩) := rfl
  have h185 : matchElements regexGrammar toksABstar 15 (some 3) [(.nonterm "ITEM")] ⟨some 3, [pUnionBar, pConcatOne, pStarStar, pItemChar, pUnionBar, pConcatOne, pStarOne]⟩ = .ok (true, ⟨none, [pUnionBar, pConcatOne, pStarStar, pItemChar, pUnionBar, pConcatOne, pStarOne, pItemChar]⟩) := elems_true_step 14 h183 h184
  have h186 : matchProduction regexGrammar toksABstar 16 pStarOne ⟨some 3, [pUnionBar, pConcatOne, pStarStar, pItemChar, pUnionBar, pConcatOne, pStarOne]⟩ = .ok (true, ⟨none, [pUnionBar, pConcatOne, pStarStar, pItemChar, pUnionBar, pConcatOne, pStarOne, pItemChar]⟩) := prod_eval 15 h185
  have h187 : matchAlternatives regexGrammar toksABstar 17 6 [pStarOne] ⟨some 3, [pUnionBar, pConcatOne, pStarStar, pItemChar, pUnionBar, pConcatOne]⟩ = .ok (true, ⟨none, [pUnionBar, pConcatOne, pStarStar, pItemChar, pUnionBar, pConcatOne, pStarOne, pItemChar]⟩) := alts_succ_step 16 h186
  have h188 : matchAlternatives regexGrammar toksABstar 18 6 [pStarPlus, pStarOne] ⟨some 3, [pUnionBar, pConcatOne, pStarStar, pItemChar, pUnionBar, pConcatOne]⟩ = .ok (true, ⟨none, [pUnionBar, pConcatOne, pStarStar, pItemChar, pUnionBar, pConcatOne, pStarOne, pItemChar]⟩) := alts_fail_step 17 h181 h187
  have h189 : matchAlternatives regexGrammar toksABstar 19 6 [pStarOpt, pStarPlus, pStarOne] ⟨some 3, [pUnionBar, pConcatOne, pStarStar, pItemChar, pUnionBar, pConcatOne]⟩ = .ok (true, ⟨none, [pUnionBar, pConcatOne, pStarStar, pItemChar, pUnionBar, pConcatOne, pStarOne, pItemChar]⟩) := alts_fail_step 18 h176 h188
  have h190 : matchAlternatives regexGrammar toksABstar 20 6 [pStarStar, pStarOpt, pStarPlus, pStarOne] ⟨some 3, [pUnionBar, pConcatOne, pStarStar, pItemChar, pUnionBar, pConcatOne]⟩ = .ok (true, ⟨none, [pUnionBar, pConcatOne, pStarStar, pItemChar, pUnionBar, pConcatOne, pStarOne, pItemChar]⟩) := alts_fail_step 19 h171 h189
  have h191 : matchNonTerminal regexGrammar toksABstar 21 "STAR" ⟨some 3, [pUnionBar, pConcatOne, pStarStar, pItemChar, pUnionBar, pConcatOne]⟩ = .ok (true, ⟨none, [pUnionBar, pConcatOne, pStarStar, pItemChar, pUnionBar, pConcatOne, pStarOne, pItemChar]⟩) := nt_eval 20 rfl h190
  have h192 : matchElement regexGrammar toksABstar 22 (.nonterm "STAR") ⟨some 3, [pUnionBar, pConcatOne, pStarStar, pItemChar, pUnionBar, pConcatOne]⟩ = .ok (true, ⟨none, [pUnionBar, pConcatOne, pStarStar, pItemChar, pUnionBar, pConcatOne, pStarOne, pItemChar]⟩) := elem_nt_eval 21 h191
  have h193 : matchElements regexGrammar toksABstar 22 (some 3) [] ⟨none, [pUnionBar, pConcatOne, pStarStar, pItemChar, pUnionBar, pConcatOne, pStarOne, pItemChar]⟩ = .ok (true, ⟨none, [pUnionBar, pConcatOne, pStarStar, pItemChar, pUnionBar, pConcatOne, pStarOne, pItemChar]⟩) := rfl
  have h194 : matchElements regexGrammar toksABstar 23 (some 3) [(.nonterm "STAR")] ⟨some 3, [pUnionBar, pConcatOne, pStarStar, pItemChar, pUnionBar, pConcatOne]⟩ = .ok (true, ⟨none, [pUnionBar, pConcatOne, pStarStar, pItemChar, pUnionBar, pConcatOne, pStarOne, pItemChar]⟩) := elems_true_step 22 h192 h193
  have h195 : matchProduction regexGrammar toksABstar 24 pConcatOne ⟨some 3, [pUnionBar, pConcatOne, pStarStar, pItemChar, pUnionBar, pConcatOne]⟩ = .ok (true, ⟨none, [pUnionBar, pConcatOne, pStarStar, pItemChar, pUnionBar, pConcatOne, pStarOne, pItemChar]⟩) := prod_eval 23 h194
  have h196 : matchAlternatives regexGrammar toksABstar 25 5 [pConcatOne] ⟨some 3, [pUnionBar, pConcatOne, pStarStar, pItemChar, pUnionBar]⟩ = .ok (true, ⟨none, [pUnionBar, pConcatOne, pStarStar, pItemChar, pUnionBar, pConcatOne, pStarOne, pItemChar]⟩) := alts_succ_step 24 h195
  have h197 : matchAlternatives regexGrammar toksABstar 26 5 [pConcatTwo, pConcatOne] ⟨some 3, [pUnionBar, pConcatOne, pStarStar, pItemChar, pUnionBar]⟩ = .ok (true, ⟨none, [pUnionBar, pConcatOne, pStarStar, pItemChar, pUnionBar, pConcatOne, pStarOne, pItemChar]⟩) := alts_fail_step 25 h166 h196
  have h198 : matchNonTerminal regexGrammar toksABstar 27 "CONCAT" ⟨some 3, [pUnionBar, pConcatOne, pStarStar, pItemChar, pUnionBar]⟩ = .ok (true, ⟨none, [pUnionBar, pConcatOne, pStarStar, pItemChar, pUnionBar, pConcatOne, pStarOne, pItemChar]⟩) := nt_eval 26 rfl h197
  have h199 : matchElement regexGrammar toksABstar 28 (.nonterm "CONCAT") ⟨some 3, [pUnionBar, pConcatOne, pStarStar, pItemChar, pUnionBar]⟩ = .ok (true, ⟨none, [pUnionBar, pConcatOne, pStarStar, pItemChar, pUnionBar, pConcatOne, pStarOne, pItemChar]⟩) := elem_nt_eval 27 h198
  have h200 : matchElements regexGrammar toksABstar 28 (some 3) [(.term "|"), (.nonterm "UNION")] ⟨none, [pUnionBar, pConcatOne, pStarStar, pItemChar, pUnionBar, pConcatOne, pStarOne, pItemChar]⟩ = .ok (false, ⟨some 3, [pUnionBar, pConcatOne, pStarStar, pItemChar, pUnionBar, pConcatOne, pStarOne, pItemChar]⟩) := rfl
  have h201 : matchElements regexGrammar toksABstar 29 (some 3) [(.nonterm "CONCAT"), (.term "|"), (.nonterm "UNION")] ⟨some 3, [pUnionBar, pConcatOne, pStarStar, pItemChar, pUnionBar]⟩ = .ok (false, ⟨some 3, [pUnionBar, pConcatOne, pStarStar, pItemChar, pUnionBar, pConcatOne, pStarOne, pItemChar]⟩) := elems_true_step 28 h199 h200
  have h202 : matchProduction regexGrammar toksABstar 30 pUnionBar ⟨some 3, [pUnionBar, pConcatOne, pStarStar, pItemChar, pUnionBar]⟩ = .ok (false, ⟨some 3, [pUnionBar, pConcatOne, pStarStar, pItemChar, pUnionBar, pConcatOne, pStarOne, pItemChar]⟩) := prod_eval 29 h201
  have h203 : matchNonTerminal regexGrammar toksABstar 16 "ITEM" ⟨some 3, [pUnionBar, pConcatOne, pStarStar, pItemChar, pUnionOne, pConcatTwo, pStarStar]⟩ = .ok (true, ⟨none, [pUnionBar, pConcatOne, pStarStar, pItemChar, pUnionOne, pConcatTwo, pStarStar, pItemChar]⟩) := rfl
  have h204 : matchElement regexGrammar toksABstar 17 (.nonterm "ITEM") ⟨some 3, [pUnionBar, pConcatOne, pStarStar, pItemChar, pUnionOne, pConcatTwo, pStarStar]⟩ = .ok (true, ⟨none, [pUnionBar, pConcatOne, pStarStar, pItemChar, pUnionOne, pConcatTwo, pStarStar, pItemChar]⟩) := elem_nt_eval 16 h203
  have h205 : matchElements regexGrammar toksABstar 17 (some 3) [(.term "*")] ⟨none, [pUnionBar, pConcatOne, pStarStar, pItemChar, pUnionOne, pConcatTwo, pStarStar, pItemChar]⟩ = .ok (false, ⟨some 3, [pUnionBar, pConcatOne, pStarStar, pItemChar, pUnionOne, pConcatTwo, pStarStar, pItemChar]⟩) := rfl
  have h206 : matchElements regexGrammar toksABstar 18 (some 3) [(.nonterm "ITEM"), (.term "*")] ⟨some 3, [pUnionBar, pConcatOne, pStarStar, pItemChar, pUnionOne, pConcatTwo, pStarStar]⟩ = .ok (false, ⟨some 3, [pUnionBar, pConcatOne, pStarStar, pItemChar, pUnionOne, pConcatTwo, pStarStar, pItemChar]⟩) := elems_true_step 17 h204 h205
  have h207 : matchProduction regexGrammar toksABstar 19 pStarStar ⟨some 3, [pUnionBar, pConcatOne, pStarStar, pItemChar, pUnionOne, pConcatTwo, pStarStar]⟩ = .ok (false, ⟨some 3, [pUnionBar, pConcatOne, pStarStar, pItemChar, pUnionOne, pConcatTwo, pStarStar, pItemChar]⟩) := prod_eval 18 h206
  have h208 : matchNonTerminal regexGrammar toksABstar 15 "ITEM" ⟨some 3, [pUnionBar, pConcatOne, pStarStar, pItemChar, pUnionOne, pConcatTwo, pStarOpt]⟩ = .ok (true, ⟨none, [pUnionBar, pConcatOne, pStarStar, pItemChar, pUnionOne, pConcatTwo, pStarOpt, pItemChar]⟩) := rfl
  have h209 : matchElement regexGrammar toksABstar 16 (.nonterm "ITEM") ⟨some 3, [pUnionBar, pConcatOne, pStarStar, pItemChar, pUnionOne, pConcatTwo, pStarOpt]⟩ = .ok (true, ⟨none, [pUnionBar, pConcatOne, pStarStar, pItemChar, pUnionOne, pConcatTwo, pStarOpt, pItemChar]⟩) := elem_nt_eval 15 h208
  have h210 : matchElements regexGrammar toksABstar 16 (some 3) [(.term "?")] ⟨none, [pUnionBar, pConcatOne, pStarStar, pItemChar, pUnionOne, pConcatTwo, pStarOpt, pItemChar]⟩ = .ok (false, ⟨some 3, [pUnionBar, pConcatOne, pStarStar, pItemChar, pUnionOne, pConcatTwo, pStarOpt, pItemChar]⟩) := rfl
  have h211 : matchElements regexGrammar toksABstar 17 (some 3) [(.nonterm "ITEM"), (.term "?")] ⟨some 3, [pUnionBar, pConcatOne, pStarStar, pItemChar, pUnionOne, pConcatTwo, pStarOpt]⟩ = .ok (false, ⟨some 3, [pUnionBar, pConcatOne, pStarStar, pItemChar, pUnionOne, pConcatTwo, pStarOpt, pItemChar]⟩) := elems_true_step 16 h209 h210
  have h212 : matchProduction regexGrammar toksABstar 18 pStarOpt ⟨some 3, [pUnionBar, pConcatOne, pStarStar, pItemChar, pUnionOne, pConcatTwo, pStarOpt]⟩ = .ok (false, ⟨some 3, [pUnionBar, pConcatOne, pStarStar, pItemChar, pUnionOne, pConcatTwo, pStarOpt, pItemChar]⟩) := prod_eval 17 h211
  have h213 : matchNonTerminal regexGrammar toksABstar 14 "ITEM" ⟨some 3, [pUnionBar, pConcatOne, pStarStar, pItemChar, pUnionOne, pConcatTwo, pStarPlus]⟩ = .ok (true, ⟨none, [pUnionBar, pConcatOne, pStarStar, pItemChar, pUnionOne, pConcatTwo, pStarPlus, pItemChar]⟩) := rfl
  have h214 : matchElement regexGrammar toksABstar 15 (.nonterm "ITEM") ⟨some 3, [pUnionBar, pConcatOne, pStarStar, pItemChar, pUnionOne, pConcatTwo, pStarPlus]⟩ = .ok (true, ⟨none, [pUnionBar, pConcatOne, pStarStar, pItemChar, pUnionOne, pConcatTwo, pStarPlus, pItemChar]⟩) := elem_nt_eval 14 h213
  have h215 : matchElements regexGrammar toksABstar 15 (some 3) [(.term "+")] ⟨none, [pUnionBar, pConcatOne, pStarStar, pItemChar, pUnionOne, pConcatTwo, pStarPlus, pItemChar]⟩ = .ok (false, ⟨some 3, [pUnionBar, pConcatOne, pStarStar, pItemChar, pUnionOne, pConcatTwo, pStarPlus, pItemChar]⟩) := rfl
  have h216 : matchElements regexGrammar toksABstar 16 (some 3) [(.nonterm "ITEM"), (.term "+")] ⟨some 3, [pUnionBar, pConcatOne, pStarStar, pItemChar, pUnionOne, pConcatTwo, pStarPlus]⟩ = .ok (false, ⟨some 3, [pUnionBar, pConcatOne, pStarStar, pItemChar, pUnionOne, pConcatTwo, pStarPlus, pItemChar]⟩) := elems_true_step 15 h214 h215
  have h217 : matchProduction regexGrammar toksABstar 17 pStarPlus ⟨some 3, [pUnionBar, pConcatOne, pStarStar, pItemChar, pUnionOne, pConcatTwo, pStarPlus]⟩ = .ok (false, ⟨some 3, [pUnionBar, pConcatOne, pStarStar, pItemChar, pUnionOne, pConcatTwo, pStarPlus, pItemChar]⟩) := prod_eval 16 h216
  have h218 : matchNonTerminal regexGrammar toksABstar 13 "ITEM" ⟨some 3, [pUnionBar, pConcatOne, pStarStar, pItemChar, pUnionOne, pConcatTwo, pStarOne]⟩ = .ok (true, ⟨none, [pUnionBar, pConcatOne, pStarStar, pItemChar, pUnionOne, pConcatTwo, pStarOne, pItemChar]⟩) := rfl
  have h219 : matchElement regexGrammar toksABstar 14 (.nonterm "ITEM") ⟨some 3, [pUnionBar, pConcatOne, pStarStar, pItemChar, pUnionOne, pConcatTwo, pStarOne]⟩ = .ok (true, ⟨none, [pUnionBar, pConcatOne, pStarStar, pItemChar, pUnionOne, pConcatTwo, pStarOne, pItemChar]⟩) := elem_nt_eval 13 h218
  have h220 : matchElements regexGrammar toksABstar 14 (some 3) [] ⟨none, [pUnionBar, pConcatOne, pStarStar, pItemChar, pUnionOne, pConcatTwo, pStarOne, pItemChar]⟩ = .ok (true, ⟨none, [pUnionBar, pConcatOne, pStarStar, pItemChar, pUnionOne, pConcatTwo, pStarOne, pItemChar]⟩) := rfl
  have h221 : matchElements regexGrammar toksABstar 15 (some 3) [(.nonterm "ITEM")] ⟨some 3, [pUnionBar, pConcatOne, pStarStar, pItemChar, pUnionOne, pConcatTwo, pStarOne]⟩ = .ok (true, ⟨none, [pUnionBar, pConcatOne, pStarStar, pItemChar, pUnionOne, pConcatTwo, pStarOne, pItemChar]⟩) := elems_true_step 14 h219 h220
  have h222 : matchProduction regexGrammar toksABstar 16 pStarOne ⟨some 3, [pUnionBar, pConcatOne, pStarStar, pItemChar, pUnionOne, pConcatTwo, pStarOne]⟩ = .ok (true, ⟨none, [pUnionBar, pConcatOne, pStarStar, pItemChar, pUnionOne, pConcatTwo, pStarOne, pItemChar]⟩) := prod_eval 15 h221
  have h223 : matchAlternatives regexGrammar toksABstar 17 6 [pStarOne] ⟨some 3, [pUnionBar, pConcatOne, pStarStar, pItemChar, pUnionOne, pConcatTwo]⟩ = .ok (true, ⟨none, [pUnionBar, pConcatOne, pStarStar, pItemChar, pUnionOne, pConcatTwo, pStarOne, pItemChar]⟩) := alts_succ_step 16 h222
  have h224 : matchAlternatives regexGrammar toksABstar 18 6 [pStarPlus, pStarOne] ⟨some 3, [pUnionBar, pConcatOne, pStarStar, pItemChar, pUnionOne, pConcatTwo]⟩ = .ok (true, ⟨none, [pUnionBar, pConcatOne, pStarStar, pItemChar, pUnionOne, pConcatTwo, pStarOne, pItemChar]⟩) := alts_fail_step 17 h217 h223
  have h225 : matchAlternatives regexGrammar toksABstar 19 6 [pStarOpt, pStarPlus, pStarOne] ⟨some 3, [pUnionBar, pConcatOne, pStarStar, pItemChar, pUnionOne, pConcatTwo]⟩ = .ok (true, ⟨none, [pUnionBar, pConcatOne, pStarStar, pItemChar, pUnionOne, pConcatTwo, pStarOne, pItemChar]⟩) := alts_fail_step 18 h212 h224
  have h226 : matchAlternatives regexGrammar toksABstar 20 6 [pStarStar, pStarOpt, pStarPlus, pStarOne] ⟨some 3, [pUnionBar, pConcatOne, pStarStar, pItemChar, pUnionOne, pConcatTwo]⟩ = .ok (true, ⟨none, [pUnionBar, pConcatOne, pStarStar, pItemChar, pUnionOne, pConcatTwo, pStarOne, pItemChar]⟩) := alts_fail_step 19 h207 h225
  have h227 : matchNonTerminal regexGrammar toksABstar 21 "STAR" ⟨some 3, [pUnionBar, pConcatOne, pStarStar, pItemChar, pUnionOne, pConcatTwo]⟩ = .ok (true, ⟨none, [pUnionBar, pConcatOne, pStarStar, pItemChar, pUnionOne, pConcatTwo, pStarOne, pItemChar]⟩) := nt_eval 20 rfl h226
  have h228 : matchElement regexGrammar toksABstar 22 (.nonterm "STAR") ⟨some 3, [pUnionBar, pConcatOne, pStarStar, pItemChar, pUnionOne, pConcatTwo]⟩ = .ok (true, ⟨none, [pUnionBar, pConcatOne, pStarStar, pItemChar, pUnionOne, pConcatTwo, pStarOne, pItemChar]⟩) := elem_nt_eval 21 h227
  have h229 : matchNonTerminal regexGrammar toksABstar 10 "ITEM" ⟨none, [pUnionBar, pConcatOne, pStarStar, pItemChar, pUnionOne, pConcatTwo, pStarOne, pItemChar, pConcatTwo, pStarStar]⟩ = .ok (false, ⟨none, [pUnionBar, pConcatOne, pStarStar, pItemChar, pUnionOne, pConcatTwo, pStarOne, pItemChar, pConcatTwo, pStarStar]⟩) := rfl
  have h230 : matchElement regexGrammar toksABstar 11 (.nonterm "ITEM") ⟨none, [pUnionBar, pConcatOne, pStarStar, pItemChar, pUnionOne, pConcatTwo, pStarOne, pItemChar, pConcatTwo, pStarStar]⟩ = .ok (false, ⟨none, [pUnionBar, pConcatOne, pStarStar, pItemChar, pUnionOne, pConcatTwo, pStarOne, pItemChar, pConcatTwo, pStarStar]⟩) := elem_nt_eval 10 h229
  have h231 : matchElements regexGrammar toksABstar 12 none [(.nonterm "ITEM"), (.term "*")] ⟨none, [pUnionBar, pConcatOne, pStarStar, pItemChar, pUnionOne, pConcatTwo, pStarOne, pItemChar, pConcatTwo, pStarStar]⟩ = .ok (false, ⟨none, [pUnionBar, pConcatOne, pStarStar, pItemChar, pUnionOne, pConcatTwo, pStarOne, pItemChar, pConcatTwo, pStarStar]⟩) := elems_false_step 11 h230
  have h232 : matchProduction regexGrammar toksABstar 13 pStarStar ⟨none, [pUnionBar, pConcatOne, pStarStar, pItemChar, pUnionOne, pConcatTwo, pStarOne, pItemChar, pConcatTwo, pStarStar]⟩ = .ok (false, ⟨none, [pUnionBar, pConcatOne, pStarStar, pItemChar, pUnionOne, pConcatTwo, pStarOne, pItemChar, pConcatTwo, pStarStar]⟩) := prod_eval 12 h231
  have h233 : matchNonTerminal regexGrammar toksABstar 9 "ITEM" ⟨none, [pUnionBar, pConcatOne, pStarStar, pItemChar, pUnionOne, pConcatTwo, pStarOne, pItemChar, pConcatTwo, pStarOpt]⟩ = .ok (false, ⟨none, [pUnionBar, pConcatOne, pStarStar, pItemChar, pUnionOne, pConcatTwo, pStarOne, pItemChar, pConcatTwo, pStarOpt]⟩) := rfl
  have h234 : matchElement regexGrammar toksABstar 10 (.nonterm "ITEM") ⟨none, [pUnionBar, pConcatOne, pStarStar, pItemChar, pUnionOne, pConcatTwo, pStarOne, pItemChar, pConcatTwo, pStarOpt]⟩ = .ok (false, ⟨none, [pUnionBar, pConcatOne, pStarStar, pItemChar, pUnionOne, pConcatTwo, pStarOne, pItemChar, pConcatTwo, pStarOpt]⟩) := elem_nt_eval 9 h233
  have h235 : matchElements regexGrammar toksABstar 11 none [(.nonterm "ITEM"), (.term "?")] ⟨none, [pUnionBar, pConcatOne, pStarStar, pItemChar, pUnionOne, pConcatTwo, pStarOne, pItemChar, pConcatTwo, pStarOpt]⟩ = .ok (false, ⟨none, [pUnionBar, pConcatOne, pStarStar, pItemChar, pUnionOne, pConcatTwo, pStarOne, pItemChar, pConcatTwo, pStarOpt]⟩) := elems_false_step 10 h234
  have h236 : matchProduction regexGrammar toksABstar 12 pStarOpt ⟨none, [pUnionBar, pConcatOne, pStarStar, pItemChar, pUnionOne, pConcatTwo, pStarOne, pItemChar, pConcatTwo, pStarOpt]⟩ = .ok (false, ⟨none, [pUnionBar, pConcatOne, pStarStar, pItemChar, pUnionOne, pConcatTwo, pStarOne, pItemChar, pConcatTwo, pStarOpt]⟩) := prod_eval 11 h235
  have h237 : matchNonTerminal regexGrammar toksABstar 8 "ITEM" ⟨none, [pUnionBar, pConcatOne, pStarStar, pItemChar, pUnionOne, pConcatTwo, pStarOne, pItemChar, pConcatTwo, pStarPlus]⟩ = .ok (false, ⟨none, [pUnionBar, pConcatOne, pStarStar, pItemChar, pUnionOne, pConcatTwo, pStarOne, pItemChar, pConcatTwo, pStarPlus]⟩) := rfl
  have h238 : matchElement regexGrammar toksABstar 9 (.nonterm "ITEM") ⟨none, [pUnionBar, pConcatOne, pStarStar, pItemChar, pUnionOne, pConcatTwo, pStarOne, pItemChar, pConcatTwo, pStarPlus]⟩ = .ok (false, ⟨none, [pUnionBar, pConcatOne, pStarStar, pItemChar, pUnionOne, pConcatTwo, pStarOne, pItemChar, pConcatTwo, pStarPlus]⟩) := elem_nt_eval 8 h237
  have h239 : matchElements regexGrammar toksABstar 10 none [(.nonterm "ITEM"), (.term "+")] ⟨none, [pUnionBar, pConcatOne, pStarStar, pItemChar, pUnionOne, pConcatTwo, pStarOne, pItemChar, pConcatTwo, pStarPlus]⟩ = .ok (false, ⟨none, [pUnionBar, pConcatOne, pStarStar, pItemChar, pUnionOne, pConcatTwo, pStarOne, pItemChar, pConcatTwo, pStarPlus]⟩) := elems_false_step 9 h238
  have h240 : matchProduction regexGrammar toksABstar 11 pStarPlus ⟨none, [pUnionBar, pConcatOne, pStarStar, pItemChar, pUnionOne, pConcatTwo, pStarOne, pItemChar, pConcatTwo, pStarPlus]⟩ = .ok (false, ⟨none, [pUnionBar, pConcatOne, pStarStar, pItemChar, pUnionOne, pConcatTwo, pStarOne, pItemChar, pConcatTwo, pStarPlus]⟩) := prod_eval 10 h239
  have h241 : matchNonTerminal regexGrammar toksABstar 7 "ITEM" ⟨none, [pUnionBar, pConcatOne, pStarStar, pItemChar, pUnionOne, pConcatTwo, pStarOne, pItemChar, pConcatTwo, pStarOne]⟩ = .ok (false, ⟨none, [pUnionBar, pConcatOne, pStarStar, pItemChar, pUnionOne, pConcatTwo, pStarOne, pItemChar, pConcatTwo, pStarOne]⟩) := rfl
  have h242 : matchElement regexGrammar toksABstar 8 (.nonterm "ITEM") ⟨none, [pUnionBar, pConcatOne, pStarStar, pItemChar, pUnionOne, pConcatTwo, pStarOne, pItemChar, pConcatTwo, pStarOne]⟩ = .ok (false, ⟨none, [pUnionBar, pConcatOne, pStarStar, pItemChar, pUnionOne, pConcatTwo, pStarOne, pItemChar, pConcatTwo, pStarOne]⟩) := elem_nt_eval 7 h241
  have h243 : matchElements regexGrammar toksABstar 9 none [(.nonterm "ITEM")] ⟨none, [pUnionBar, pConcatOne, pStarStar, pItemChar, pUnionOne, pConcatTwo, pStarOne, pItemChar, pConcatTwo, pStarOne]⟩ = .ok (false, ⟨none, [pUnionBar, pConcatOne, pStarStar, pItemChar, pUnionOne, pConcatTwo, pStarOne, pItemChar, pConcatTwo, pStarOne]⟩) := elems_false_step 8 h242
  have h244 : matchProduction regexGrammar toksABstar 10 pStarOne ⟨none, [pUnionBar, pConcatOne, pStarStar, pItemChar, pUnionOne, pConcatTwo, pStarOne, pItemChar, pConcatTwo, pStarOne]⟩ = .ok (false, ⟨none, [pUnionBar, pConcatOne, pStarStar, pItemChar, pUnionOne, pConcatTwo, pStarOne, pItemChar, pConcatTwo, pStarOne]⟩) := prod_eval 9 h243
  have h245 : matchAlternatives regexGrammar toksABstar 10 9 [] ⟨none, [pUnionBar, pConcatOne, pStarStar, pItemChar, pUnionOne, pConcatTwo, pStarOne, pItemChar, pConcatTwo]⟩ = .ok (false, ⟨none, [pUnionBar, pConcatOne, pStarStar, pItemChar, pUnionOne, pConcatTwo, pStarOne, pItemChar, pConcatTwo]⟩) := rfl
  have h246 : matchAlternatives regexGrammar toksABstar 11 9 [pStarOne] ⟨none, [pUnionBar, pConcatOne, pStarStar, pItemChar, pUnionOne, pConcatTwo, pStarOne, pItemChar, pConcatTwo]⟩ = .ok (false, ⟨none, [pUnionBar, pConcatOne, pStarStar, pItemChar, pUnionOne, pConcatTwo, pStarOne, pItemChar, pConcatTwo]⟩) := alts_fail_step 10 h244 h245
  have h247 : matchAlternatives regexGrammar toksABstar 12 9 [pStarPlus, pStarOne] ⟨none, [pUnionBar, pConcatOne, pStarStar, pItemChar, pUnionOne, pConcatTwo, pStarOne, pItemChar, pConcatTwo]⟩ = .ok (false, ⟨none, [pUnionBar, pConcatOne, pStarStar, pItemChar, pUnionOne, pConcatTwo, pStarOne, pItemChar, pConcatTwo]⟩) := alts_fail_step 11 h240 h246
  have h248 : matchAlternatives regexGrammar toksABstar 13 9 [pStarOpt, pStarPlus, pStarOne] ⟨none, [pUnionBar, pConcatOne, pStarStar, pItemChar, pUnionOne, pConcatTwo, pStarOne, pItemChar, pConcatTwo]⟩ = .ok (false, ⟨none, [pUnionBar, pConcatOne, pStarStar, pItemChar, pUnionOne, pConcatTwo, pStarOne, pItemChar, pConcatTwo]⟩) := alts_fail_step 12 h236 h247
  have h249 : matchAlternatives regexGrammar toksABstar 14 9 [pStarStar, pStarOpt, pStarPlus, pStarOne] ⟨none, [pUnionBar, pConcatOne, pStarStar, pItemChar, pUnionOne, pConcatTwo, pStarOne, pItemChar, pConcatTwo]⟩ = .ok (false, ⟨none, [pUnionBar, pConcatOne, pStarStar, pItemChar, pUnionOne, pConcatTwo, pStarOne, pItemChar, pConcatTwo]⟩) := alts_fail_step 13 h232 h248
  have h250 : matchNonTerminal regexGrammar toksABstar 15 "STAR" ⟨none, [pUnionBar, pConcatOne, pStarStar, pItemChar, pUnionOne, pConcatTwo, pStarOne, pItemChar, pConcatTwo]⟩ = .ok (false, ⟨none, [pUnionBar, pConcatOne, pStarStar, pItemChar, pUnionOne, pConcatTwo, pStarOne, pItemChar, pConcatTwo]⟩) := nt_eval 14 rfl h249
  have h251 : matchElement regexGrammar toksABstar 16 (.nonterm "STAR") ⟨none, [pUnionBar, pConcatOne, pStarStar, pItemChar, pUnionOne, pConcatTwo, pStarOne, pItemChar, pConcatTwo]⟩ = .ok (false, ⟨none, [pUnionBar, pConcatOne, pStarStar, pItemChar, pUnionOne, pConcatTwo, pStarOne, pItemChar, pConcatTwo]⟩) := elem_nt_eval 15 h250
  have h252 : matchElements regexGrammar toksABstar 17 none [(.nonterm "STAR"), (.nonterm "CONCAT")] ⟨none, [pUnionBar, pConcatOne, pStarStar, pItemChar, pUnionOne, pConcatTwo, pStarOne, pItemChar, pConcatTwo]⟩ = .ok (false, ⟨none, [pUnionBar, pConcatOne, pStarStar, pItemChar, pUnionOne, pConcatTwo, pStarOne, pItemChar, pConcatTwo]⟩) := elems_false_step 16 h251
  have h253 : matchProduction regexGrammar toksABstar 18 pConcatTwo ⟨none, [pUnionBar, pConcatOne, pStarStar, pItemChar, pUnionOne, pConcatTwo, pStarOne, pItemChar, pConcatTwo]⟩ = .ok (false, ⟨none, [pUnionBar, pConcatOne, pStarStar, pItemChar, pUnionOne, pConcatTwo, pStarOne, pItemChar, pConcatTwo]⟩) := prod_eval 17 h252
  have h254 : matchNonTerminal regexGrammar toksABstar 9 "ITEM" ⟨none, [pUnionBar, pConcatOne, pStarStar, pItemChar, pUnionOne, pConcatTwo, pStarOne, pItemChar, pConcatOne, pStarStar]⟩ = .ok (false, ⟨none, [pUnionBar, pConcatOne, pStarStar, pItemChar, pUnionOne, pConcatTwo, pStarOne, pItemChar, pConcatOne, pStarStar]⟩) := rfl
  have h255 : matchElement regexGrammar toksABstar 10 (.nonterm "ITEM") ⟨none, [pUnionBar, pConcatOne, pStarStar, pItemChar, pUnionOne, pConcatTwo, pStarOne, pItemChar, pConcatOne, pStarStar]⟩ = .ok (false, ⟨none, [pUnionBar, pConcatOne, pStarStar, pItemChar, pUnionOne, pConcatTwo, pStarOne, pItemChar, pConcatOne, pStarStar]⟩) := elem_nt_eval 9 h254
  have h256 : matchElements regexGrammar toksABstar 11 none [(.nonterm "ITEM"), (.term "*")] ⟨none, [pUnionBar, pConcatOne, pStarStar, pItemChar, pUnionOne, pConcatTwo, pStarOne, pItemChar, pConcatOne, pStarStar]⟩ = .ok (false, ⟨none, [pUnionBar, pConcatOne, pStarStar, pItemChar, pUnionOne, pConcatTwo, pStarOne, pItemChar, pConcatOne, pStarStar]⟩) := elems_false_step 10 h255
  have h257 : matchProduction regexGrammar toksABstar 12 pStarStar ⟨none, [pUnionBar, pConcatOne, pStarStar, pItemChar, pUnionOne, pConcatTwo, pStarOne, pItemChar, pConcatOne, pStarStar]⟩ = .ok (false, ⟨none, [pUnionBar, pConcatOne, pStarStar, pItemChar, pUnionOne, pConcatTwo, pStarOne, pItemChar, pConcatOne, pStarStar]⟩) := prod_eval 11 h256
  have h258 : matchNonTerminal regexGrammar toksABstar 8 "ITEM" ⟨none, [pUnionBar, pConcatOne, pStarStar, pItemChar, pUnionOne, pConcatTwo, pStarOne, pItemChar, pConcatOne, pStarOpt]⟩ = .ok (false, ⟨none, [pUnionBar, pConcatOne, pStarStar, pItemChar, pUnionOne, pConcatTwo, pStarOne, pItemChar, pConcatOne, pStarOpt]⟩) := rfl
  have h259 : matchElement regexGrammar toksABstar 9 (.nonterm "ITEM") ⟨none, [pUnionBar, pConcatOne, pStarStar, pItemChar, pUnionOne, pConcatTwo, pStarOne, pItemChar, pConcatOne, pStarOpt]⟩ = .ok (false, ⟨none, [pUnionBar, pConcatOne, pStarStar, pItemChar, pUnionOne, pConcatTwo, pStarOne, pItemChar, pConcatOne, pStarOpt]⟩) := elem_nt_eval 8 h258
  have h260 : matchElements regexGrammar toksABstar 10 none [(.nonterm "ITEM"), (.term "?")] ⟨none, [pUnionBar, pConcatOne, pStarStar, pItemChar, pUnionOne, pConcatTwo, pStarOne, pItemChar, pConcatOne, pStarOpt]⟩ = .ok (false, ⟨none, [pUnionBar, pConcatOne, pStarStar, pItemChar, pUnionOne, pConcatTwo, pStarOne, pItemChar, pConcatOne, pStarOpt]⟩) := elems_false_step 9 h259
  have h261 : matchProduction regexGrammar toksABstar 11 pStarOpt ⟨none, [pUnionBar, pConcatOne, pStarStar, pItemChar, pUnionOne, pConcatTwo, pStarOne, pItemChar, pConcatOne, pStarOpt]⟩ = .ok (false, ⟨none, [pUnionBar, pConcatOne, pStarStar, pItemChar, pUnionOne, pConcatTwo, pStarOne, pItemChar, pConcatOne, pStarOpt]⟩) := prod_eval 10 h260
  have h262 : matchNonTerminal regexGrammar toksABstar 7 "ITEM" ⟨none, [pUnionBar, pConcatOne, pStarStar, pItemChar, pUnionOne, pConcatTwo, pStarOne, pItemChar, pConcatOne, pStarPlus]⟩ = .ok (false, ⟨none, [pUnionBar, pConcatOne, pStarStar, pItemChar, pUnionOne, pConcatTwo, pStarOne, pItemChar, pConcatOne, pStarPlus]⟩) := rfl
  have h263 : matchElement regexGrammar toksABstar 8 (.nonterm "ITEM") ⟨none, [pUnionBar, pConcatOne, pStarStar, pItemChar, pUnionOne, pConcatTwo, pStarOne, pItemChar, pConcatOne, pStarPlus]⟩ = .ok (false, ⟨none, [pUnionBar, pConcatOne, pStarStar, pItemChar, pUnionOne, pConcatTwo, pStarOne, pItemChar, pConcatOne, pStarPlus]⟩) := elem_nt_eval 7 h262
  have h264 : matchElements regexGrammar toksABstar 9 none [(.nonterm "ITEM"), (.term "+")] ⟨none, [pUnionBar, pConcatOne, pStarStar, pItemChar, pUnionOne, pConcatTwo, pStarOne, pItemChar, pConcatOne, pStarPlus]⟩ = .ok (false, ⟨none, [pUnionBar, pConcatOne, pStarStar, pItemChar, pUnionOne, pConcatTwo, pStarOne, pItemChar, pConcatOne, pStarPlus]⟩) := elems_false_step 8 h263
  have h265 : matchProduction regexGrammar toksABstar 10 pStarPlus ⟨none, [pUnionBar, pConcatOne, pStarStar, pItemChar, pUnionOne, pConcatTwo, pStarOne, pItemChar, pConcatOne, pStarPlus]⟩ = .ok (false, ⟨none, [pUnionBar, pConcatOne, pStarStar, pItemChar, pUnionOne, pConcatTwo, pStarOne, pItemChar, pConcatOne, pStarPlus]⟩) := prod_eval 9 h264
  have h266 : matchNonTerminal regexGrammar toksABstar 6 "ITEM" ⟨none, [pUnionBar, pConcatOne, pStarStar, pItemChar, pUnionOne, pConcatTwo, pStarOne, pItemChar, pConcatOne, pStarOne]⟩ = .ok (false, ⟨none, [pUnionBar, pConcatOne, pStarStar, pItemChar, pUnionOne, pConcatTwo, pStarOne, pItemChar, pConcatOne, pStarOne]⟩) := rfl
  have h267 : matchElement regexGrammar toksABstar 7 (.nonterm "ITEM") ⟨none, [pUnionBar, pConcatOne, pStarStar, pItemChar, pUnionOne, pConcatTwo, pStarOne, pItemChar, pConcatOne, pStarOne]⟩ = .ok (false, ⟨none, [pUnionBar, pConcatOne, pStarStar, pItemChar, pUnionOne, pConcatTwo, pStarOne, pItemChar, pConcatOne, pStarOne]⟩) := elem_nt_eval 6 h266
  have h268 : matchElements regexGrammar toksABstar 8 none [(.nonterm "ITEM")] ⟨none, [pUnionBar, pConcatOne, pStarStar, pItemChar, pUnionOne, pConcatTwo, pStarOne, pItemChar, pConcatOne, pStarOne]⟩ = .ok (false, ⟨none, [pUnionBar, pConcatOne, pStarStar, pItemChar, pUnionOne, pConcatTwo, pStarOne, pItemChar, pConcatOne, pStarOne]⟩) := elems_false_step 7 h267
  have h269 : matchProduction regexGrammar toksABstar 9 pStarOne ⟨none, [pUnionBar, pConcatOne, pStarStar, pItemChar, pUnionOne, pConcatTwo, pStarOne, pItemChar, pConcatOne, pStarOne]⟩ = .ok (false, ⟨none, [pUnionBar, pConcatOne, pStarStar, pItemChar, pUnionOne, pConcatTwo, pStarOne, pItemChar, pConcatOne, pStarOne]⟩) := prod_eval 8 h268
  have h270 : matchAlternatives regexGrammar toksABstar 9 9 [] ⟨none, [pUnionBar, pConcatOne, pStarStar, pItemChar, pUnionOne, pConcatTwo, pStarOne, pItemChar, pConcatOne]⟩ = .ok (false, ⟨none, [pUnionBar, pConcatOne, pStarStar, pItemChar, pUnionOne, pConcatTwo, pStarOne, pItemChar, pConcatOne]⟩) := rfl
  have h271 : matchAlternatives regexGrammar toksABstar 10 9 [pStarOne] ⟨none, [pUnionBar, pConcatOne, pStarStar, pItemChar, pUnionOne, pConcatTwo, pStarOne, pItemChar, pConcatOne]⟩ = .ok (false, ⟨none, [pUnionBar, pConcatOne, pStarStar, pItemChar, pUnionOne, pConcatTwo, pStarOne, pItemChar, pConcatOne]⟩) := alts_fail_step 9 h269 h270
  have h272 : matchAlternatives regexGrammar toksABstar 11 9 [pStarPlus, pStarOne] ⟨none, [pUnionBar, pConcatOne, pStarStar, pItemChar, pUnionOne, pConcatTwo, pStarOne, pItemChar, pConcatOne]⟩ = .ok (false, ⟨none, [pUnionBar, pConcatOne, pStarStar, pItemChar, pUnionOne, pConcatTwo, pStarOne, pItemChar, pConcatOne]⟩) := alts_fail_step 10 h265 h271
  have h273 : matchAlternatives regexGrammar toksABstar 12 9 [pStarOpt, pStarPlus, pStarOne] ⟨none, [pUnionBar, pConcatOne, pStarStar, pItemChar, pUnionOne, pConcatTwo, pStarOne, pItemChar, pConcatOne]⟩ = .ok (false, ⟨none, [pUnionBar, pConcatOne, pStarStar, pItemChar, pUnionOne, pConcatTwo, pStarOne, pItemChar, pConcatOne]⟩) := alts_fail_step 11 h261 h272
  have h274 : matchAlternatives regexGrammar toksABstar 13 9 [pStarStar, pStarOpt, pStarPlus, pStarOne] ⟨none, [pUnionBar, pConcatOne, pStarStar, pItemChar, pUnionOne, pConcatTwo, pStarOne, pItemChar, pConcatOne]⟩ = .ok (false, ⟨none, [pUnionBar, pConcatOne, pStarStar, pItemChar, pUnionOne, pConcatTwo, pStarOne, pItemChar, pConcatOne]⟩) := alts_fail_step 12 h257 h273
  have h275 : matchNonTerminal regexGrammar toksABstar 14 "STAR" ⟨none, [pUnionBar, pConcatOne, pStarStar, pItemChar, pUnionOne, pConcatTwo, pStarOne, pItemChar, pConcatOne]⟩ = .ok (false, ⟨none, [pUnionBar, pConcatOne, pStarStar, pItemChar, pUnionOne, pConcatTwo, pStarOne, pItemChar, pConcatOne]⟩) := nt_eval 13 rfl h274
  have h276 : matchElement regexGrammar toksABstar 15 (.nonterm "STAR") ⟨none, [pUnionBar, pConcatOne, pStarStar, pItemChar, pUnionOne, pConcatTwo, pStarOne, pItemChar, pConcatOne]⟩ = .ok (false, ⟨none, [pUnionBar, pConcatOne, pStarStar, pItemChar, pUnionOne, pConcatTwo, pStarOne, pItemChar, pConcatOne]⟩) := elem_nt_eval 14 h275
  have h277 : matchElements regexGrammar toksABstar 16 none [(.nonterm "STAR")] ⟨none, [pUnionBar, pConcatOne, pStarStar, pItemChar, pUnionOne, pConcatTwo, pStarOne, pItemChar, pConcatOne]⟩ = .ok (false, ⟨none, [pUnionBar, pConcatOne, pStarStar, pItemChar, pUnionOne, pConcatTwo, pStarOne, pItemChar, pConcatOne]⟩) := elems_false_step 15 h276
  have h278 : matchProduction regexGrammar toksABstar 17 pConcatOne ⟨none, [pUnionBar, pConcatOne, pStarStar, pItemChar, pUnionOne, pConcatTwo, pStarOne, pItemChar, pConcatOne]⟩ = .ok (false, ⟨none, [pUnionBar, pConcatOne, pStarStar, pItemChar, pUnionOne, pConcatTwo, pStarOne, pItemChar, pConcatOne]⟩) := prod_eval 16 h277
  have h279 : matchAlternatives regexGrammar toksABstar 17 8 [] ⟨none, [pUnionBar, pConcatOne, pStarStar, pItemChar, pUnionOne, pConcatTwo, pStarOne, pItemChar]⟩ = .ok (false, ⟨none, [pUnionBar, pConcatOne, pStarStar, pItemChar, pUnionOne, pConcatTwo, pStarOne, pItemChar]⟩) := rfl
  have h280 : matchAlternatives regexGrammar toksABstar 18 8 [pConcatOne] ⟨none, [pUnionBar, pConcatOne, pStarStar, pItemChar, pUnionOne, pConcatTwo, pStarOne, pItemChar]⟩ = .ok (false, ⟨none, [pUnionBar, pConcatOne, pStarStar, pItemChar, pUnionOne, pConcatTwo, pStarOne, pItemChar]⟩) := alts_fail_step 17 h278 h279
  have h281 : matchAlternatives regexGrammar toksABstar 19 8 [pConcatTwo, pConcatOne] ⟨none, [pUnionBar, pConcatOne, pStarStar, pItemChar, pUnionOne, pConcatTwo, pStarOne, pItemChar]⟩ = .ok (false, ⟨none, [pUnionBar, pConcatOne, pStarStar, pItemChar, pUnionOne, pConcatTwo, pStarOne, pItemChar]⟩) := alts_fail_step 18 h253 h280
  have h282 : matchNonTerminal regexGrammar toksABstar 20 "CONCAT" ⟨none, [pUnionBar, pConcatOne, pStarStar, pItemChar, pUnionOne, pConcatTwo, pStarOne, pItemChar]⟩ = .ok (false, ⟨none, [pUnionBar, pConcatOne, pStarStar, pItemChar, pUnionOne, pConcatTwo, pStarOne, pItemChar]⟩) := nt_eval 19 rfl h281
  have h283 : matchElement regexGrammar toksABstar 21 (.nonterm "CONCAT") ⟨none, [pUnionBar, pConcatOne, pStarStar, pItemChar, pUnionOne, pConcatTwo, pStarOne, pItemChar]⟩ = .ok (false, ⟨none, [pUnionBar, pConcatOne, pStarStar, pItemChar, pUnionOne, pConcatTwo, pStarOne, pItemChar]⟩) := elem_nt_eval 20 h282
  have h284 : matchElements regexGrammar toksABstar 22 (some 3) [(.nonterm "CONCAT")] ⟨none, [pUnionBar, pConcatOne, pStarStar, pItemChar, pUnionOne, pConcatTwo, pStarOne, pItemChar]⟩ = .ok (false, ⟨some 3, [pUnionBar, pConcatOne, pStarStar, pItemChar, pUnionOne, pConcatTwo, pStarOne, pItemChar]⟩) := elems_false_step 21 h283
  have h285 : matchElements regexGrammar toksABstar 23 (some 3) [(.nonterm "STAR"), (.nonterm "CONCAT")] ⟨some 3, [pUnionBar, pConcatOne, pStarStar, pItemChar, pUnionOne, pConcatTwo]⟩ = .ok (false, ⟨some 3, [pUnionBar, pConcatOne, pStarStar, pItemChar, pUnionOne, pConcatTwo, pStarOne, pItemChar]⟩) := elems_true_step 22 h228 h284
  have h286 : matchProduction regexGrammar toksABstar 24 pConcatTwo ⟨some 3, [pUnionBar, pConcatOne, pStarStar, pItemChar, pUnionOne, pConcatTwo]⟩ = .ok (false, ⟨some 3, [pUnionBar, pConcatOne, pStarStar, pItemChar, pUnionOne, pConcatTwo, pStarOne, pItemChar]⟩) := prod_eval 23 h285
  have h287 : matchNonTerminal regexGrammar toksABstar 15 "ITEM" ⟨some 3, [pUnionBar, pConcatOne, pStarStar, pItemChar, pUnionOne, pConcatOne, pStarStar]⟩ = .ok (true, ⟨none, [pUnionBar, pConcatOne, pStarStar, pItemChar, pUnionOne, pConcatOne, pStarStar, pItemChar]⟩) := rfl
  have h288 : matchElement regexGrammar toksABstar 16 (.nonterm "ITEM") ⟨some 3, [pUnionBar, pConcatOne, pStarStar, pItemChar, pUnionOne, pConcatOne, pStarStar]⟩ = .ok (true, ⟨none, [pUnionBar, pConcatOne, pStarStar, pItemChar, pUnionOne, pConcatOne, pStarStar, pItemChar]⟩) := elem_nt_eval 15 h287
  have h289 : matchElements regexGrammar toksABstar 16 (some 3) [(.term "*")] ⟨none, [pUnionBar, pConcatOne, pStarStar, pItemChar, pUnionOne, pConcatOne, pStarStar, pItemChar]⟩ = .ok (false, ⟨some 3, [pUnionBar, pConcatOne, pStarStar, pItemChar, pUnionOne, pConcatOne, pStarStar, pItemChar]⟩) := rfl
  have h290 : matchElements regexGrammar toksABstar 17 (some 3) [(.nonterm "ITEM"), (.term "*")] ⟨some 3, [pUnionBar, pConcatOne, pStarStar, pItemChar, pUnionOne, pConcatOne, pStarStar]⟩ = .ok (false, ⟨some 3, [pUnionBar, pConcatOne, pStarStar, pItemChar, pUnionOne, pConcatOne, pStarStar, pItemChar]⟩) := elems_true_step 16 h288 h289
  have h291 : matchProduction regexGrammar toksABstar 18 pStarStar ⟨some 3, [pUnionBar, pConcatOne, pStarStar, pItemChar, pUnionOne, pConcatOne, pStarStar]⟩ = .ok (false, ⟨some 3, [pUnionBar, pConcatOne, pStarStar, pItemChar, pUnionOne, pConcatOne, pStarStar, pItemChar]⟩) := prod_eval 17 h290
  have h292 : matchNonTerminal regexGrammar toksABstar 14 "ITEM" ⟨some 3, [pUnionBar, pConcatOne, pStarStar, pItemChar, pUnionOne, pConcatOne, pStarOpt]⟩ = .ok (true, ⟨none, [pUnionBar, pConcatOne, pStarStar, pItemChar, pUnionOne, pConcatOne, pStarOpt, pItemChar]⟩) := rfl
  have h293 : matchElement regexGrammar toksABstar 15 (.nonterm "ITEM") ⟨some 3, [pUnionBar, pConcatOne, pStarStar, pItemChar, pUnionOne, pConcatOne, pStarOpt]⟩ = .ok (true, ⟨none, [pUnionBar, pConcatOne, pStarStar, pItemChar, pUnionOne, pConcatOne, pStarOpt, pItemChar]⟩) := elem_nt_eval 14 h292
  have h294 : matchElements regexGrammar toksABstar 15 (some 3) [(.term "?")] ⟨none, [pUnionBar, pConcatOne, pStarStar, pItemChar, pUnionOne, pConcatOne, pStarOpt, pItemChar]⟩ = .ok (false, ⟨some 3, [pUnionBar, pConcatOne, pStarStar, pItemChar, pUnionOne, pConcatOne, pStarOpt, pItemChar]⟩) := rfl
  have h295 : matchElements regexGrammar toksABstar 16 (some 3) [(.nonterm "ITEM"), (.term "?")] ⟨some 3, [pUnionBar, pConcatOne, pStarStar, pItemChar, pUnionOne, pConcatOne, pStarOpt]⟩ = .ok (false, ⟨some 3, [pUnionBar, pConcatOne, pStarStar, pItemChar, pUnionOne, pConcatOne, pStarOpt, pItemChar]⟩) := elems_true_step 15 h293 h294
  have h296 : matchProduction regexGrammar toksABstar 17 pStarOpt ⟨some 3, [pUnionBar, pConcatOne, pStarStar, pItemChar, pUnionOne, pConcatOne, pStarOpt]⟩ = .ok (false, ⟨some 3, [pUnionBar, pConcatOne, pStarStar, pItemChar, pUnionOne, pConcatOne, pStarOpt, pItemChar]⟩) := prod_eval 16 h295
  have h297 : matchNonTerminal regexGrammar toksABstar 13 "ITEM" ⟨some 3, [pUnionBar, pConcatOne, pStarStar, pItemChar, pUnionOne, pConcatOne, pStarPlus]⟩ = .ok (true, ⟨none, [pUnionBar, pConcatOne, pStarStar, pItemChar, pUnionOne, pConcatOne, pStarPlus, pItemChar]⟩) := rfl
  have h298 : matchElement regexGrammar toksABstar 14 (.nonterm "ITEM") ⟨some 3, [pUnionBar, pConcatOne, pStarStar, pItemChar, pUnionOne, pConcatOne, pStarPlus]⟩ = .ok (true, ⟨none, [pUnionBar, pConcatOne, pStarStar, pItemChar, pUnionOne, pConcatOne, pStarPlus, pItemChar]⟩) := elem_nt_eval 13 h297
  have h299 : matchElements regexGrammar toksABstar 14 (some 3) [(.term "+")] ⟨none, [pUnionBar, pConcatOne, pStarStar, pItemChar, pUnionOne, pConcatOne, pStarPlus, pItemChar]⟩ = .ok (false, ⟨some 3, [pUnionBar, pConcatOne, pStarStar, pItemChar, pUnionOne, pConcatOne, pStarPlus, pItemChar]⟩) := rfl
  have h300 : matchElements regexGrammar toksABstar 15 (some 3) [(.nonterm "ITEM"), (.term "+")] ⟨some 3, [pUnionBar, pConcatOne, pStarStar, pItemChar, pUnionOne, pConcatOne, pStarPlus]⟩ = .ok (false, ⟨some 3, [pUnionBar, pConcatOne, pStarStar, pItemChar, pUnionOne, pConcatOne, pStarPlus, pItemChar]⟩) := elems_true_step 14 h298 h299
  have h301 : matchProduction regexGrammar toksABstar 16 pStarPlus ⟨some 3, [pUnionBar, pConcatOne, pStarStar, pItemChar, pUnionOne, pConcatOne, pStarPlus]⟩ = .ok (false, ⟨some 3, [pUnionBar, pConcatOne, pStarStar, pItemChar, pUnionOne, pConcatOne, pStarPlus, pItemChar]⟩) := prod_eval 15 h300
  have h302 : matchNonTerminal regexGrammar toksABstar 12 "ITEM" ⟨some 3, [pUnionBar, pConcatOne, pStarStar, pItemChar, pUnionOne, pConcatOne, pStarOne]⟩ = .ok (true, ⟨none, [pUnionBar, pConcatOne, pStarStar, pItemChar, pUnionOne, pConcatOne, pStarOne, pItemChar]⟩) := rfl
  have h303 : matchElement regexGrammar toksABstar 13 (.nonterm "ITEM") ⟨some 3, [pUnionBar, pConcatOne, pStarStar, pItemChar, pUnionOne, pConcatOne, pStarOne]⟩ = .ok (true, ⟨none, [pUnionBar, pConcatOne, pStarStar, pItemChar, pUnionOne, pConcatOne, pStarOne, pItemChar]⟩) := elem_nt_eval 12 h302
  have h304 : matchElements regexGrammar toksABstar 13 (some 3) [] ⟨none, [pUnionBar, pConcatOne, pStarStar, pItemChar, pUnionOne, pConcatOne, pStarOne, pItemChar]⟩ = .ok (true, ⟨none, [pUnionBar, pConcatOne, pStarStar, pItemChar, pUnionOne, pConcatOne, pStarOne, pItemChar]⟩) := rfl
  have h305 : matchElements regexGrammar toksABstar 14 (some 3) [(.nonterm "ITEM")] ⟨some 3, [pUnionBar, pConcatOne, pStarStar, pItemChar, pUnionOne, pConcatOne, pStarOne]⟩ = .ok (true, ⟨none, [pUnionBar, pConcatOne, pStarStar, pItemChar, pUnionOne, pConcatOne, pStarOne, pItemChar]⟩) := elems_true_step 13 h303 h304
  have h306 : matchProduction regexGrammar toksABstar 15 pStarOne ⟨some 3, [pUnionBar, pConcatOne, pStarStar, pItemChar, pUnionOne, pConcatOne, pStarOne]⟩ = .ok (true, ⟨none, [pUnionBar, pConcatOne, pStarStar, pItemChar, pUnionOne, pConcatOne, pStarOne, pItemChar]⟩) := prod_eval 14 h305
  have h307 : matchAlternatives regexGrammar toksABstar 16 6 [pStarOne] ⟨some 3, [pUnionBar, pConcatOne, pStarStar, pItemChar, pUnionOne, pConcatOne]⟩ = .ok (true, ⟨none, [pUnionBar, pConcatOne, pStarStar, pItemChar, pUnionOne, pConcatOne, pStarOne, pItemChar]⟩) := alts_succ_step 15 h306
  have h308 : matchAlternatives regexGrammar toksABstar 17 6 [pStarPlus, pStarOne] ⟨some 3, [pUnionBar, pConcatOne, pStarStar, pItemChar, pUnionOne, pConcatOne]⟩ = .ok (true, ⟨none, [pUnionBar, pConcatOne, pStarStar, pItemChar, pUnionOne, pConcatOne, pStarOne, pItemChar]⟩) := alts_fail_step 16 h301 h307
  have h309 : matchAlternatives regexGrammar toksABstar 18 6 [pStarOpt, pStarPlus, pStarOne] ⟨some 3, [pUnionBar, pConcatOne, pStarStar, pItemChar, pUnionOne, pConcatOne]⟩ = .ok (true, ⟨none, [pUnionBar, pConcatOne, pStarStar, pItemChar, pUnionOne, pConcatOne, pStarOne, pItemChar]⟩) := alts_fail_step 17 h296 h308
  have h310 : matchAlternatives regexGrammar toksABstar 19 6 [pStarStar, pStarOpt, pStarPlus, pStarOne] ⟨some 3, [pUnionBar, pConcatOne, pStarStar, pItemChar, pUnionOne, pConcatOne]⟩ = .ok (true, ⟨none, [pUnionBar, pConcatOne, pStarStar, pItemChar, pUnionOne, pConcatOne, pStarOne, pItemChar]⟩) := alts_fail_step 18 h291 h309
  have h311 : matchNonTerminal regexGrammar toksABstar 20 "STAR" ⟨some 3, [pUnionBar, pConcatOne, pStarStar, pItemChar, pUnionOne, pConcatOne]⟩ = .ok (true, ⟨none, [pUnionBar, pConcatOne, pStarStar, pItemChar, pUnionOne, pConcatOne, pStarOne, pItemChar]⟩) := nt_eval 19 rfl h310
  have h312 : matchElement regexGrammar toksABstar 21 (.nonterm "STAR") ⟨some 3, [pUnionBar, pConcatOne, pStarStar, pItemChar, pUnionOne, pConcatOne]⟩ = .ok (true, ⟨none, [pUnionBar, pConcatOne, pStarStar, pItemChar, pUnionOne, pConcatOne, pStarOne, pItemChar]⟩) := elem_nt_eval 20 h311
  have h313 : matchElements regexGrammar toksABstar 21 (some 3) [] ⟨none, [pUnionBar, pConcatOne, pStarStar, pItemChar, pUnionOne, pConcatOne, pStarOne, pItemChar]⟩ = .ok (true, ⟨none, [pUnionBar, pConcatOne, pStarStar, pItemChar, pUnionOne, pConcatOne, pStarOne, pItemChar]⟩) := rfl
  have h314 : matchElements regexGrammar toksABstar 22 (some 3) [(.nonterm "STAR")] ⟨some 3, [pUnionBar, pConcatOne, pStarStar, pItemChar, pUnionOne, pConcatOne]⟩ = .ok (true, ⟨none, [pUnionBar, pConcatOne, pStarStar, pItemChar, pUnionOne, pConcatOne, pStarOne, pItemChar]⟩) := elems_true_step 21 h312 h313
  have h315 : matchProduction regexGrammar toksABstar 23 pConcatOne ⟨some 3, [pUnionBar, pConcatOne, pStarStar, pItemChar, pUnionOne, pConcatOne]⟩ = .ok (true, ⟨none, [pUnionBar, pConcatOne, pStarStar, pItemChar, pUnionOne, pConcatOne, pStarOne, pItemChar]⟩) := prod_eval 22 h314
  have h316 : matchAlternatives regexGrammar toksABstar 24 5 [pConcatOne] ⟨some 3, [pUnionBar, pConcatOne, pStarStar, pItemChar, pUnionOne]⟩ = .ok (true, ⟨none, [pUnionBar, pConcatOne, pStarStar, pItemChar, pUnionOne, pConcatOne, pStarOne, pItemChar]⟩) := alts_succ_step 23 h315
  have h317 : matchAlternatives regexGrammar toksABstar 25 5 [pConcatTwo, pConcatOne] ⟨some 3, [pUnionBar, pConcatOne, pStarStar, pItemChar, pUnionOne]⟩ = .ok (true, ⟨none, [pUnionBar, pConcatOne, pStarStar, pItemChar, pUnionOne, pConcatOne, pStarOne, pItemChar]⟩) := alts_fail_step 24 h286 h316
  have h318 : matchNonTerminal regexGrammar toksABstar 26 "CONCAT" ⟨some 3, [pUnionBar, pConcatOne, pStarStar, pItemChar, pUnionOne]⟩ = .ok (true, ⟨none, [pUnionBar, pConcatOne, pStarStar, pItemChar, pUnionOne, pConcatOne, pStarOne, pItemChar]⟩) := nt_eval 25 rfl h317
  have h319 : matchElement regexGrammar toksABstar 27 (.nonterm "CONCAT") ⟨some 3, [pUnionBar, pConcatOne, pStarStar, pItemChar, pUnionOne]⟩ = .ok (true, ⟨none, [pUnionBar, pConcatOne, pStarStar, pItemChar, pUnionOne, pConcatOne, pStarOne, pItemChar]⟩) := elem_nt_eval 26 h318
  have h320 : matchElements regexGrammar toksABstar 27 (some 3) [] ⟨none, [pUnionBar, pConcatOne, pStarStar, pItemChar, pUnionOne, pConcatOne, pStarOne, pItemChar]⟩ = .ok (true, ⟨none, [pUnionBar, pConcatOne, pStarStar, pItemChar, pUnionOne, pConcatOne, pStarOne, pItemChar]⟩) := rfl
  have h321 : matchElements regexGrammar toksABstar 28 (some 3) [(.nonterm "CONCAT")] ⟨some 3, [pUnionBar, pConcatOne, pStarStar, pItemChar, pUnionOne]⟩ = .ok (true, ⟨none, [pUnionBar, pConcatOne, pStarStar, pItemChar, pUnionOne, pConcatOne, pStarOne, pItemChar]⟩) := elems_true_step 27 h319 h320
  have h322 : matchProduction regexGrammar toksABstar 29 pUnionOne ⟨some 3, [pUnionBar, pConcatOne, pStarStar, pItemChar, pUnionOne]⟩ = .ok (true, ⟨none, [pUnionBar, pConcatOne, pStarStar, pItemChar, pUnionOne, pConcatOne, pStarOne, pItemChar]⟩) := prod_eval 28 h321
  have h323 : matchAlternatives regexGrammar toksABstar 30 4 [pUnionOne] ⟨some 3, [pUnionBar, pConcatOne, pStarStar, pItemChar]⟩ = .ok (true, ⟨none, [pUnionBar, pConcatOne, pStarStar, pItemChar, pUnionOne, pConcatOne, pStarOne, pItemChar]⟩) := alts_succ_step 29 h322
  have h324 : matchAlternatives regexGrammar toksABstar 31 4 [pUnionBar, pUnionOne] ⟨some 3, [pUnionBar, pConcatOne, pStarStar, pItemChar]⟩ = .ok (true, ⟨none, [pUnionBar, pConcatOne, pStarStar, pItemChar, pUnionOne, pConcatOne, pStarOne, pItemChar]⟩) := alts_fail_step 30 h202 h323
  have h325 : matchNonTerminal regexGrammar toksABstar 32 "UNION" ⟨some 3, [pUnionBar, pConcatOne, pStarStar, pItemChar]⟩ = .ok (true, ⟨none, [pUnionBar, pConcatOne, pStarStar, pItemChar, pUnionOne, pConcatOne, pStarOne, pItemChar]⟩) := nt_eval 31 rfl h324
  have h326 : matchElement regexGrammar toksABstar 33 (.nonterm "UNION") ⟨some 3, [pUnionBar, pConcatOne, pStarStar, pItemChar]⟩ = .ok (true, ⟨none, [pUnionBar, pConcatOne, pStarStar, pItemChar, pUnionOne, pConcatOne, pStarOne, pItemChar]⟩) := elem_nt_eval 32 h325
  have h327 : matchElements regexGrammar toksABstar 33 (some 0) [] ⟨none, [pUnionBar, pConcatOne, pStarStar, pItemChar, pUnionOne, pConcatOne, pStarOne, pItemChar]⟩ = .ok (true, ⟨none, [pUnionBar, pConcatOne, pStarStar, pItemChar, pUnionOne, pConcatOne, pStarOne, pItemChar]⟩) := rfl
  have h328 : matchElements regexGrammar toksABstar 34 (some 0) [(.nonterm "UNION")] ⟨some 3, [pUnionBar, pConcatOne, pStarStar, pItemChar]⟩ = .ok (true, ⟨none, [pUnionBar, pConcatOne, pStarStar, pItemChar, pUnionOne, pConcatOne, pStarOne, pItemChar]⟩) := elems_true_step 33 h326 h327
  have h329 : matchElements regexGrammar toksABstar 35 (some 0) [(.term "|"), (.nonterm "UNION")] ⟨some 2, [pUnionBar, pConcatOne, pStarStar, pItemChar]⟩ = .ok (true, ⟨none, [pUnionBar, pConcatOne, pStarStar, pItemChar, pUnionOne, pConcatOne, pStarOne, pItemChar]⟩) := elems_true_step 34 h82 h328
  have h330 : matchElements regexGrammar toksABstar 36 (some 0) [(.nonterm "CONCAT"), (.term "|"), (.nonterm "UNION")] ⟨some 0, [pUnionBar]⟩ = .ok (true, ⟨none, [pUnionBar, pConcatOne, pStarStar, pItemChar, pUnionOne, pConcatOne, pStarOne, pItemChar]⟩) := elems_true_step 35 h81 h329
  have h331 : matchProduction regexGrammar toksABstar 37 pUnionBar ⟨some 0, [pUnionBar]⟩ = .ok (true, ⟨none, [pUnionBar, pConcatOne, pStarStar, pItemChar, pUnionOne, pConcatOne, pStarOne, pItemChar]⟩) := prod_eval 36 h330
  have h332 : matchAlternatives regexGrammar toksABstar 38 0 [pUnionBar, pUnionOne] ⟨some 0, []⟩ = .ok (true, ⟨none, [pUnionBar, pConcatOne, pStarStar, pItemChar, pUnionOne, pConcatOne, pStarOne, pItemChar]⟩) := alts_succ_step 37 h331
  have h333 : matchNonTerminal regexGrammar toksABstar 39 "UNION" ⟨some 0, []⟩ = .ok (true, ⟨none, [pUnionBar, pConcatOne, pStarStar, pItemChar, pUnionOne, pConcatOne, pStarOne, pItemChar]⟩) := nt_eval 38 rfl h332
  have h334 : matchElement regexGrammar toksABstar 40 (.nonterm "UNION") ⟨some 0, []⟩ = .ok (true, ⟨none, [pUnionBar, pConcatOne, pStarStar, pItemChar, pUnionOne, pConcatOne, pStarOne, pItemChar]⟩) := elem_nt_eval 39 h333
  exact h334
theorem matchTrace_a :
    matchElement regexGrammar toksA 40 (.nonterm "UNION") ⟨some 0, []⟩ =
      .ok (true, ⟨none, [pUnionOne, pConcatOne, pStarOne, pItemChar]⟩) := by
  have h1 : matchNonTerminal regexGrammar toksA 24 "ITEM" ⟨some 0, [pUnionBar, pConcatTwo, pStarStar]⟩ = .ok (true, ⟨none, [pUnionBar, pConcatTwo, pStarStar, pItemChar]⟩) := rfl
  have h2 : matchElement regexGrammar toksA 25 (.nonterm "ITEM") ⟨some 0, [pUnionBar, pConcatTwo, pStarStar]⟩ = .ok (true, ⟨none, [pUnionBar, pConcatTwo, pStarStar, pItemChar]⟩) := elem_nt_eval 24 h1
  have h3 : matchElements regexGrammar toksA 25 (some 0) [(.term "*")] ⟨none, [pUnionBar, pConcatTwo, pStarStar, pItemChar]⟩ = .ok (false, ⟨some 0, [pUnionBar, pConcatTwo, pStarStar, pItemChar]⟩) := rfl
  have h4 : matchElements regexGrammar toksA 26 (some 0) [(.nonterm "ITEM"), (.term "*")] ⟨some 0, [pUnionBar, pConcatTwo, pStarStar]⟩ = .ok (false, ⟨some 0, [pUnionBar, pConcatTwo, pStarStar, pItemChar]⟩) := elems_true_step 25 h2 h3
  have h5 : matchProduction regexGrammar toksA 27 pStarStar ⟨some 0, [pUnionBar, pConcatTwo, pStarStar]⟩ = .ok (false, ⟨some 0, [pUnionBar, pConcatTwo, pStarStar, pItemChar]⟩) := prod_eval 26 h4
  have h6 : matchNonTerminal regexGrammar toksA 23 "ITEM" ⟨some 0, [pUnionBar, pConcatTwo, pStarOpt]⟩ = .ok (true, ⟨none, [pUnionBar, pConcatTwo, pStarOpt, pItemChar]⟩) := rfl
  have h7 : matchElement regexGrammar toksA 24 (.nonterm "ITEM") ⟨some 0, [pUnionBar, pConcatTwo, pStarOpt]⟩ = .ok (true, ⟨none, [pUnionBar, pConcatTwo, pStarOpt, pItemChar]⟩) := elem_nt_eval 23 h6
  have h8 : matchElements regexGrammar toksA 24 (some 0) [(.term "?")] ⟨none, [pUnionBar, pConcatTwo, pStarOpt, pItemChar]⟩ = .ok (false, ⟨some 0, [pUnionBar, pConcatTwo, pStarOpt, pItemChar]⟩) := rfl
  have h9 : matchElements regexGrammar toksA 25 (some 0) [(.nonterm "ITEM"), (.term "?")] ⟨some 0, [pUnionBar, pConcatTwo, pStarOpt]⟩ = .ok (false, ⟨some 0, [pUnionBar, pConcatTwo, pStarOpt, pItemChar]⟩) := elems_true_step 24 h7 h8
  have h10 : matchProduction regexGrammar toksA 26 pStarOpt ⟨some 0, [pUnionBar, pConcatTwo, pStarOpt]⟩ = .ok (false, ⟨some 0, [pUnionBar, pConcatTwo, pStarOpt, pItemChar]⟩) := prod_eval 25 h9
  have h11 : matchNonTerminal regexGrammar toksA 22 "ITEM" ⟨some 0, [pUnionBar, pConcatTwo, pStarPlus]⟩ = .ok (true, ⟨none, [pUnionBar, pConcatTwo, pStarPlus, pItemChar]⟩) := rfl
  have h12 : matchElement regexGrammar toksA 23 (.nonterm "ITEM") ⟨some 0, [pUnionBar, pConcatTwo, pStarPlus]⟩ = .ok (true, ⟨none, [pUnionBar, pConcatTwo, pStarPlus, pItemChar]⟩) := elem_nt_eval 22 h11
  have h13 : matchElements regexGrammar toksA 23 (some 0) [(.term "+")] ⟨none, [pUnionBar, pConcatTwo, pStarPlus, pItemChar]⟩ = .ok (false, ⟨some 0, [pUnionBar, pConcatTwo, pStarPlus, pItemChar]⟩) := rfl
  have h14 : matchElements regexGrammar toksA 24 (some 0) [(.nonterm "ITEM"), (.term "+")] ⟨some 0, [pUnionBar, pConcatTwo, pStarPlus]⟩ = .ok (false, ⟨some 0, [pUnionBar, pConcatTwo, pStarPlus, pItemChar]⟩) := elems_true_step 23 h12 h13
  have h15 : matchProduction regexGrammar toksA 25 pStarPlus ⟨some 0, [pUnionBar, pConcatTwo, pStarPlus]⟩ = .ok (false, ⟨some 0, [pUnionBar, pConcatTwo, pStarPlus, pItemChar]⟩) := prod_eval 24 h14
  have h16 : matchNonTerminal regexGrammar toksA 21 "ITEM" ⟨some 0, [pUnionBar, pConcatTwo, pStarOne]⟩ = .ok (true, ⟨none, [pUnionBar, pConcatTwo, pStarOne, pItemChar]⟩) := rfl
  have h17 : matchElement regexGrammar toksA 22 (.nonterm "ITEM") ⟨some 0, [pUnionBar, pConcatTwo, pStarOne]⟩ = .ok (true, ⟨none, [pUnionBar, pConcatTwo, pStarOne, pItemChar]⟩) := elem_nt_eval 21 h16
  have h18 : matchElements regexGrammar toksA 22 (some 0) [] ⟨none, [pUnionBar, pConcatTwo, pStarOne, pItemChar]⟩ = .ok (true, ⟨none, [pUnionBar, pConcatTwo, pStarOne, pItemChar]⟩) := rfl
  have h19 : matchElements regexGrammar toksA 23 (some 0) [(.nonterm "ITEM")] ⟨some 0, [pUnionBar, pConcatTwo, pStarOne]⟩ = .ok (true, ⟨none, [pUnionBar, pConcatTwo, pStarOne, pItemChar]⟩) := elems_true_step 22 h17 h18
  have h20 : matchProduction regexGrammar toksA 24 pStarOne ⟨some 0, [pUnionBar, pConcatTwo, pStarOne]⟩ = .ok (true, ⟨none, [pUnionBar, pConcatTwo, pStarOne, pItemChar]⟩) := prod_eval 23 h19
  have h21 : matchAlternatives regexGrammar toksA 25 2 [pStarOne] ⟨some 0, [pUnionBar, pConcatTwo]⟩ = .ok (true, ⟨none, [pUnionBar, pConcatTwo, pStarOne, pItemChar]⟩) := alts_succ_step 24 h20
  have h22 : matchAlternatives regexGrammar toksA 26 2 [pStarPlus, pStarOne] ⟨some 0, [pUnionBar, pConcatTwo]⟩ = .ok (true, ⟨none, [pUnionBar, pConcatTwo, pStarOne, pItemChar]⟩) := alts_fail_step 25 h15 h21
  have h23 : matchAlternatives regexGrammar toksA 27 2 [pStarOpt, pStarPlus, pStarOne] ⟨some 0, [pUnionBar, pConcatTwo]⟩ = .ok (true, ⟨none, [pUnionBar, pConcatTwo, pStarOne, pItemChar]⟩) := alts_fail_step 26 h10 h22
  have h24 : matchAlternatives regexGrammar toksA 28 2 [pStarStar, pStarOpt, pStarPlus, pStarOne] ⟨some 0, [pUnionBar, pConcatTwo]⟩ = .ok (true, ⟨none, [pUnionBar, pConcatTwo, pStarOne, pItemChar]⟩) := alts_fail_step 27 h5 h23
  have h25 : matchNonTerminal regexGrammar toksA 29 "STAR" ⟨some 0, [pUnionBar, pConcatTwo]⟩ = .ok (true, ⟨none, [pUnionBar, pConcatTwo, pStarOne, pItemChar]⟩) := nt_eval 28 rfl h24
  have h26 : matchElement regexGrammar toksA 30 (.nonterm "STAR") ⟨some 0, [pUnionBar, pConcatTwo]⟩ = .ok (true, ⟨none, [pUnionBar, pConcatTwo, pStarOne, pItemChar]⟩) := elem_nt_eval 29 h25
  have h27 : matchNonTerminal regexGrammar toksA 18 "ITEM" ⟨none, [pUnionBar, pConcatTwo, pStarOne, pItemChar, pConcatTwo, pStarStar]⟩ = .ok (false, ⟨none, [pUnionBar, pConcatTwo, pStarOne, pItemChar, pConcatTwo, pStarStar]⟩) := rfl
  have h28 : matchElement regexGrammar toksA 19 (.nonterm "ITEM") ⟨none, [pUnionBar, pConcatTwo, pStarOne, pItemChar, pConcatTwo, pStarStar]⟩ = .ok (false, ⟨none, [pUnionBar, pConcatTwo, pStarOne, pItemChar, pConcatTwo, pStarStar]⟩) := elem_nt_eval 18 h27
  have h29 : matchElements regexGrammar toksA 20 none [(.nonterm "ITEM"), (.term "*")] ⟨none, [pUnionBar, pConcatTwo, pStarOne, pItemChar, pConcatTwo, pStarStar]⟩ = .ok (false, ⟨none, [pUnionBar, pConcatTwo, pStarOne, pItemChar, pConcatTwo, pStarStar]⟩) := elems_false_step 19 h28
  have h30 : matchProduction regexGrammar toksA 21 pStarStar ⟨none, [pUnionBar, pConcatTwo, pStarOne, pItemChar, pConcatTwo, pStarStar]⟩ = .ok (false, ⟨none, [pUnionBar, pConcatTwo, pStarOne, pItemChar, pConcatTwo, pStarStar]⟩) := prod_eval 20 h29
  have h31 : matchNonTerminal regexGrammar toksA 17 "ITEM" ⟨none, [pUnionBar, pConcatTwo, pStarOne, pItemChar, pConcatTwo, pStarOpt]⟩ = .ok (false, ⟨none, [pUnionBar, pConcatTwo, pStarOne, pItemChar, pConcatTwo, pStarOpt]⟩) := rfl
  have h32 : matchElement regexGrammar toksA 18 (.nonterm "ITEM") ⟨none, [pUnionBar, pConcatTwo, pStarOne, pItemChar, pConcatTwo, pStarOpt]⟩ = .ok (false, ⟨none, [pUnionBar, pConcatTwo, pStarOne, pItemChar, pConcatTwo, pStarOpt]⟩) := elem_nt_eval 17 h31
  have h33 : matchElements regexGrammar toksA 19 none [(.nonterm "ITEM"), (.term "?")] ⟨none, [pUnionBar, pConcatTwo, pStarOne, pItemChar, pConcatTwo, pStarOpt]⟩ = .ok (false, ⟨none, [pUnionBar, pConcatTwo, pStarOne, pItemChar, pConcatTwo, pStarOpt]⟩) := elems_false_step 18 h32
  have h34 : matchProduction regexGrammar toksA 20 pStarOpt ⟨none, [pUnionBar, pConcatTwo, pStarOne, pItemChar, pConcatTwo, pStarOpt]⟩ = .ok (false, ⟨none, [pUnionBar, pConcatTwo, pStarOne, pItemChar, pConcatTwo, pStarOpt]⟩) := prod_eval 19 h33
  have h35 : matchNonTerminal regexGrammar toksA 16 "ITEM" ⟨none, [pUnionBar, pConcatTwo, pStarOne, pItemChar, pConcatTwo, pStarPlus]⟩ = .ok (false, ⟨none, [pUnionBar, pConcatTwo, pStarOne, pItemChar, pConcatTwo, pStarPlus]⟩) := rfl
  have h36 : matchElement regexGrammar toksA 17 (.nonterm "ITEM") ⟨none, [pUnionBar, pConcatTwo, pStarOne, pItemChar, pConcatTwo, pStarPlus]⟩ = .ok (false, ⟨none, [pUnionBar, pConcatTwo, pStarOne, pItemChar, pConcatTwo, pStarPlus]⟩) := elem_nt_eval 16 h35
  have h37 : matchElements regexGrammar toksA 18 none [(.nonterm "ITEM"), (.term "+")] ⟨none, [pUnionBar, pConcatTwo, pStarOne, pItemChar, pConcatTwo, pStarPlus]⟩ = .ok (false, ⟨none, [pUnionBar, pConcatTwo, pStarOne, pItemChar, pConcatTwo, pStarPlus]⟩) := elems_false_step 17 h36
  have h38 : matchProduction regexGrammar toksA 19 pStarPlus ⟨none, [pUnionBar, pConcatTwo, pStarOne, pItemChar, pConcatTwo, pStarPlus]⟩ = .ok (false, ⟨none, [pUnionBar, pConcatTwo, pStarOne, pItemChar, pConcatTwo, pStarPlus]⟩) := prod_eval 18 h37
  have h39 : matchNonTerminal regexGrammar toksA 15 "ITEM" ⟨none, [pUnionBar, pConcatTwo, pStarOne, pItemChar, pConcatTwo, pStarOne]⟩ = .ok (false, ⟨none, [pUnionBar, pConcatTwo, pStarOne, pItemChar, pConcatTwo, pStarOne]⟩) := rfl
  have h40 : matchElement regexGrammar toksA 16 (.nonterm "ITEM") ⟨none, [pUnionBar, pConcatTwo, pStarOne, pItemChar, pConcatTwo, pStarOne]⟩ = .ok (false, ⟨none, [pUnionBar, pConcatTwo, pStarOne, pItemChar, pConcatTwo, pStarOne]⟩) := elem_nt_eval 15 h39
  have h41 : matchElements regexGrammar toksA 17 none [(.nonterm "ITEM")] ⟨none, [pUnionBar, pConcatTwo, pStarOne, pItemChar, pConcatTwo, pStarOne]⟩ = .ok (false, ⟨none, [pUnionBar, pConcatTwo, pStarOne, pItemChar, pConcatTwo, pStarOne]⟩) := elems_false_step 16 h40
  have h42 : matchProduction regexGrammar toksA 18 pStarOne ⟨none, [pUnionBar, pConcatTwo, pStarOne, pItemChar, pConcatTwo, pStarOne]⟩ = .ok (false, ⟨none, [pUnionBar, pConcatTwo, pStarOne, pItemChar, pConcatTwo, pStarOne]⟩) := prod_eval 17 h41
  have h43 : matchAlternatives regexGrammar toksA 18 5 [] ⟨none, [pUnionBar, pConcatTwo, pStarOne, pItemChar, pConcatTwo]⟩ = .ok (false, ⟨none, [pUnionBar, pConcatTwo, pStarOne, pItemChar, pConcatTwo]⟩) := rfl
  have h44 : matchAlternatives regexGrammar toksA 19 5 [pStarOne] ⟨none, [pUnionBar, pConcatTwo, pStarOne, pItemChar, pConcatTwo]⟩ = .ok (false, ⟨none, [pUnionBar, pConcatTwo, pStarOne, pItemChar, pConcatTwo]⟩) := alts_fail_step 18 h42 h43
  have h45 : matchAlternatives regexGrammar toksA 20 5 [pStarPlus, pStarOne] ⟨none, [pUnionBar, pConcatTwo, pStarOne, pItemChar, pConcatTwo]⟩ = .ok (false, ⟨none, [pUnionBar, pConcatTwo, pStarOne, pItemChar, pConcatTwo]⟩) := alts_fail_step 19 h38 h44
  have h46 : matchAlternatives regexGrammar toksA 21 5 [pStarOpt, pStarPlus, pStarOne] ⟨none, [pUnionBar, pConcatTwo, pStarOne, pItemChar, pConcatTwo]⟩ = .ok (false, ⟨none, [pUnionBar, pConcatTwo, pStarOne, pItemChar, pConcatTwo]⟩) := alts_fail_step 20 h34 h45
  have h47 : matchAlternatives regexGrammar toksA 22 5 [pStarStar, pStarOpt, pStarPlus, pStarOne] ⟨none, [pUnionBar, pConcatTwo, pStarOne, pItemChar, pConcatTwo]⟩ = .ok (false, ⟨none, [pUnionBar, pConcatTwo, pStarOne, pItemChar, pConcatTwo]⟩) := alts_fail_step 21 h30 h46
  have h48 : matchNonTerminal regexGrammar toksA 23 "STAR" ⟨none, [pUnionBar, pConcatTwo, pStarOne, pItemChar, pConcatTwo]⟩ = .ok (false, ⟨none, [pUnionBar, pConcatTwo, pStarOne, pItemChar, pConcatTwo]⟩) := nt_eval 22 rfl h47
  have h49 : matchElement regexGrammar toksA 24 (.nonterm "STAR") ⟨none, [pUnionBar, pConcatTwo, pStarOne, pItemChar, pConcatTwo]⟩ = .ok (false, ⟨none, [pUnionBar, pConcatTwo, pStarOne, pItemChar, pConcatTwo]⟩) := elem_nt_eval 23 h48
  have h50 : matchElements regexGrammar toksA 25 none [(.nonterm "STAR"), (.nonterm "CONCAT")] ⟨none, [pUnionBar, pConcatTwo, pStarOne, pItemChar, pConcatTwo]⟩ = .ok (false, ⟨none, [pUnionBar, pConcatTwo, pStarOne, pItemChar, pConcatTwo]⟩) := elems_false_step 24 h49
  have h51 : matchProduction regexGrammar toksA 26 pConcatTwo ⟨none, [pUnionBar, pConcatTwo, pStarOne, pItemChar, pConcatTwo]⟩ = .ok (false, ⟨none, [pUnionBar, pConcatTwo, pStarOne, pItemChar, pConcatTwo]⟩) := prod_eval 25 h50
  have h52 : matchNonTerminal regexGrammar toksA 17 "ITEM" ⟨none, [pUnionBar, pConcatTwo, pStarOne, pItemChar, pConcatOne, pStarStar]⟩ = .ok (false, ⟨none, [pUnionBar, pConcatTwo, pStarOne, pItemChar, pConcatOne, pStarStar]⟩) := rfl
  have h53 : matchElement regexGrammar toksA 18 (.nonterm "ITEM") ⟨none, [pUnionBar, pConcatTwo, pStarOne, pItemChar, pConcatOne, pStarStar]⟩ = .ok (false, ⟨none, [pUnionBar, pConcatTwo, pStarOne, pItemChar, pConcatOne, pStarStar]⟩) := elem_nt_eval 17 h52
  have h54 : matchElements regexGrammar toksA 19 none [(.nonterm "ITEM"), (.term "*")] ⟨none, [pUnionBar, pConcatTwo, pStarOne, pItemChar, pConcatOne, pStarStar]⟩ = .ok (false, ⟨none, [pUnionBar, pConcatTwo, pStarOne, pItemChar, pConcatOne, pStarStar]⟩) := elems_false_step 18 h53
  have h55 : matchProduction regexGrammar toksA 20 pStarStar ⟨none, [pUnionBar, pConcatTwo, pStarOne, pItemChar, pConcatOne, pStarStar]⟩ = .ok (false, ⟨none, [pUnionBar, pConcatTwo, pStarOne, pItemChar, pConcatOne, pStarStar]⟩) := prod_eval 19 h54
  have h56 : matchNonTerminal regexGrammar toksA 16 "ITEM" ⟨none, [pUnionBar, pConcatTwo, pStarOne, pItemChar, pConcatOne, pStarOpt]⟩ = .ok (false, ⟨none, [pUnionBar, pConcatTwo, pStarOne, pItemChar, pConcatOne, pStarOpt]⟩) := rfl
  have h57 : matchElement regexGrammar toksA 17 (.nonterm "ITEM") ⟨none, [pUnionBar, pConcatTwo, pStarOne, pItemChar, pConcatOne, pStarOpt]⟩ = .ok (false, ⟨none, [pUnionBar, pConcatTwo, pStarOne, pItemChar, pConcatOne, pStarOpt]⟩) := elem_nt_eval 16 h56
  have h58 : matchElements regexGrammar toksA 18 none [(.nonterm "ITEM"), (.term "?")] ⟨none, [pUnionBar, pConcatTwo, pStarOne, pItemChar, pConcatOne, pStarOpt]⟩ = .ok (false, ⟨none, [pUnionBar, pConcatTwo, pStarOne, pItemChar, pConcatOne, pStarOpt]⟩) := elems_false_step 17 h57
  have h59 : matchProduction regexGrammar toksA 19 pStarOpt ⟨none, [pUnionBar, pConcatTwo, pStarOne, pItemChar, pConcatOne, pStarOpt]⟩ = .ok (false, ⟨none, [pUnionBar, pConcatTwo, pStarOne, pItemChar, pConcatOne, pStarOpt]⟩) := prod_eval 18 h58
  have h60 : matchNonTerminal regexGrammar toksA 15 "ITEM" ⟨none, [pUnionBar, pConcatTwo, pStarOne, pItemChar, pConcatOne, pStarPlus]⟩ = .ok (false, ⟨none, [pUnionBar, pConcatTwo, pStarOne, pItemChar, pConcatOne, pStarPlus]⟩) := rfl
  have h61 : matchElement regexGrammar toksA 16 (.nonterm "ITEM") ⟨none, [pUnionBar, pConcatTwo, pStarOne, pItemChar, pConcatOne, pStarPlus]⟩ = .ok (false, ⟨none, [pUnionBar, pConcatTwo, pStarOne, pItemChar, pConcatOne, pStarPlus]⟩) := elem_nt_eval 15 h60
  have h62 : matchElements regexGrammar toksA 17 none [(.nonterm "ITEM"), (.term "+")] ⟨none, [pUnionBar, pConcatTwo, pStarOne, pItemChar, pConcatOne, pStarPlus]⟩ = .ok (false, ⟨none, [pUnionBar, pConcatTwo, pStarOne, pItemChar, pConcatOne, pStarPlus]⟩) := elems_false_step 16 h61
  have h63 : matchProduction regexGrammar toksA 18 pStarPlus ⟨none, [pUnionBar, pConcatTwo, pStarOne, pItemChar, pConcatOne, pStarPlus]⟩ = .ok (false, ⟨none, [pUnionBar, pConcatTwo, pStarOne, pItemChar, pConcatOne, pStarPlus]⟩) := prod_eval 17 h62
  have h64 : matchNonTerminal regexGrammar toksA 14 "ITEM" ⟨none, [pUnionBar, pConcatTwo, pStarOne, pItemChar, pConcatOne, pStarOne]⟩ = .ok (false, ⟨none, [pUnionBar, pConcatTwo, pStarOne, pItemChar, pConcatOne, pStarOne]⟩) := rfl
  have h65 : matchElement regexGrammar toksA 15 (.nonterm "ITEM") ⟨none, [pUnionBar, pConcatTwo, pStarOne, pItemChar, pConcatOne, pStarOne]⟩ = .ok (false, ⟨none, [pUnionBar, pConcatTwo, pStarOne, pItemChar, pConcatOne, pStarOne]⟩) := elem_nt_eval 14 h64
  have h66 : matchElements regexGrammar toksA 16 none [(.nonterm "ITEM")] ⟨none, [pUnionBar, pConcatTwo, pStarOne, pItemChar, pConcatOne, pStarOne]⟩ = .ok (false, ⟨none, [pUnionBar, pConcatTwo, pStarOne, pItemChar, pConcatOne, pStarOne]⟩) := elems_false_step 15 h65
  have h67 : matchProduction regexGrammar toksA 17 pStarOne ⟨none, [pUnionBar, pConcatTwo, pStarOne, pItemChar, pConcatOne, pStarOne]⟩ = .ok (false, ⟨none, [pUnionBar, pConcatTwo, pStarOne, pItemChar, pConcatOne, pStarOne]⟩) := prod_eval 16 h66
  have h68 : matchAlternatives regexGrammar toksA 17 5 [] ⟨none, [pUnionBar, pConcatTwo, pStarOne, pItemChar, pConcatOne]⟩ = .ok (false, ⟨none, [pUnionBar, pConcatTwo, pStarOne, pItemChar, pConcatOne]⟩) := rfl
  have h69 : matchAlternatives regexGrammar toksA 18 5 [pStarOne] ⟨none, [pUnionBar, pConcatTwo, pStarOne, pItemChar, pConcatOne]⟩ = .ok (false, ⟨none, [pUnionBar, pConcatTwo, pStarOne, pItemChar, pConcatOne]⟩) := alts_fail_step 17 h67 h68
  have h70 : matchAlternatives regexGrammar toksA 19 5 [pStarPlus, pStarOne] ⟨none, [pUnionBar, pConcatTwo, pStarOne, pItemChar, pConcatOne]⟩ = .ok (false, ⟨none, [pUnionBar, pConcatTwo, pStarOne, pItemChar, pConcatOne]⟩) := alts_fail_step 18 h63 h69
  have h71 : matchAlternatives regexGrammar toksA 20 5 [pStarOpt, pStarPlus, pStarOne] ⟨none, [pUnionBar, pConcatTwo, pStarOne, pItemChar, pConcatOne]⟩ = .ok (false, ⟨none, [pUnionBar, pConcatTwo, pStarOne, pItemChar, pConcatOne]⟩) := alts_fail_step 19 h59 h70
  have h72 : matchAlternatives regexGrammar toksA 21 5 [pStarStar, pStarOpt, pStarPlus, pStarOne] ⟨none, [pUnionBar, pConcatTwo, pStarOne, pItemChar, pConcatOne]⟩ = .ok (false, ⟨none, [pUnionBar, pConcatTwo, pStarOne, pItemChar, pConcatOne]⟩) := alts_fail_step 20 h55 h71
  have h73 : matchNonTerminal regexGrammar toksA 22 "STAR" ⟨none, [pUnionBar, pConcatTwo, pStarOne, pItemChar, pConcatOne]⟩ = .ok (false, ⟨none, [pUnionBar, pConcatTwo, pStarOne, pItemChar, pConcatOne]⟩) := nt_eval 21 rfl h72
  have h74 : matchElement regexGrammar toksA 23 (.nonterm "STAR") ⟨none, [pUnionBar, pConcatTwo, pStarOne, pItemChar, pConcatOne]⟩ = .ok (false, ⟨none, [pUnionBar, pConcatTwo, pStarOne, pItemChar, pConcatOne]⟩) := elem_nt_eval 22 h73
  have h75 : matchElements regexGrammar toksA 24 none [(.nonterm "STAR")] ⟨none, [pUnionBar, pConcatTwo, pStarOne, pItemChar, pConcatOne]⟩ = .ok (false, ⟨none, [pUnionBar, pConcatTwo, pStarOne, pItemChar, pConcatOne]⟩) := elems_false_step 23 h74
  have h76 : matchProduction regexGrammar toksA 25 pConcatOne ⟨none, [pUnionBar, pConcatTwo, pStarOne, pItemChar, pConcatOne]⟩ = .ok (false, ⟨none, [pUnionBar, pConcatTwo, pStarOne, pItemChar, pConcatOne]⟩) := prod_eval 24 h75
  have h77 : matchAlternatives regexGrammar toksA 25 4 [] ⟨none, [pUnionBar, pConcatTwo, pStarOne, pItemChar]⟩ = .ok (false, ⟨none, [pUnionBar, pConcatTwo, pStarOne, pItemChar]⟩) := rfl
  have h78 : matchAlternatives regexGrammar toksA 26 4 [pConcatOne] ⟨none, [pUnionBar, pConcatTwo, pStarOne, pItemChar]⟩ = .ok (false, ⟨none, [pUnionBar, pConcatTwo, pStarOne, pItemChar]⟩) := alts_fail_step 25 h76 h77
  have h79 : matchAlternatives regexGrammar toksA 27 4 [pConcatTwo, pConcatOne] ⟨none, [pUnionBar, pConcatTwo, pStarOne, pItemChar]⟩ = .ok (false, ⟨none, [pUnionBar, pConcatTwo, pStarOne, pItemChar]⟩) := alts_fail_step 26 h51 h78
  have h80 : matchNonTerminal regexGrammar toksA 28 "CONCAT" ⟨none, [pUnionBar, pConcatTwo, pStarOne, pItemChar]⟩ = .ok (false, ⟨none, [pUnionBar, pConcatTwo, pStarOne, pItemChar]⟩) := nt_eval 27 rfl h79
  have h81 : matchElement regexGrammar toksA 29 (.nonterm "CONCAT") ⟨none, [pUnionBar, pConcatTwo, pStarOne, pItemChar]⟩ = .ok (false, ⟨none, [pUnionBar, pConcatTwo, pStarOne, pItemChar]⟩) := elem_nt_eval 28 h80
  have h82 : matchElements regexGrammar toksA 30 (some 0) [(.nonterm "CONCAT")] ⟨none, [pUnionBar, pConcatTwo, pStarOne, pItemChar]⟩ = .ok (false, ⟨some 0, [pUnionBar, pConcatTwo, pStarOne, pItemChar]⟩) := elems_false_step 29 h81
  have h83 : matchElements regexGrammar toksA 31 (some 0) [(.nonterm "STAR"), (.nonterm "CONCAT")] ⟨some 0, [pUnionBar, pConcatTwo]⟩ = .ok (false, ⟨some 0, [pUnionBar, pConcatTwo, pStarOne, pItemChar]⟩) := elems_true_step 30 h26 h82
  have h84 : matchProduction regexGrammar toksA 32 pConcatTwo ⟨some 0, [pUnionBar, pConcatTwo]⟩ = .ok (false, ⟨some 0, [pUnionBar, pConcatTwo, pStarOne, pItemChar]⟩) := prod_eval 31 h83
  have h85 : matchNonTerminal regexGrammar toksA 23 "ITEM" ⟨some 0, [pUnionBar, pConcatOne, pStarStar]⟩ = .ok (true, ⟨none, [pUnionBar, pConcatOne, pStarStar, pItemChar]⟩) := rfl
  have h86 : matchElement regexGrammar toksA 24 (.nonterm "ITEM") ⟨some 0, [pUnionBar, pConcatOne, pStarStar]⟩ = .ok (true, ⟨none, [pUnionBar, pConcatOne, pStarStar, pItemChar]⟩) := elem_nt_eval 23 h85
  have h87 : matchElements regexGrammar toksA 24 (some 0) [(.term "*")] ⟨none, [pUnionBar, pConcatOne, pStarStar, pItemChar]⟩ = .ok (false, ⟨some 0, [pUnionBar, pConcatOne, pStarStar, pItemChar]⟩) := rfl
  have h88 : matchElements regexGrammar toksA 25 (some 0) [(.nonterm "ITEM"), (.term "*")] ⟨some 0, [pUnionBar, pConcatOne, pStarStar]⟩ = .ok (false, ⟨some 0, [pUnionBar, pConcatOne, pStarStar, pItemChar]⟩) := elems_true_step 24 h86 h87
  have h89 : matchProduction regexGrammar toksA 26 pStarStar ⟨some 0, [pUnionBar, pConcatOne, pStarStar]⟩ = .ok (false, ⟨some 0, [pUnionBar, pConcatOne, pStarStar, pItemChar]⟩) := prod_eval 25 h88
  have h90 : matchNonTerminal regexGrammar toksA 22 "ITEM" ⟨some 0, [pUnionBar, pConcatOne, pStarOpt]⟩ = .ok (true, ⟨none, [pUnionBar, pConcatOne, pStarOpt, pItemChar]⟩) := rfl
  have h91 : matchElement regexGrammar toksA 23 (.nonterm "ITEM") ⟨some 0, [pUnionBar, pConcatOne, pStarOpt]⟩ = .ok (true, ⟨none, [pUnionBar, pConcatOne, pStarOpt, pItemChar]⟩) := elem_nt_eval 22 h90
  have h92 : matchElements regexGrammar toksA 23 (some 0) [(.term "?")] ⟨none, [pUnionBar, pConcatOne, pStarOpt, pItemChar]⟩ = .ok (false, ⟨some 0, [pUnionBar, pConcatOne, pStarOpt, pItemChar]⟩) := rfl
  have h93 : matchElements regexGrammar toksA 24 (some 0) [(.nonterm "ITEM"), (.term "?")] ⟨some 0, [pUnionBar, pConcatOne, pStarOpt]⟩ = .ok (false, ⟨some 0, [pUnionBar, pConcatOne, pStarOpt, pItemChar]⟩) := elems_true_step 23 h91 h92
  have h94 : matchProduction regexGrammar toksA 25 pStarOpt ⟨some 0, [pUnionBar, pConcatOne, pStarOpt]⟩ = .ok (false, ⟨some 0, [pUnionBar, pConcatOne, pStarOpt, pItemChar]⟩) := prod_eval 24 h93
  have h95 : matchNonTerminal regexGrammar toksA 21 "ITEM" ⟨some 0, [pUnionBar, pConcatOne, pStarPlus]⟩ = .ok (true, ⟨none, [pUnionBar, pConcatOne, pStarPlus, pItemChar]⟩) := rfl
  have h96 : matchElement regexGrammar toksA 22 (.nonterm "ITEM") ⟨some 0, [pUnionBar, pConcatOne, pStarPlus]⟩ = .ok (true, ⟨none, [pUnionBar, pConcatOne, pStarPlus, pItemChar]⟩) := elem_nt_eval 21 h95
  have h97 : matchElements regexGrammar toksA 22 (some 0) [(.term "+")] ⟨none, [pUnionBar, pConcatOne, pStarPlus, pItemChar]⟩ = .ok (false, ⟨some 0, [pUnionBar, pConcatOne, pStarPlus, pItemChar]⟩) := rfl
  have h98 : matchElements regexGrammar toksA 23 (some 0) [(.nonterm "ITEM"), (.term "+")] ⟨some 0, [pUnionBar, pConcatOne, pStarPlus]⟩ = .ok (false, ⟨some 0, [pUnionBar, pConcatOne, pStarPlus, pItemChar]⟩) := elems_true_step 22 h96 h97
  have h99 : matchProduction regexGrammar toksA 24 pStarPlus ⟨some 0, [pUnionBar, pConcatOne, pStarPlus]⟩ = .ok (false, ⟨some 0, [pUnionBar, pConcatOne, pStarPlus, pItemChar]⟩) := prod_eval 23 h98
  have h100 : matchNonTerminal regexGrammar toksA 20 "ITEM" ⟨some 0, [pUnionBar, pConcatOne, pStarOne]⟩ = .ok (true, ⟨none, [pUnionBar, pConcatOne, pStarOne, pItemChar]⟩) := rfl
  have h101 : matchElement regexGrammar toksA 21 (.nonterm "ITEM") ⟨some 0, [pUnionBar, pConcatOne, pStarOne]⟩ = .ok (true, ⟨none, [pUnionBar, pConcatOne, pStarOne, pItemChar]⟩) := elem_nt_eval 20 h100
  have h102 : matchElements regexGrammar toksA 21 (some 0) [] ⟨none, [pUnionBar, pConcatOne, pStarOne, pItemChar]⟩ = .ok (true, ⟨none, [pUnionBar, pConcatOne, pStarOne, pItemChar]⟩) := rfl
  have h103 : matchElements regexGrammar toksA 22 (some 0) [(.nonterm "ITEM")] ⟨some 0, [pUnionBar, pConcatOne, pStarOne]⟩ = .ok (true, ⟨none, [pUnionBar, pConcatOne, pStarOne, pItemChar]⟩) := elems_true_step 21 h101 h102
  have h104 : matchProduction regexGrammar toksA 23 pStarOne ⟨some 0, [pUnionBar, pConcatOne, pStarOne]⟩ = .ok (true, ⟨none, [pUnionBar, pConcatOne, pStarOne, pItemChar]⟩) := prod_eval 22 h103
  have h105 : matchAlternatives regexGrammar toksA 24 2 [pStarOne] ⟨some 0, [pUnionBar, pConcatOne]⟩ = .ok (true, ⟨none, [pUnionBar, pConcatOne, pStarOne, pItemChar]⟩) := alts_succ_step 23 h104
  have h106 : matchAlternatives regexGrammar toksA 25 2 [pStarPlus, pStarOne] ⟨some 0, [pUnionBar, pConcatOne]⟩ = .ok (true, ⟨none, [pUnionBar, pConcatOne, pStarOne, pItemChar]⟩) := alts_fail_step 24 h99 h105
  have h107 : matchAlternatives regexGrammar toksA 26 2 [pStarOpt, pStarPlus, pStarOne] ⟨some 0, [pUnionBar, pConcatOne]⟩ = .ok (true, ⟨none, [pUnionBar, pConcatOne, pStarOne, pItemChar]⟩) := alts_fail_step 25 h94 h106
  have h108 : matchAlternatives regexGrammar toksA 27 2 [pStarStar, pStarOpt, pStarPlus, pStarOne] ⟨some 0, [pUnionBar, pConcatOne]⟩ = .ok (true, ⟨none, [pUnionBar, pConcatOne, pStarOne, pItemChar]⟩) := alts_fail_step 26 h89 h107
  have h109 : matchNonTerminal regexGrammar toksA 28 "STAR" ⟨some 0, [pUnionBar, pConcatOne]⟩ = .ok (true, ⟨none, [pUnionBar, pConcatOne, pStarOne, pItemChar]⟩) := nt_eval 27 rfl h108
  have h110 : matchElement regexGrammar toksA 29 (.nonterm "STAR") ⟨some 0, [pUnionBar, pConcatOne]⟩ = .ok (true, ⟨none, [pUnionBar, pConcatOne, pStarOne, pItemChar]⟩) := elem_nt_eval 28 h109
  have h111 : matchElements regexGrammar toksA 29 (some 0) [] ⟨none, [pUnionBar, pConcatOne, pStarOne, pItemChar]⟩ = .ok (true, ⟨none, [pUnionBar, pConcatOne, pStarOne, pItemChar]⟩) := rfl
  have h112 : matchElements regexGrammar toksA 30 (some 0) [(.nonterm "STAR")] ⟨some 0, [pUnionBar, pConcatOne]⟩ = .ok (true, ⟨none, [pUnionBar, pConcatOne, pStarOne, pItemChar]⟩) := elems_true_step 29 h110 h111
  have h113 : matchProduction regexGrammar toksA 31 pConcatOne ⟨some 0, [pUnionBar, pConcatOne]⟩ = .ok (true, ⟨none, [pUnionBar, pConcatOne, pStarOne, pItemChar]⟩) := prod_eval 30 h112
  have h114 : matchAlternatives regexGrammar toksA 32 1 [pConcatOne] ⟨some 0, [pUnionBar]⟩ = .ok (true, ⟨none, [pUnionBar, pConcatOne, pStarOne, pItemChar]⟩) := alts_succ_step 31 h113
  have h115 : matchAlternatives regexGrammar toksA 33 1 [pConcatTwo, pConcatOne] ⟨some 0, [pUnionBar]⟩ = .ok (true, ⟨none, [pUnionBar, pConcatOne, pStarOne, pItemChar]⟩) := alts_fail_step 32 h84 h114
  have h116 : matchNonTerminal regexGrammar toksA 34 "CONCAT" ⟨some 0, [pUnionBar]⟩ = .ok (true, ⟨none, [pUnionBar, pConcatOne, pStarOne, pItemChar]⟩) := nt_eval 33 rfl h115
  have h117 : matchElement regexGrammar toksA 35 (.nonterm "CONCAT") ⟨some 0, [pUnionBar]⟩ = .ok (true, ⟨none, [pUnionBar, pConcatOne, pStarOne, pItemChar]⟩) := elem_nt_eval 34 h116
  have h118 : matchElements regexGrammar toksA 35 (some 0) [(.term "|"), (.nonterm "UNION")] ⟨none, [pUnionBar, pConcatOne, pStarOne, pItemChar]⟩ = .ok (false, ⟨some 0, [pUnionBar, pConcatOne, pStarOne, pItemChar]⟩) := rfl
  have h119 : matchElements regexGrammar toksA 36 (some 0) [(.nonterm "CONCAT"), (.term "|"), (.nonterm "UNION")] ⟨some 0, [pUnionBar]⟩ = .ok (false, ⟨some 0, [pUnionBar, pConcatOne, pStarOne, pItemChar]⟩) := elems_true_step 35 h117 h118
  have h120 : matchProduction regexGrammar toksA 37 pUnionBar ⟨some 0, [pUnionBar]⟩ = .ok (false, ⟨some 0, [pUnionBar, pConcatOne, pStarOne, pItemChar]⟩) := prod_eval 36 h119
  have h121 : matchNonTerminal regexGrammar toksA 23 "ITEM" ⟨some 0, [pUnionOne, pConcatTwo, pStarStar]⟩ = .ok (true, ⟨none, [pUnionOne, pConcatTwo, pStarStar, pItemChar]⟩) := rfl
  have h122 : matchElement regexGrammar toksA 24 (.nonterm "ITEM") ⟨some 0, [pUnionOne, pConcatTwo, pStarStar]⟩ = .ok (true, ⟨none, [pUnionOne, pConcatTwo, pStarStar, pItemChar]⟩) := elem_nt_eval 23 h121
  have h123 : matchElements regexGrammar toksA 24 (some 0) [(.term "*")] ⟨none, [pUnionOne, pConcatTwo, pStarStar, pItemChar]⟩ = .ok (false, ⟨some 0, [pUnionOne, pConcatTwo, pStarStar, pItemChar]⟩) := rfl
  have h124 : matchElements regexGrammar toksA 25 (some 0) [(.nonterm "ITEM"), (.term "*")] ⟨some 0, [pUnionOne, pConcatTwo, pStarStar]⟩ = .ok (false, ⟨some 0, [pUnionOne, pConcatTwo, pStarStar, pItemChar]⟩) := elems_true_step 24 h122 h123
  have h125 : matchProduction regexGrammar toksA 26 pStarStar ⟨some 0, [pUnionOne, pConcatTwo, pStarStar]⟩ = .ok (false, ⟨some 0, [pUnionOne, pConcatTwo, pStarStar, pItemChar]⟩) := prod_eval 25 h124
  have h126 : matchNonTerminal regexGrammar toksA 22 "ITEM" ⟨some 0, [pUnionOne, pConcatTwo, pStarOpt]⟩ = .ok (true, ⟨none, [pUnionOne, pConcatTwo, pStarOpt, pItemChar]⟩) := rfl
  have h127 : matchElement regexGrammar toksA 23 (.nonterm "ITEM") ⟨some 0, [pUnionOne, pConcatTwo, pStarOpt]⟩ = .ok (true, ⟨none, [pUnionOne, pConcatTwo, pStarOpt, pItemChar]⟩) := elem_nt_eval 22 h126
  have h128 : matchElements regexGrammar toksA 23 (some 0) [(.term "?")] ⟨none, [pUnionOne, pConcatTwo, pStarOpt, pItemChar]⟩ = .ok (false, ⟨some 0, [pUnionOne, pConcatTwo, pStarOpt, pItemChar]⟩) := rfl
  have h129 : matchElements regexGrammar toksA 24 (some 0) [(.nonterm "ITEM"), (.term "?")] ⟨some 0, [pUnionOne, pConcatTwo, pStarOpt]⟩ = .ok (false, ⟨some 0, [pUnionOne, pConcatTwo, pStarOpt, pItemChar]⟩) := elems_true_step 23 h127 h128
  have h130 : matchProduction regexGrammar toksA 25 pStarOpt ⟨some 0, [pUnionOne, pConcatTwo, pStarOpt]⟩ = .ok (false, ⟨some 0, [pUnionOne, pConcatTwo, pStarOpt, pItemChar]⟩) := prod_eval 24 h129
  have h131 : matchNonTerminal regexGrammar toksA 21 "ITEM" ⟨some 0, [pUnionOne, pConcatTwo, pStarPlus]⟩ = .ok (true, ⟨none, [pUnionOne, pConcatTwo, pStarPlus, pItemChar]⟩) := rfl
  have h132 : matchElement regexGrammar toksA 22 (.nonterm "ITEM") ⟨some 0, [pUnionOne, pConcatTwo, pStarPlus]⟩ = .ok (true, ⟨none, [pUnionOne, pConcatTwo, pStarPlus, pItemChar]⟩) := elem_nt_eval 21 h131
  have h133 : matchElements regexGrammar toksA 22 (some 0) [(.term "+")] ⟨none, [pUnionOne, pConcatTwo, pStarPlus, pItemChar]⟩ = .ok (false, ⟨some 0, [pUnionOne, pConcatTwo, pStarPlus, pItemChar]⟩) := rfl
  have h134 : matchElements regexGrammar toksA 23 (some 0) [(.nonterm "ITEM"), (.term "+")] ⟨some 0, [pUnionOne, pConcatTwo, pStarPlus]⟩ = .ok (false, ⟨some 0, [pUnionOne, pConcatTwo, pStarPlus, pItemChar]⟩) := elems_true_step 22 h132 h133
  have h135 : matchProduction regexGrammar toksA 24 pStarPlus ⟨some 0, [pUnionOne, pConcatTwo, pStarPlus]⟩ = .ok (false, ⟨some 0, [pUnionOne, pConcatTwo, pStarPlus, pItemChar]⟩) := prod_eval 23 h134
  have h136 : matchNonTerminal regexGrammar toksA 20 "ITEM" ⟨some 0, [pUnionOne, pConcatTwo, pStarOne]⟩ = .ok (true, ⟨none, [pUnionOne, pConcatTwo, pStarOne, pItemChar]⟩) := rfl
  have h137 : matchElement regexGrammar toksA 21 (.nonterm "ITEM") ⟨some 0, [pUnionOne, pConcatTwo, pStarOne]⟩ = .ok (true, ⟨none, [pUnionOne, pConcatTwo, pStarOne, pItemChar]⟩) := elem_nt_eval 20 h136
  have h138 : matchElements regexGrammar toksA 21 (some 0) [] ⟨none, [pUnionOne, pConcatTwo, pStarOne, pItemChar]⟩ = .ok (true, ⟨none, [pUnionOne, pConcatTwo, pStarOne, pItemChar]⟩) := rfl
  have h139 : matchElements regexGrammar toksA 22 (some 0) [(.nonterm "ITEM")] ⟨some 0, [pUnionOne, pConcatTwo, pStarOne]⟩ = .ok (true, ⟨none, [pUnionOne, pConcatTwo, pStarOne, pItemChar]⟩) := elems_true_step 21 h137 h138
  have h140 : matchProduction regexGrammar toksA 23 pStarOne ⟨some 0, [pUnionOne, pConcatTwo, pStarOne]⟩ = .ok (true, ⟨none, [pUnionOne, pConcatTwo, pStarOne, pItemChar]⟩) := prod_eval 22 h139
  have h141 : matchAlternatives regexGrammar toksA 24 2 [pStarOne] ⟨some 0, [pUnionOne, pConcatTwo]⟩ = .ok (true, ⟨none, [pUnionOne, pConcatTwo, pStarOne, pItemChar]⟩) := alts_succ_step 23 h140
  have h142 : matchAlternatives regexGrammar toksA 25 2 [pStarPlus, pStarOne] ⟨some 0, [pUnionOne, pConcatTwo]⟩ = .ok (true, ⟨none, [pUnionOne, pConcatTwo, pStarOne, pItemChar]⟩) := alts_fail_step 24 h135 h141
  have h143 : matchAlternatives regexGrammar toksA 26 2 [pStarOpt, pStarPlus, pStarOne] ⟨some 0, [pUnionOne, pConcatTwo]⟩ = .ok (true, ⟨none, [pUnionOne, pConcatTwo, pStarOne, pItemChar]⟩) := alts_fail_step 25 h130 h142
  have h144 : matchAlternatives regexGrammar toksA 27 2 [pStarStar, pStarOpt, pStarPlus, pStarOne] ⟨some 0, [pUnionOne, pConcatTwo]⟩ = .ok (true, ⟨none, [pUnionOne, pConcatTwo, pStarOne, pItemChar]⟩) := alts_fail_step 26 h125 h143
  have h145 : matchNonTerminal regexGrammar toksA 28 "STAR" ⟨some 0, [pUnionOne, pConcatTwo]⟩ = .ok (true, ⟨none, [pUnionOne, pConcatTwo, pStarOne, pItemChar]⟩) := nt_eval 27 rfl h144
  have h146 : matchElement regexGrammar toksA 29 (.nonterm "STAR") ⟨some 0, [pUnionOne, pConcatTwo]⟩ = .ok (true, ⟨none, [pUnionOne, pConcatTwo, pStarOne, pItemChar]⟩) := elem_nt_eval 28 h145
  have h147 : matchNonTerminal regexGrammar toksA 17 "ITEM" ⟨none, [pUnionOne, pConcatTwo, pStarOne, pItemChar, pConcatTwo, pStarStar]⟩ = .ok (false, ⟨none, [pUnionOne, pConcatTwo, pStarOne, pItemChar, pConcatTwo, pStarStar]⟩) := rfl
  have h148 : matchElement regexGrammar toksA 18 (.nonterm "ITEM") ⟨none, [pUnionOne, pConcatTwo, pStarOne, pItemChar, pConcatTwo, pStarStar]⟩ = .ok (false, ⟨none, [pUnionOne, pConcatTwo, pStarOne, pItemChar, pConcatTwo, pStarStar]⟩) := elem_nt_eval 17 h147
  have h149 : matchElements regexGrammar toksA 19 none [(.nonterm "ITEM"), (.term "*")] ⟨none, [pUnionOne, pConcatTwo, pStarOne, pItemChar, pConcatTwo, pStarStar]⟩ = .ok (false, ⟨none, [pUnionOne, pConcatTwo, pStarOne, pItemChar, pConcatTwo, pStarStar]⟩) := elems_false_step 18 h148
  have h150 : matchProduction regexGrammar toksA 20 pStarStar ⟨none, [pUnionOne, pConcatTwo, pStarOne, pItemChar, pConcatTwo, pStarStar]⟩ = .ok (false, ⟨none, [pUnionOne, pConcatTwo, pStarOne, pItemChar, pConcatTwo, pStarStar]⟩) := prod_eval 19 h149
  have h151 : matchNonTerminal regexGrammar toksA 16 "ITEM" ⟨none, [pUnionOne, pConcatTwo, pStarOne, pItemChar, pConcatTwo, pStarOpt]⟩ = .ok (false, ⟨none, [pUnionOne, pConcatTwo, pStarOne, pItemChar, pConcatTwo, pStarOpt]⟩) := rfl
  have h152 : matchElement regexGrammar toksA 17 (.nonterm "ITEM") ⟨none, [pUnionOne, pConcatTwo, pStarOne, pItemChar, pConcatTwo, pStarOpt]⟩ = .ok (false, ⟨none, [pUnionOne, pConcatTwo, pStarOne, pItemChar, pConcatTwo, pStarOpt]⟩) := elem_nt_eval 16 h151
  have h153 : matchElements regexGrammar toksA 18 none [(.nonterm "ITEM"), (.term "?")] ⟨none, [pUnionOne, pConcatTwo, pStarOne, pItemChar, pConcatTwo, pStarOpt]⟩ = .ok (false, ⟨none, [pUnionOne, pConcatTwo, pStarOne, pItemChar, pConcatTwo, pStarOpt]⟩) := elems_false_step 17 h152
  have h154 : matchProduction regexGrammar toksA 19 pStarOpt ⟨none, [pUnionOne, pConcatTwo, pStarOne, pItemChar, pConcatTwo, pStarOpt]⟩ = .ok (false, ⟨none, [pUnionOne, pConcatTwo, pStarOne, pItemChar, pConcatTwo, pStarOpt]⟩) := prod_eval 18 h153
  have h155 : matchNonTerminal regexGrammar toksA 15 "ITEM" ⟨none, [pUnionOne, pConcatTwo, pStarOne, pItemChar, pConcatTwo, pStarPlus]⟩ = .ok (false, ⟨none, [pUnionOne, pConcatTwo, pStarOne, pItemChar, pConcatTwo, pStarPlus]⟩) := rfl
  have h156 : matchElement regexGrammar toksA 16 (.nonterm "ITEM") ⟨none, [pUnionOne, pConcatTwo, pStarOne, pItemChar, pConcatTwo, pStarPlus]⟩ = .ok (false, ⟨none, [pUnionOne, pConcatTwo, pStarOne, pItemChar, pConcatTwo, pStarPlus]⟩) := elem_nt_eval 15 h155
  have h157 : matchElements regexGrammar toksA 17 none [(.nonterm "ITEM"), (.term "+")] ⟨none, [pUnionOne, pConcatTwo, pStarOne, pItemChar, pConcatTwo, pStarPlus]⟩ = .ok (false, ⟨none, [pUnionOne, pConcatTwo, pStarOne, pItemChar, pConcatTwo, pStarPlus]⟩) := elems_false_step 16 h156
  have h158 : matchProduction regexGrammar toksA 18 pStarPlus ⟨none, [pUnionOne, pConcatTwo, pStarOne, pItemChar, pConcatTwo, pStarPlus]⟩ = .ok (false, ⟨none, [pUnionOne, pConcatTwo, pStarOne, pItemChar, pConcatTwo, pStarPlus]⟩) := prod_eval 17 h157
  have h159 : matchNonTerminal regexGrammar toksA 14 "ITEM" ⟨none, [pUnionOne, pConcatTwo, pStarOne, pItemChar, pConcatTwo, pStarOne]⟩ = .ok (false, ⟨none, [pUnionOne, pConcatTwo, pStarOne, pItemChar, pConcatTwo, pStarOne]⟩) := rfl
  have h160 : matchElement regexGrammar toksA 15 (.nonterm "ITEM") ⟨none, [pUnionOne, pConcatTwo, pStarOne, pItemChar, pConcatTwo, pStarOne]⟩ = .ok (false, ⟨none, [pUnionOne, pConcatTwo, pStarOne, pItemChar, pConcatTwo, pStarOne]⟩) := elem_nt_eval 14 h159
  have h161 : matchElements regexGrammar toksA 16 none [(.nonterm "ITEM")] ⟨none, [pUnionOne, pConcatTwo, pStarOne, pItemChar, pConcatTwo, pStarOne]⟩ = .ok (false, ⟨none, [pUnionOne, pConcatTwo, pStarOne, pItemChar, pConcatTwo, pStarOne]⟩) := elems_false_step 15 h160
  have h162 : matchProduction regexGrammar toksA 17 pStarOne ⟨none, [pUnionOne, pConcatTwo, pStarOne, pItemChar, pConcatTwo, pStarOne]⟩ = .ok (false, ⟨none, [pUnionOne, pConcatTwo, pStarOne, pItemChar, pConcatTwo, pStarOne]⟩) := prod_eval 16 h161
  have h163 : matchAlternatives regexGrammar toksA 17 5 [] ⟨none, [pUnionOne, pConcatTwo, pStarOne, pItemChar, pConcatTwo]⟩ = .ok (false, ⟨none, [pUnionOne, pConcatTwo, pStarOne, pItemChar, pConcatTwo]⟩) := rfl
  have h164 : matchAlternatives regexGrammar toksA 18 5 [pStarOne] ⟨none, [pUnionOne, pConcatTwo, pStarOne, pItemChar, pConcatTwo]⟩ = .ok (false, ⟨none, [pUnionOne, pConcatTwo, pStarOne, pItemChar, pConcatTwo]⟩) := alts_fail_step 17 h162 h163
  have h165 : matchAlternatives regexGrammar toksA 19 5 [pStarPlus, pStarOne] ⟨none, [pUnionOne, pConcatTwo, pStarOne, pItemChar, pConcatTwo]⟩ = .ok (false, ⟨none, [pUnionOne, pConcatTwo, pStarOne, pItemChar, pConcatTwo]⟩) := alts_fail_step 18 h158 h164
  have h166 : matchAlternatives regexGrammar toksA 20 5 [pStarOpt, pStarPlus, pStarOne] ⟨none, [pUnionOne, pConcatTwo, pStarOne, pItemChar, pConcatTwo]⟩ = .ok (false, ⟨none, [pUnionOne, pConcatTwo, pStarOne, pItemChar, pConcatTwo]⟩) := alts_fail_step 19 h154 h165
  have h167 : matchAlternatives regexGrammar toksA 21 5 [pStarStar, pStarOpt, pStarPlus, pStarOne] ⟨none, [pUnionOne, pConcatTwo, pStarOne, pItemChar, pConcatTwo]⟩ = .ok (false, ⟨none, [pUnionOne, pConcatTwo, pStarOne, pItemChar, pConcatTwo]⟩) := alts_fail_step 20 h150 h166
  have h168 : matchNonTerminal regexGrammar toksA 22 "STAR" ⟨none, [pUnionOne, pConcatTwo, pStarOne, pItemChar, pConcatTwo]⟩ = .ok (false, ⟨none, [pUnionOne, pConcatTwo, pStarOne, pItemChar, pConcatTwo]⟩) := nt_eval 21 rfl h167
  have h169 : matchElement regexGrammar toksA 23 (.nonterm "STAR") ⟨none, [pUnionOne, pConcatTwo, pStarOne, pItemChar, pConcatTwo]⟩ = .ok (false, ⟨none, [pUnionOne, pConcatTwo, pStarOne, pItemChar, pConcatTwo]⟩) := elem_nt_eval 22 h168
  have h170 : matchElements regexGrammar toksA 24 none [(.nonterm "STAR"), (.nonterm "CONCAT")] ⟨none, [pUnionOne, pConcatTwo, pStarOne, pItemChar, pConcatTwo]⟩ = .ok (false, ⟨none, [pUnionOne, pConcatTwo, pStarOne, pItemChar, pConcatTwo]⟩) := elems_false_step 23 h169
  have h171 : matchProduction regexGrammar toksA 25 pConcatTwo ⟨none, [pUnionOne, pConcatTwo, pStarOne, pItemChar, pConcatTwo]⟩ = .ok (false, ⟨none, [pUnionOne, pConcatTwo, pStarOne, pItemChar, pConcatTwo]⟩) := prod_eval 24 h170
  have h172 : matchNonTerminal regexGrammar toksA 16 "ITEM" ⟨none, [pUnionOne, pConcatTwo, pStarOne, pItemChar, pConcatOne, pStarStar]⟩ = .ok (false, ⟨none, [pUnionOne, pConcatTwo, pStarOne, pItemChar, pConcatOne, pStarStar]⟩) := rfl
  have h173 : matchElement regexGrammar toksA 17 (.nonterm "ITEM") ⟨none, [pUnionOne, pConcatTwo, pStarOne, pItemChar, pConcatOne, pStarStar]⟩ = .ok (false, ⟨none, [pUnionOne, pConcatTwo, pStarOne, pItemChar, pConcatOne, pStarStar]⟩) := elem_nt_eval 16 h172
  have h174 : matchElements regexGrammar toksA 18 none [(.nonterm "ITEM"), (.term "*")] ⟨none, [pUnionOne, pConcatTwo, pStarOne, pItemChar, pConcatOne, pStarStar]⟩ = .ok (false, ⟨none, [pUnionOne, pConcatTwo, pStarOne, pItemChar, pConcatOne, pStarStar]⟩) := elems_false_step 17 h173
  have h175 : matchProduction regexGrammar toksA 19 pStarStar ⟨none, [pUnionOne, pConcatTwo, pStarOne, pItemChar, pConcatOne, pStarStar]⟩ = .ok (false, ⟨none, [pUnionOne, pConcatTwo, pStarOne, pItemChar, pConcatOne, pStarStar]⟩) := prod_eval 18 h174
  have h176 : matchNonTerminal regexGrammar toksA 15 "ITEM" ⟨none, [pUnionOne, pConcatTwo, pStarOne, pItemChar, pConcatOne, pStarOpt]⟩ = .ok (false, ⟨none, [pUnionOne, pConcatTwo, pStarOne, pItemChar, pConcatOne, pStarOpt]⟩) := rfl
  have h177 : matchElement regexGrammar toksA 16 (.nonterm "ITEM") ⟨none, [pUnionOne, pConcatTwo, pStarOne, pItemChar, pConcatOne, pStarOpt]⟩ = .ok (false, ⟨none, [pUnionOne, pConcatTwo, pStarOne, pItemChar, pConcatOne, pStarOpt]⟩) := elem_nt_eval 15 h176
  have h178 : matchElements regexGrammar toksA 17 none [(.nonterm "ITEM"), (.term "?")] ⟨none, [pUnionOne, pConcatTwo, pStarOne, pItemChar, pConcatOne, pStarOpt]⟩ = .ok (false, ⟨none, [pUnionOne, pConcatTwo, pStarOne, pItemChar, pConcatOne, pStarOpt]⟩) := elems_false_step 16 h177
  have h179 : matchProduction regexGrammar toksA 18 pStarOpt ⟨none, [pUnionOne, pConcatTwo, pStarOne, pItemChar, pConcatOne, pStarOpt]⟩ = .ok (false, ⟨none, [pUnionOne, pConcatTwo, pStarOne, pItemChar, pConcatOne, pStarOpt]⟩) := prod_eval 17 h178
  have h180 : matchNonTerminal regexGrammar toksA 14 "ITEM" ⟨none, [pUnionOne, pConcatTwo, pStarOne, pItemChar, pConcatOne, pStarPlus]⟩ = .ok (false, ⟨none, [pUnionOne, pConcatTwo, pStarOne, pItemChar, pConcatOne, pStarPlus]⟩) := rfl
  have h181 : matchElement regexGrammar toksA 15 (.nonterm "ITEM") ⟨none, [pUnionOne, pConcatTwo, pStarOne, pItemChar, pConcatOne, pStarPlus]⟩ = .ok (false, ⟨none, [pUnionOne, pConcatTwo, pStarOne, pItemChar, pConcatOne, pStarPlus]⟩) := elem_nt_eval 14 h180
  have h182 : matchElements regexGrammar toksA 16 none [(.nonterm "ITEM"), (.term "+")] ⟨none, [pUnionOne, pConcatTwo, pStarOne, pItemChar, pConcatOne, pStarPlus]⟩ = .ok (false, ⟨none, [pUnionOne, pConcatTwo, pStarOne, pItemChar, pConcatOne, pStarPlus]⟩) := elems_false_step 15 h181
  have h183 : matchProduction regexGrammar toksA 17 pStarPlus ⟨none, [pUnionOne, pConcatTwo, pStarOne, pItemChar, pConcatOne, pStarPlus]⟩ = .ok (false, ⟨none, [pUnionOne, pConcatTwo, pStarOne, pItemChar, pConcatOne, pStarPlus]⟩) := prod_eval 16 h182
  have h184 : matchNonTerminal regexGrammar toksA 13 "ITEM" ⟨none, [pUnionOne, pConcatTwo, pStarOne, pItemChar, pConcatOne, pStarOne]⟩ = .ok (false, ⟨none, [pUnionOne, pConcatTwo, pStarOne, pItemChar, pConcatOne, pStarOne]⟩) := rfl
  have h185 : matchElement regexGrammar toksA 14 (.nonterm "ITEM") ⟨none, [pUnionOne, pConcatTwo, pStarOne, pItemChar, pConcatOne, pStarOne]⟩ = .ok (false, ⟨none, [pUnionOne, pConcatTwo, pStarOne, pItemChar, pConcatOne, pStarOne]⟩) := elem_nt_eval 13 h184
  have h186 : matchElements regexGrammar toksA 15 none [(.nonterm "ITEM")] ⟨none, [pUnionOne, pConcatTwo, pStarOne, pItemChar, pConcatOne, pStarOne]⟩ = .ok (false, ⟨none, [pUnionOne, pConcatTwo, pStarOne, pItemChar, pConcatOne, pStarOne]⟩) := elems_false_step 14 h185
  have h187 : matchProduction regexGrammar toksA 16 pStarOne ⟨none, [pUnionOne, pConcatTwo, pStarOne, pItemChar, pConcatOne, pStarOne]⟩ = .ok (false, ⟨none, [pUnionOne, pConcatTwo, pStarOne, pItemChar, pConcatOne, pStarOne]⟩) := prod_eval 15 h186
  have h188 : matchAlternatives regexGrammar toksA 16 5 [] ⟨none, [pUnionOne, pConcatTwo, pStarOne, pItemChar, pConcatOne]⟩ = .ok (false, ⟨none, [pUnionOne, pConcatTwo, pStarOne, pItemChar, pConcatOne]⟩) := rfl
  have h189 : matchAlternatives regexGrammar toksA 17 5 [pStarOne] ⟨none, [pUnionOne, pConcatTwo, pStarOne, pItemChar, pConcatOne]⟩ = .ok (false, ⟨none, [pUnionOne, pConcatTwo, pStarOne, pItemChar, pConcatOne]⟩) := alts_fail_step 16 h187 h188
  have h190 : matchAlternatives regexGrammar toksA 18 5 [pStarPlus, pStarOne] ⟨none, [pUnionOne, pConcatTwo, pStarOne, pItemChar, pConcatOne]⟩ = .ok (false, ⟨none, [pUnionOne, pConcatTwo, pStarOne, pItemChar, pConcatOne]⟩) := alts_fail_step 17 h183 h189
  have h191 : matchAlternatives regexGrammar toksA 19 5 [pStarOpt, pStarPlus, pStarOne] ⟨none, [pUnionOne, pConcatTwo, pStarOne, pItemChar, pConcatOne]⟩ = .ok (false, ⟨none, [pUnionOne, pConcatTwo, pStarOne, pItemChar, pConcatOne]⟩) := alts_fail_step 18 h179 h190
  have h192 : matchAlternatives regexGrammar toksA 20 5 [pStarStar, pStarOpt, pStarPlus, pStarOne] ⟨none, [pUnionOne, pConcatTwo, pStarOne, pItemChar, pConcatOne]⟩ = .ok (false, ⟨none, [pUnionOne, pConcatTwo, pStarOne, pItemChar, pConcatOne]⟩) := alts_fail_step 19 h175 h191
  have h193 : matchNonTerminal regexGrammar toksA 21 "STAR" ⟨none, [pUnionOne, pConcatTwo, pStarOne, pItemChar, pConcatOne]⟩ = .ok (false, ⟨none, [pUnionOne, pConcatTwo, pStarOne, pItemChar, pConcatOne]⟩) := nt_eval 20 rfl h192
  have h194 : matchElement regexGrammar toksA 22 (.nonterm "STAR") ⟨none, [pUnionOne, pConcatTwo, pStarOne, pItemChar, pConcatOne]⟩ = .ok (false, ⟨none, [pUnionOne, pConcatTwo, pStarOne, pItemChar, pConcatOne]⟩) := elem_nt_eval 21 h193
  have h195 : matchElements regexGrammar toksA 23 none [(.nonterm "STAR")] ⟨none, [pUnionOne, pConcatTwo, pStarOne, pItemChar, pConcatOne]⟩ = .ok (false, ⟨none, [pUnionOne, pConcatTwo, pStarOne, pItemChar, pConcatOne]⟩) := elems_false_step 22 h194
  have h196 : matchProduction regexGrammar toksA 24 pConcatOne ⟨none, [pUnionOne, pConcatTwo, pStarOne, pItemChar, pConcatOne]⟩ = .ok (false, ⟨none, [pUnionOne, pConcatTwo, pStarOne, pItemChar, pConcatOne]⟩) := prod_eval 23 h195
  have h197 : matchAlternatives regexGrammar toksA 24 4 [] ⟨none, [pUnionOne, pConcatTwo, pStarOne, pItemChar]⟩ = .ok (false, ⟨none, [pUnionOne, pConcatTwo, pStarOne, pItemChar]⟩) := rfl
  have h198 : matchAlternatives regexGrammar toksA 25 4 [pConcatOne] ⟨none, [pUnionOne, pConcatTwo, pStarOne, pItemChar]⟩ = .ok (false, ⟨none, [pUnionOne, pConcatTwo, pStarOne, pItemChar]⟩) := alts_fail_step 24 h196 h197
  have h199 : matchAlternatives regexGrammar toksA 26 4 [pConcatTwo, pConcatOne] ⟨none, [pUnionOne, pConcatTwo, pStarOne, pItemChar]⟩ = .ok (false, ⟨none, [pUnionOne, pConcatTwo, pStarOne, pItemChar]⟩) := alts_fail_step 25 h171 h198
  have h200 : matchNonTerminal regexGrammar toksA 27 "CONCAT" ⟨none, [pUnionOne, pConcatTwo, pStarOne, pItemChar]⟩ = .ok (false, ⟨none, [pUnionOne, pConcatTwo, pStarOne, pItemChar]⟩) := nt_eval 26 rfl h199
  have h201 : matchElement regexGrammar toksA 28 (.nonterm "CONCAT") ⟨none, [pUnionOne, pConcatTwo, pStarOne, pItemChar]⟩ = .ok (false, ⟨none, [pUnionOne, pConcatTwo, pStarOne, pItemChar]⟩) := elem_nt_eval 27 h200
  have h202 : matchElements regexGrammar toksA 29 (some 0) [(.nonterm "CONCAT")] ⟨none, [pUnionOne, pConcatTwo, pStarOne, pItemChar]⟩ = .ok (false, ⟨some 0, [pUnionOne, pConcatTwo, pStarOne, pItemChar]⟩) := elems_false_step 28 h201
  have h203 : matchElements regexGrammar toksA 30 (some 0) [(.nonterm "STAR"), (.nonterm "CONCAT")] ⟨some 0, [pUnionOne, pConcatTwo]⟩ = .ok (false, ⟨some 0, [pUnionOne, pConcatTwo, pStarOne, pItemChar]⟩) := elems_true_step 29 h146 h202
  have h204 : matchProduction regexGrammar toksA 31 pConcatTwo ⟨some 0, [pUnionOne, pConcatTwo]⟩ = .ok (false, ⟨some 0, [pUnionOne, pConcatTwo, pStarOne, pItemChar]⟩) := prod_eval 30 h203
  have h205 : matchNonTerminal regexGrammar toksA 22 "ITEM" ⟨some 0, [pUnionOne, pConcatOne, pStarStar]⟩ = .ok (true, ⟨none, [pUnionOne, pConcatOne, pStarStar, pItemChar]⟩) := rfl
  have h206 : matchElement regexGrammar toksA 23 (.nonterm "ITEM") ⟨some 0, [pUnionOne, pConcatOne, pStarStar]⟩ = .ok (true, ⟨none, [pUnionOne, pConcatOne, pStarStar, pItemChar]⟩) := elem_nt_eval 22 h205
  have h207 : matchElements regexGrammar toksA 23 (some 0) [(.term "*")] ⟨none, [pUnionOne, pConcatOne, pStarStar, pItemChar]⟩ = .ok (false, ⟨some 0, [pUnionOne, pConcatOne, pStarStar, pItemChar]⟩) := rfl
  have h208 : matchElements regexGrammar toksA 24 (some 0) [(.nonterm "ITEM"), (.term "*")] ⟨some 0, [pUnionOne, pConcatOne, pStarStar]⟩ = .ok (false, ⟨some 0, [pUnionOne, pConcatOne, pStarStar, pItemChar]⟩) := elems_true_step 23 h206 h207
  have h209 : matchProduction regexGrammar toksA 25 pStarStar ⟨some 0, [pUnionOne, pConcatOne, pStarStar]⟩ = .ok (false, ⟨some 0, [pUnionOne, pConcatOne, pStarStar, pItemChar]⟩) := prod_eval 24 h208
  have h210 : matchNonTerminal regexGrammar toksA 21 "ITEM" ⟨some 0, [pUnionOne, pConcatOne, pStarOpt]⟩ = .ok (true, ⟨none, [pUnionOne, pConcatOne, pStarOpt, pItemChar]⟩) := rfl
  have h211 : matchElement regexGrammar toksA 22 (.nonterm "ITEM") ⟨some 0, [pUnionOne, pConcatOne, pStarOpt]⟩ = .ok (true, ⟨none, [pUnionOne, pConcatOne, pStarOpt, pItemChar]⟩) := elem_nt_eval 21 h210
  have h212 : matchElements regexGrammar toksA 22 (some 0) [(.term "?")] ⟨none, [pUnionOne, pConcatOne, pStarOpt, pItemChar]⟩ = .ok (false, ⟨some 0, [pUnionOne, pConcatOne, pStarOpt, pItemChar]⟩) := rfl
  have h213 : matchElements regexGrammar toksA 23 (some 0) [(.nonterm "ITEM"), (.term "?")] ⟨some 0, [pUnionOne, pConcatOne, pStarOpt]⟩ = .ok (false, ⟨some 0, [pUnionOne, pConcatOne, pStarOpt, pItemChar]⟩) := elems_true_step 22 h211 h212
  have h214 : matchProduction regexGrammar toksA 24 pStarOpt ⟨some 0, [pUnionOne, pConcatOne, pStarOpt]⟩ = .ok (false, ⟨some 0, [pUnionOne, pConcatOne, pStarOpt, pItemChar]⟩) := prod_eval 23 h213
  have h215 : matchNonTerminal regexGrammar toksA 20 "ITEM" ⟨some 0, [pUnionOne, pConcatOne, pStarPlus]⟩ = .ok (true, ⟨none, [pUnionOne, pConcatOne, pStarPlus, pItemChar]⟩) := rfl
  have h216 : matchElement regexGrammar toksA 21 (.nonterm "ITEM") ⟨some 0, [pUnionOne, pConcatOne, pStarPlus]⟩ = .ok (true, ⟨none, [pUnionOne, pConcatOne, pStarPlus, pItemChar]⟩) := elem_nt_eval 20 h215
  have h217 : matchElements regexGrammar toksA 21 (some 0) [(.term "+")] ⟨none, [pUnionOne, pConcatOne, pStarPlus, pItemChar]⟩ = .ok (false, ⟨some 0, [pUnionOne, pConcatOne, pStarPlus, pItemChar]⟩) := rfl
  have h218 : matchElements regexGrammar toksA 22 (some 0) [(.nonterm "ITEM"), (.term "+")] ⟨some 0, [pUnionOne, pConcatOne, pStarPlus]⟩ = .ok (false, ⟨some 0, [pUnionOne, pConcatOne, pStarPlus, pItemChar]⟩) := elems_true_step 21 h216 h217
  have h219 : matchProduction regexGrammar toksA 23 pStarPlus ⟨some 0, [pUnionOne, pConcatOne, pStarPlus]⟩ = .ok (false, ⟨some 0, [pUnionOne, pConcatOne, pStarPlus, pItemChar]⟩) := prod_eval 22 h218
  have h220 : matchNonTerminal regexGrammar toksA 19 "ITEM" ⟨some 0, [pUnionOne, pConcatOne, pStarOne]⟩ = .ok (true, ⟨none, [pUnionOne, pConcatOne, pStarOne, pItemChar]⟩) := rfl
  have h221 : matchElement regexGrammar toksA 20 (.nonterm "ITEM") ⟨some 0, [pUnionOne, pConcatOne, pStarOne]⟩ = .ok (true, ⟨none, [pUnionOne, pConcatOne, pStarOne, pItemChar]⟩) := elem_nt_eval 19 h220
  have h222 : matchElements regexGrammar toksA 20 (some 0) [] ⟨none, [pUnionOne, pConcatOne, pStarOne, pItemChar]⟩ = .ok (true, ⟨none, [pUnionOne, pConcatOne, pStarOne, pItemChar]⟩) := rfl
  have h223 : matchElements regexGrammar toksA 21 (some 0) [(.nonterm "ITEM")] ⟨some 0, [pUnionOne, pConcatOne, pStarOne]⟩ = .ok (true, ⟨none, [pUnionOne, pConcatOne, pStarOne, pItemChar]⟩) := elems_true_step 20 h221 h222
  have h224 : matchProduction regexGrammar toksA 22 pStarOne ⟨some 0, [pUnionOne, pConcatOne, pStarOne]⟩ = .ok (true, ⟨none, [pUnionOne, pConcatOne, pStarOne, pItemChar]⟩) := prod_eval 21 h223
  have h225 : matchAlternatives regexGrammar toksA 23 2 [pStarOne] ⟨some 0, [pUnionOne, pConcatOne]⟩ = .ok (true, ⟨none, [pUnionOne, pConcatOne, pStarOne, pItemChar]⟩) := alts_succ_step 22 h224
  have h226 : matchAlternatives regexGrammar toksA 24 2 [pStarPlus, pStarOne] ⟨some 0, [pUnionOne, pConcatOne]⟩ = .ok (true, ⟨none, [pUnionOne, pConcatOne, pStarOne, pItemChar]⟩) := alts_fail_step 23 h219 h225
  have h227 : matchAlternatives regexGrammar toksA 25 2 [pStarOpt, pStarPlus, pStarOne] ⟨some 0, [pUnionOne, pConcatOne]⟩ = .ok (true, ⟨none, [pUnionOne, pConcatOne, pStarOne, pItemChar]⟩) := alts_fail_step 24 h214 h226
  have h228 : matchAlternatives regexGrammar toksA 26 2 [pStarStar, pStarOpt, pStarPlus, pStarOne] ⟨some 0, [pUnionOne, pConcatOne]⟩ = .ok (true, ⟨none, [pUnionOne, pConcatOne, pStarOne, pItemChar]⟩) := alts_fail_step 25 h209 h227
  have h229 : matchNonTerminal regexGrammar toksA 27 "STAR" ⟨some 0, [pUnionOne, pConcatOne]⟩ = .ok (true, ⟨none, [pUnionOne, pConcatOne, pStarOne, pItemChar]⟩) := nt_eval 26 rfl h228
  have h230 : matchElement regexGrammar toksA 28 (.nonterm "STAR") ⟨some 0, [pUnionOne, pConcatOne]⟩ = .ok (true, ⟨none, [pUnionOne, pConcatOne, pStarOne, pItemChar]⟩) := elem_nt_eval 27 h229
  have h231 : matchElements regexGrammar toksA 28 (some 0) [] ⟨none, [pUnionOne, pConcatOne, pStarOne, pItemChar]⟩ = .ok (true, ⟨none, [pUnionOne, pConcatOne, pStarOne, pItemChar]⟩) := rfl
  have h232 : matchElements regexGrammar toksA 29 (some 0) [(.nonterm "STAR")] ⟨some 0, [pUnionOne, pConcatOne]⟩ = .ok (true, ⟨none, [pUnionOne, pConcatOne, pStarOne, pItemChar]⟩) := elems_true_step 28 h230 h231
  have h233 : matchProduction regexGrammar toksA 30 pConcatOne ⟨some 0, [pUnionOne, pConcatOne]⟩ = .ok (true, ⟨none, [pUnionOne, pConcatOne, pStarOne, pItemChar]⟩) := prod_eval 29 h232
  have h234 : matchAlternatives regexGrammar toksA 31 1 [pConcatOne] ⟨some 0, [pUnionOne]⟩ = .ok (true, ⟨none, [pUnionOne, pConcatOne, pStarOne, pItemChar]⟩) := alts_succ_step 30 h233
  have h235 : matchAlternatives regexGrammar toksA 32 1 [pConcatTwo, pConcatOne] ⟨some 0, [pUnionOne]⟩ = .ok (true, ⟨none, [pUnionOne, pConcatOne, pStarOne, pItemChar]⟩) := alts_fail_step 31 h204 h234
  have h236 : matchNonTerminal regexGrammar toksA 33 "CONCAT" ⟨some 0, [pUnionOne]⟩ = .ok (true, ⟨none, [pUnionOne, pConcatOne, pStarOne, pItemChar]⟩) := nt_eval 32 rfl h235
  have h237 : matchElement regexGrammar toksA 34 (.nonterm "CONCAT") ⟨some 0, [pUnionOne]⟩ = .ok (true, ⟨none, [pUnionOne, pConcatOne, pStarOne, pItemChar]⟩) := elem_nt_eval 33 h236
  have h238 : matchElements regexGrammar toksA 34 (some 0) [] ⟨none, [pUnionOne, pConcatOne, pStarOne, pItemChar]⟩ = .ok (true, ⟨none, [pUnionOne, pConcatOne, pStarOne, pItemChar]⟩) := rfl
  have h239 : matchElements regexGrammar toksA 35 (some 0) [(.nonterm "CONCAT")] ⟨some 0, [pUnionOne]⟩ = .ok (true, ⟨none, [pUnionOne, pConcatOne, pStarOne, pItemChar]⟩) := elems_true_step 34 h237 h238
  have h240 : matchProduction regexGrammar toksA 36 pUnionOne ⟨some 0, [pUnionOne]⟩ = .ok (true, ⟨none, [pUnionOne, pConcatOne, pStarOne, pItemChar]⟩) := prod_eval 35 h239
  have h241 : matchAlternatives regexGrammar toksA 37 0 [pUnionOne] ⟨some 0, []⟩ = .ok (true, ⟨none, [pUnionOne, pConcatOne, pStarOne, pItemChar]⟩) := alts_succ_step 36 h240
  have h242 : matchAlternatives regexGrammar toksA 38 0 [pUnionBar, pUnionOne] ⟨some 0, []⟩ = .ok (true, ⟨none, [pUnionOne, pConcatOne, pStarOne, pItemChar]⟩) := alts_fail_step 37 h120 h241
  have h243 : matchNonTerminal regexGrammar toksA 39 "UNION" ⟨some 0, []⟩ = .ok (true, ⟨none, [pUnionOne, pConcatOne, pStarOne, pItemChar]⟩) := nt_eval 38 rfl h242
  have h244 : matchElement regexGrammar toksA 40 (.nonterm "UNION") ⟨some 0, []⟩ = .ok (true, ⟨none, [pUnionOne, pConcatOne, pStarOne, pItemChar]⟩) := elem_nt_eval 39 h243
  exact h244
theorem matchTrace_empty :
    matchElement regexGrammar ([] : List Token) 40 (.nonterm "UNION") ⟨some 0, []⟩ =
      .error .indexError := by
  have h1 : matchElement regexGrammar ([] : List Token) 25 (.nonterm "ITEM") ⟨some 0, [pUnionBar, pConcatTwo, pStarStar]⟩ = .error .indexError := rfl
  have h2 : matchElements regexGrammar ([] : List Token) 26 (some 0) [(.nonterm "ITEM"), (.term "*")] ⟨some 0, [pUnionBar, pConcatTwo, pStarStar]⟩ = .error .indexError := elems_err_step 25 h1
  have h3 : matchProduction regexGrammar ([] : List Token) 27 pStarStar ⟨some 0, [pUnionBar, pConcatTwo, pStarStar]⟩ = .error .indexError := prod_eval 26 h2
  have h4 : matchAlternatives regexGrammar ([] : List Token) 28 2 [pStarStar, pStarOpt, pStarPlus, pStarOne] ⟨some 0, [pUnionBar, pConcatTwo]⟩ = .error .indexError := alts_err_step 27 h3
  have h5 : matchNonTerminal regexGrammar ([] : List Token) 29 "STAR" ⟨some 0, [pUnionBar, pConcatTwo]⟩ = .error .indexError := nt_eval 28 rfl h4
  have h6 : matchElement regexGrammar ([] : List Token) 30 (.nonterm "STAR") ⟨some 0, [pUnionBar, pConcatTwo]⟩ = .error .indexError := elem_nt_eval 29 h5
  have h7 : matchElements regexGrammar ([] : List Token) 31 (some 0) [(.nonterm "STAR"), (.nonterm "CONCAT")] ⟨some 0, [pUnionBar, pConcatTwo]⟩ = .error .indexError := elems_err_step 30 h6
  have h8 : matchProduction regexGrammar ([] : List Token) 32 pConcatTwo ⟨some 0, [pUnionBar, pConcatTwo]⟩ = .error .indexError := prod_eval 31 h7
  have h9 : matchAlternatives regexGrammar ([] : List Token) 33 1 [pConcatTwo, pConcatOne] ⟨some 0, [pUnionBar]⟩ = .error .indexError := alts_err_step 32 h8
  have h10 : matchNonTerminal regexGrammar ([] : List Token) 34 "CONCAT" ⟨some 0, [pUnionBar]⟩ = .error .indexError := nt_eval 33 rfl h9
  have h11 : matchElement regexGrammar ([] : List Token) 35 (.nonterm "CONCAT") ⟨some 0, [pUnionBar]⟩ = .error .indexError := elem_nt_eval 34 h10
  have h12 : matchElements regexGrammar ([] : List Token) 36 (some 0) [(.nonterm "CONCAT"), (.term "|"), (.nonterm "UNION")] ⟨some 0, [pUnionBar]⟩ = .error .indexError := elems_err_step 35 h11
  have h13 : matchProduction regexGrammar ([] : List Token) 37 pUnionBar ⟨some 0, [pUnionBar]⟩ = .error .indexError := prod_eval 36 h12
  have h14 : matchAlternatives regexGrammar ([] : List Token) 38 0 [pUnionBar, pUnionOne] ⟨some 0, []⟩ = .error .indexError := alts_err_step 37 h13
  have h15 : matchNonTerminal regexGrammar ([] : List Token) 39 "UNION" ⟨some 0, []⟩ = .error .indexError := nt_eval 38 rfl h14
  have h16 : matchElement regexGrammar ([] : List Token) 40 (.nonterm "UNION") ⟨some 0, []⟩ = .error .indexError := elem_nt_eval 39 h15
  exact h16

/-- The NFA the reducers build for `"a*|b"`. -/
def nfaABstar : Nfa := Nfa.union [Nfa.star (Nfa.char "a"), Nfa.char "b"]

/-- The parse tree of `"a*|b"`. -/
def treeABstar : PTree :=
  .node pUnionBar
    [ .node pConcatOne
        [ .node pStarStar
            [ .node pItemChar [.leaf "char" (some ⟨"char", "a"⟩)],
              .leaf "*" (some (Token.ofCategory "*")) ] ],
      .leaf "|" (some (Token.ofCategory "|")),
      .node pUnionOne
        [ .node pConcatOne
            [ .node pStarOne
                [ .node pItemChar [.leaf "char" (some ⟨"char", "b"⟩)] ] ] ] ]

/-- The parse tree of `"a"`. -/
def treeA : PTree :=
  .node pUnionOne
    [ .node pConcatOne
        [ .node pStarOne
            [ .node pItemChar [.leaf "char" (some ⟨"char", "a"⟩)] ] ] ]

set_option maxHeartbeats 8000000 in
theorem ptInit_abstar : parseTreeInit toksABstar
    [pUnionBar, pConcatOne, pStarStar, pItemChar, pUnionOne, pConcatOne,
      pStarOne, pItemChar] =
    .ok (treeABstar, some (.nfa nfaABstar)) := rfl

set_option maxHeartbeats 8000000 in
theorem ptInit_a : parseTreeInit toksA
    [pUnionOne, pConcatOne, pStarOne, pItemChar] = .ok (treeA, none) := rfl

set_option maxHeartbeats 8000000 in
theorem parse_abstar : parseTokens regexGrammar 40 toksABstar =
    .ok ⟨true, some treeABstar, some (.nfa nfaABstar)⟩ := by
  refine parseTokens_eval rfl matchTrace_abstar ?_
  rw [if_pos (⟨rfl, rfl⟩ :
    ((true, (⟨none, [pUnionBar, pConcatOne, pStarStar, pItemChar, pUnionOne,
      pConcatOne, pStarOne, pItemChar]⟩ : PState)).1 = true ∧
     ((true, (⟨none, [pUnionBar, pConcatOne, pStarStar, pItemChar, pUnionOne,
      pConcatOne, pStarOne, pItemChar]⟩ : PState)).2).lookahead = none))]
  rw [show ((true, (⟨none, [pUnionBar, pConcatOne, pStarStar, pItemChar,
      pUnionOne, pConcatOne, pStarOne, pItemChar]⟩ : PState)).2).stack =
    [pUnionBar, pConcatOne, pStarStar, pItemChar, pUnionOne, pConcatOne,
      pStarOne, pItemChar] from rfl]
  rw [ptInit_abstar]
  rfl

set_option maxHeartbeats 8000000 in
theorem parse_a : parseTokens regexGrammar 40 toksA =
    .ok ⟨true, some treeA, none⟩ := by
  refine parseTokens_eval rfl matchTrace_a ?_
  rw [if_pos (⟨rfl, rfl⟩ :
    ((true, (⟨none, [pUnionOne, pConcatOne, pStarOne, pItemChar]⟩ : PState)).1 = true ∧
     ((true, (⟨none, [pUnionOne, pConcatOne, pStarOne, pItemChar]⟩ : PState)).2).lookahead = none))]
  rw [show ((true, (⟨none, [pUnionOne, pConcatOne, pStarOne, pItemChar]⟩ :
      PState)).2).stack = [pUnionOne, pConcatOne, pStarOne, pItemChar] from rfl]
  rw [ptInit_a]
  rfl

theorem parse_empty : parseTokens regexGrammar 40 [] = .error .indexError :=
  parseTokens_eval_err rfl matchTrace_empty

set_option maxHeartbeats 8000000 in
theorem nfaOf_abstar : regexNfaOf 40 "a*|b" = .ok nfaABstar := by
  unfold regexNfaOf
  exact bind_ok_eq rfl (bind_ok_eq parse_abstar rfl)

-- ---------------------------------------------------------------------
-- Witness material for the parser claims
-- ---------------------------------------------------------------------

/-- `S -> "a"`, first alternative of the two-production witness grammar. -/
def prodA5 : GProd := ⟨"S", [.term "a"], none⟩

/-- `S -> "b"`, second alternative. -/
def prodB5 : GProd := ⟨"S", [.term "b"], none⟩

/-- The grammar with the two alternatives above. -/
def gAB5 : Grammar := [("S", [prodA5, prodB5])]

/-- `S -> "char"`: a one-production grammar over the regex lexer's
general token class. -/
def pChar6 : GProd := ⟨"S", [.term "char"], none⟩

def gChar6 : Grammar := [("S", [pChar6])]

def tree6 : PTree := .node pChar6 [.leaf "char" (some ⟨"char", "a"⟩)]

def res6 : ParseResult := ⟨true, some tree6, none⟩

-- ---------------------------------------------------------------------
-- The claims
-- ---------------------------------------------------------------------

/-- C1: the claim `compile(R).match(w) == NFA_of(R).match(w)` is refuted
at `R = "a*|b"`, `w = ""`: the compiled DFA accepts the empty string
(its initial state is the epsilon-closure of state 0 and is final),
while `Nfa.match` starts from the bare state set `{0}` without taking
the epsilon-closure, so the NFA rejects. -/
theorem c1_dfa_nfa_mismatch :
    regexNfaOf 40 "a*|b" = .ok nfaABstar ∧
    Nfa.runMatch nfaABstar (strChars "") = false ∧
    regexCompile 40 5 "a*|b" = Dfa.translate 5 nfaABstar ∧
    (Dfa.translate 5 nfaABstar).map (fun d => Dfa.runMatch d (strChars "")) =
      .ok true := by
  refine ⟨nfaOf_abstar, by decide, ?_, by decide⟩
  unfold regexCompile
  exact bind_ok_eq nfaOf_abstar rfl

/-- C2: the claim that `Nfa.match("")` accepts iff
`final ∈ ε_closure({0})` is refuted by the combinator-built NFA
`Nfa.epsilon` itself: its final state lies in the epsilon-closure of
`{0}`, yet `match("")` returns false, because `Nfa.match` tests
`is_final` on the start set `{0}` without applying the
epsilon-closure. -/
theorem c2_empty_match_misses_closure :
    Built Nfa.epsilon ∧
    Nfa.epsilon.final ∈ Nfa.epsilon.epsilonClosure {0} ∧
    Nfa.runMatch Nfa.epsilon (strChars "") = false :=
  ⟨Built.epsilon, by decide, by decide⟩

/-- C3: the claim that `return_value` always equals the bottom-up
reduction of the parse tree — in particular when the root production
has no descriptor — is refuted by the pattern `"a"`: the parse
succeeds, the spec's reduction of its tree yields `Nfa.char "a"`, but
`ParseTree.__init__` computes a reduction only when the ROOT production
carries a descriptor, so `return_value` is `None`, and
`compile`/`regexNfaOf` then crashes on the `None` (AttributeError in
`Dfa.__init__`). -/
theorem c3_root_without_descriptor :
    parseTokens regexGrammar 40 toksA = .ok ⟨true, some treeA, none⟩ ∧
    returnValue treeA = .ok (.nfa (Nfa.char "a")) ∧
    regexNfaOf 40 "a" = .error .attributeError := by
  refine ⟨parse_a, rfl, ?_⟩
  unfold regexNfaOf
  exact bind_ok_eq rfl (bind_ok_eq parse_a rfl)

/-- C4: the claim that `parse("")` returns false without raising
(true when the start symbol derives epsilon) is refuted on both sides:
with the regex grammar and lexer, `parse("")` raises IndexError
(`self._tokens[0]` on an empty token vector, since `_reset` sets the
lookahead to `0` unconditionally); and with the grammar `S -> ε`, whose
start symbol derives epsilon and whose match of the start symbol
SUCCEEDS, `parse` still returns false because the lookahead `0` is not
`None` at the end of the scan. -/
theorem c4_empty_input :
    (regexTokenize "").bind (fun tks => parseTokens regexGrammar 40 tks) =
      .error .indexError ∧
    (matchElement epsilonGrammar [] 50 (.nonterm "S") ⟨some 0, []⟩).map
      (fun r => r.1) = .ok true ∧
    (parseTokens epsilonGrammar 50 []).map (fun r => r.ok) = .ok false := by
  refine ⟨?_, rfl, rfl⟩
  exact bind_ok_eq rfl parse_empty

/-- C5: matching is state-restoring and first-success, for every
grammar, token vector and fuel: a failed production restores the
lookahead saved at its entry; a failed alternative of a non-terminal
restores the whole entry state (the pushed production is truncated off
the stack, `save = len(stack)`); a failed non-terminal restores the
whole state; and a successful list of alternatives commits to the
first alternative that succeeds, every earlier one having failed. -/
theorem c5_backtracking (g : Grammar) (tokens : List Token) (fuel : Nat) :
    (∀ p st b st', matchProduction g tokens fuel p st = .ok (b, st') →
      b = false → st'.lookahead = st.lookahead) ∧
    (∀ p st r,
      matchProduction g tokens fuel p { st with stack := st.stack ++ [p] } =
        .ok r → r.1 = false →
      ({ r.2 with stack := r.2.stack.take st.stack.length } : PState) = st) ∧
    (∀ name st b st', matchNonTerminal g tokens fuel name st = .ok (b, st') →
      b = false → st' = st) ∧
    (∀ ps st st',
      matchAlternatives g tokens fuel st.stack.length ps st = .ok (true, st') →
      ∃ i p, ps.get? i = some p ∧
        (∀ j pj, j < i → ps.get? j = some pj →
          ∃ stj, matchProduction g tokens (fuel - 1 - j) pj
            { st with stack := st.stack ++ [pj] } = .ok (false, stj)) ∧
        matchProduction g tokens (fuel - 1 - i) p
          { st with stack := st.stack ++ [p] } = .ok (true, st')) := by
  refine ⟨?_, ?_, ?_, ?_⟩
  · intro p st b st' h hb
    exact (prodInv_all g tokens fuel p st b st' h).2 hb
  · intro p st r h hb
    exact alts_reset g tokens fuel p st r h hb
  · intro name st b st' h hb
    exact (ntInv_all g tokens fuel name st b st' h).2 hb
  · intro ps st st' h
    exact alts_first_success g tokens fuel ps st st' h

/-- C5 at a concrete input: with `S -> "a" | "b"` on the token vector
`["b"]`, the first alternative fails and the second is the committed
success. -/
theorem c5_witness :
    ∃ i p, [prodA5, prodB5].get? i = some p ∧
      (∀ j pj, j < i → [prodA5, prodB5].get? j = some pj →
        ∃ stj, matchProduction gAB5 [Token.ofCategory "b"] (10 - 1 - j) pj
          ⟨some 0, [pj]⟩ = .ok (false, stj)) ∧
      matchProduction gAB5 [Token.ofCategory "b"] (10 - 1 - i) p
        ⟨some 0, [p]⟩ = .ok (true, ⟨none, [prodB5]⟩) :=
  (c5_backtracking gAB5 [Token.ofCategory "b"] 10).2.2.2
    [prodA5, prodB5] ⟨some 0, []⟩ ⟨none, [prodB5]⟩ rfl

/-- C6: for every successful parse of a tokenized input, the leaves of
the parse tree carry exactly the tokens, in order (so their count is
the token count). -/
theorem c6_leaves_carry_tokens (cfg : LexCfg) (g : Grammar) (fuel : Nat)
    (w : List Char) (tokens : List Token) (res : ParseResult)
    (hlex : tokenize cfg w = .ok tokens)
    (hp : parseTokens g fuel tokens = .ok res) (hok : res.ok = true) :
    ∃ tree, res.parseTree = some tree ∧
      leafTokens tree = tokens.map some ∧
      leafCount tree = tokens.length :=
  parse_success_leafTokens g fuel tokens res hp hok

/-- C6 at a concrete input: the grammar `S -> "char"` over the regex
lexer, on the input `"a"`. -/
theorem c6_witness :
    ∃ tree, res6.parseTree = some tree ∧
      leafTokens tree = [(⟨"char", "a"⟩ : Token)].map some ∧
      leafCount tree = [(⟨"char", "a"⟩ : Token)].length :=
  c6_leaves_carry_tokens regexLexCfg gChar6 10 ['a'] [⟨"char", "a"⟩] res6
    rfl rfl rfl

/-- C7: for every combinator-built NFA and every state `s` of it, `s`
belongs to its own epsilon-closure, and the epsilon-closure is
idempotent. -/
theorem c7_closure_self_idempotent (n : Nfa) (hb : Built n) (s : Nat)
    (hs : s < n.table.length) :
    s ∈ n.closureOfState s ∧
    n.epsilonClosure (n.closureOfState s) = n.closureOfState s :=
  ⟨mem_closure_self n.table s,
    closure_idempotent (built_wf_len hb).1 hs⟩

/-- C7 at a concrete input: state 0 of the epsilon NFA. -/
theorem c7_witness :
    0 < Nfa.epsilon.table.length ∧
    (0 ∈ Nfa.epsilon.closureOfState 0 ∧
      Nfa.epsilon.epsilonClosure (Nfa.epsilon.closureOfState 0) =
        Nfa.epsilon.closureOfState 0) :=
  ⟨by decide, c7_closure_self_idempotent Nfa.epsilon Built.epsilon 0 (by decide)⟩

/-- C8 (counterexample): the escaped special character `\(` does NOT
tokenize as a general-class token: `tokenize` skips the escape
character with `continue` and then processes `(` as usual, producing
the special token `(`, not `Token("char", "(")`. -/
theorem c8_counterexample :
    tokenize regexLexCfg ['\\', '('] = .ok [Token.ofCategory "("] ∧
    Token.ofCategory "(" ≠ (⟨"char", "("⟩ : Token) :=
  ⟨rfl, by decide⟩

/-- C8 (amended): the escape character is simply skipped, so `\c` for a
character `c` that is neither special nor the escape character itself
yields the single general-class token with lexeme `c` — exactly as the
unescaped `c` would. -/
theorem c8_escape_skips (c : Char) (h1 : c ∉ regexLexCfg.special)
    (h2 : c ≠ regexLexCfg.escape) :
    tokenize regexLexCfg ['\\', c] = .ok [⟨"char", c.toString⟩] := by
  have hskip : tokenize regexLexCfg ['\\', c] = tokenize regexLexCfg [c] := rfl
  rw [hskip]
  unfold tokenize
  rw [if_neg h2]
  rw [if_neg (fun hcontra => hcontra.1 rfl)]
  rw [if_neg h1]
  rfl

/-- C8 at a concrete input: `\a`. -/
theorem c8_witness :
    ('a' ∉ regexLexCfg.special ∧ 'a' ≠ regexLexCfg.escape) ∧
    tokenize regexLexCfg ['\\', 'a'] = .ok [⟨"char", "a"⟩] :=
  ⟨⟨by decide, by decide⟩, c8_escape_skips 'a' (by decide) (by decide)⟩

/-- C9: `TableRow` defines no `__eq__`, so Python `==` on two rows is
object identity: two distinct row objects with equal data and equal
default compare unequal, refuting the claimed data+default equality
(which the spec's relation `tableRowSpecEq` renders, and under which
the same pair compares equal; defaults do distinguish rows under it). -/
theorem c9_identity_not_structural :
    tableRowSpecEq ⟨0, ⟨[(0, "a")], .noneD⟩⟩ ⟨1, ⟨[(0, "a")], .noneD⟩⟩ = true ∧
    tableRowPyEq ⟨0, ⟨[(0, "a")], .noneD⟩⟩ ⟨1, ⟨[(0, "a")], .noneD⟩⟩ = false ∧
    tableRowSpecEq ⟨0, ⟨[(0, "a")], .noneD⟩⟩ ⟨1, ⟨[(0, "a")], .intFactory⟩⟩ =
      false :=
  ⟨rfl, rfl, rfl⟩

/-- C10: the final state's row of every combinator-built NFA is
completely empty. -/
theorem c10_final_row_empty (n : Nfa) (hb : Built n) :
    getRow n.table (n.table.length - 1) = [] :=
  built_final_row_empty hb

/-- C10 at a concrete input: `Nfa.star (Nfa.char "a")`. -/
theorem c10_witness :
    getRow (Nfa.star (Nfa.char "a")).table
      ((Nfa.star (Nfa.char "a")).table.length - 1) = [] :=
  c10_final_row_empty (Nfa.star (Nfa.char "a"))
    (Built.star (Nfa.char "a") (Built.char "a"))
